import Mathlib

/-!
Shallow embedding of the NES_emulator core (C sources) in Lean 4.

Conventions used throughout, modelling C's fixed-width unsigned arithmetic
over `Nat`:
- a value stored into a `uint8_t` (resp. `uint16_t`) variable or field, or
  returned from a function of that type, is reduced `% 256` (resp. `% 65536`)
  exactly where the C type forces a conversion;
- `&`, `|`, `^`, `<<`, `>>` become `&&&`, `|||`, `^^^`, `<<<`, `>>>`;
- C `int` locals that can be negative (PPU scanline/dot arithmetic, sprite
  rows, relative branch offsets) are modelled as `Int`;
- byte arrays become functions `Nat → Nat`; the two-element controller
  arrays of the bus become pairs of fields;
- the C pointer graph (CPU/Bus/PPU/APU/Cartridge pointing at each other,
  always non-null once the machine is initialized) is modelled by one
  record `Nes` holding every component; functions of the PPU translation
  unit act on the sub-record `PpuC` (the PPU together with the cartridge it
  points to);
- floating-point audio output (the APU's `audio_time`, `sample_buffer`,
  `sample_count` fields, the sample-accumulation tail of `apu_tick` and the
  float mixing in `apu_get_sample`) is not modelled: it influences only the
  sample buffer, never any field examined here.  The integer-valued
  per-channel outputs computed inside `apu_get_sample` are modelled exactly.
-/

/-! ## APU data model (src/apu/apu.h) -/

/-- `PulseChannel` of src/apu/apu.h. -/
structure PulseChannel where
  enabled : Bool
  duty_mode : Nat
  volume : Nat
  constant_volume : Bool
  envelope_start : Bool
  envelope_loop : Bool
  envelope_period : Nat
  envelope_value : Nat
  envelope_counter : Nat
  sweep_enabled : Bool
  sweep_period : Nat
  sweep_negate : Bool
  sweep_shift : Nat
  sweep_reload : Bool
  sweep_counter : Nat
  timer : Nat
  timer_load : Nat
  length_counter : Nat
  duty_sequence_step : Nat

/-- `TriangleChannel` of src/apu/apu.h. -/
structure TriangleChannel where
  enabled : Bool
  length_halt : Bool
  linear_counter_reload_value : Nat
  timer : Nat
  timer_load : Nat
  length_counter : Nat
  linear_counter : Nat
  linear_reload : Bool
  sequencer_step : Nat

/-- `NoiseChannel` of src/apu/apu.h. -/
structure NoiseChannel where
  enabled : Bool
  length_halt : Bool
  constant_volume : Bool
  volume : Nat
  envelope_start : Bool
  envelope_period : Nat
  envelope_value : Nat
  envelope_counter : Nat
  timer : Nat
  timer_load : Nat
  length_counter : Nat
  shift_register : Nat
  mode_flag : Bool

/-- `DMCChannel` of src/apu/apu.h. -/
structure DMCChannel where
  enabled : Bool
  loop : Bool
  irq_enabled : Bool
  sample_address : Nat
  sample_length : Nat
  current_address : Nat
  bytes_remaining : Nat
  output_level : Nat
  buffer : Nat
  buffer_empty : Bool
  bits_remaining : Nat
  shift_register : Nat
  timer : Nat
  timer_load : Nat

/-- `APU` of src/apu/apu.h (audio-sample float fields omitted, see header).
`frame_step` models the translation-unit `static int step` local to
`apu_tick` in src/apu/apu.c; it is zero when the program starts. -/
structure APU where
  pulse1 : PulseChannel
  pulse2 : PulseChannel
  triangle : TriangleChannel
  noise : NoiseChannel
  dmc : DMCChannel
  frame_count : Nat
  frame_counter_mode : Nat
  irq_inhibit : Bool
  frame_irq : Bool
  frame_step : Nat

/-! ## APU functions (src/apu/apu.c) -/

/-- `length_table[32]` of src/apu/apu.c. -/
def length_table (i : Nat) : Nat :=
  [10, 254, 20, 2, 40, 4, 80, 6, 160, 8, 60, 10, 14, 12, 26, 14,
   12, 16, 24, 18, 48, 20, 96, 22, 192, 24, 72, 26, 16, 28, 32, 30].getD i 0

/-- `duty_cycles[4][8]` of src/apu/apu.c. -/
def duty_cycles (mode i : Nat) : Nat :=
  ([[0, 1, 0, 0, 0, 0, 0, 0],
    [0, 1, 1, 0, 0, 0, 0, 0],
    [0, 1, 1, 1, 1, 0, 0, 0],
    [1, 0, 0, 1, 1, 1, 1, 1]].getD mode []).getD i 0

/-- `noise_period[16]` of src/apu/apu.c. -/
def noise_period (i : Nat) : Nat :=
  [4, 8, 16, 32, 64, 96, 128, 160, 202, 254, 380, 508, 762, 1016, 2034, 4068].getD i 0

/-- `dmc_period[16]` of src/apu/apu.c. -/
def dmc_period (i : Nat) : Nat :=
  [428, 380, 340, 320, 286, 254, 226, 214, 190, 160, 142, 128, 106, 84, 72, 54].getD i 0

/-- `apu_init` of src/apu/apu.c: `memset` to zero, noise shift register 1,
all `enabled` flags false.  The constant result also carries `frame_step = 0`:
the C `static int step` is zero when the program starts (it lives outside the
`APU` struct and is therefore untouched by the `memset`). -/
def apu_init : APU :=
  { pulse1 := ⟨false, 0, 0, false, false, false, 0, 0, 0, false, 0, false, 0, false, 0, 0, 0, 0, 0⟩
    pulse2 := ⟨false, 0, 0, false, false, false, 0, 0, 0, false, 0, false, 0, false, 0, 0, 0, 0, 0⟩
    triangle := ⟨false, false, 0, 0, 0, 0, 0, false, 0⟩
    noise := ⟨false, false, false, 0, false, 0, 0, 0, 0, 0, 0, 1, false⟩
    dmc := ⟨false, false, false, 0, 0, 0, 0, 0, 0, false, 0, 0, 0, 0⟩
    frame_count := 0
    frame_counter_mode := 0
    irq_inhibit := false
    frame_irq := false
    frame_step := 0 }

/-- `pulse_tick_timer` of src/apu/apu.c. -/
def pulse_tick_timer (p : PulseChannel) : PulseChannel :=
  if p.timer = 0 then
    { p with timer := p.timer_load, duty_sequence_step := (p.duty_sequence_step + 1) &&& 7 }
  else
    { p with timer := p.timer - 1 }

/-- `triangle_tick_timer` of src/apu/apu.c. -/
def triangle_tick_timer (t : TriangleChannel) : TriangleChannel :=
  if t.timer = 0 then
    if t.length_counter > 0 ∧ t.linear_counter > 0 then
      { t with timer := t.timer_load, sequencer_step := (t.sequencer_step + 1) &&& 31 }
    else
      { t with timer := t.timer_load }
  else
    { t with timer := t.timer - 1 }

/-- `noise_tick_timer` of src/apu/apu.c. -/
def noise_tick_timer (z : NoiseChannel) : NoiseChannel :=
  if z.timer = 0 then
    let shift := if z.mode_flag then 6 else 1
    let feedback := (z.shift_register &&& 1) ^^^ ((z.shift_register >>> shift) &&& 1)
    { z with timer := z.timer_load,
             shift_register := (z.shift_register >>> 1) ||| (feedback <<< 14) }
  else
    { z with timer := z.timer - 1 }

/-- `tick_length_counter` of src/apu/apu.c (pulse; the halt flag is the
envelope-loop bit). -/
def tick_length_counter (p : PulseChannel) : PulseChannel :=
  if ¬p.envelope_loop ∧ p.length_counter > 0 then
    { p with length_counter := p.length_counter - 1 }
  else p

/-- `tick_triangle_length` of src/apu/apu.c. -/
def tick_triangle_length (t : TriangleChannel) : TriangleChannel :=
  if ¬t.length_halt ∧ t.length_counter > 0 then
    { t with length_counter := t.length_counter - 1 }
  else t

/-- `tick_noise_length` of src/apu/apu.c. -/
def tick_noise_length (z : NoiseChannel) : NoiseChannel :=
  if ¬z.length_halt ∧ z.length_counter > 0 then
    { z with length_counter := z.length_counter - 1 }
  else z

/-- `tick_envelope` of src/apu/apu.c (pulse). -/
def tick_envelope (p : PulseChannel) : PulseChannel :=
  if p.envelope_start then
    { p with envelope_start := false, envelope_counter := p.envelope_period,
             envelope_value := 15 }
  else
    if p.envelope_counter > 0 then
      { p with envelope_counter := p.envelope_counter - 1 }
    else
      let p := { p with envelope_counter := p.envelope_period }
      if p.envelope_value > 0 then
        { p with envelope_value := p.envelope_value - 1 }
      else if p.envelope_loop then
        { p with envelope_value := 15 }
      else p

/-- `tick_noise_envelope` of src/apu/apu.c. -/
def tick_noise_envelope (z : NoiseChannel) : NoiseChannel :=
  if z.envelope_start then
    { z with envelope_start := false, envelope_counter := z.envelope_period,
             envelope_value := 15 }
  else
    if z.envelope_counter > 0 then
      { z with envelope_counter := z.envelope_counter - 1 }
    else
      let z := { z with envelope_counter := z.envelope_period }
      if z.envelope_value > 0 then
        { z with envelope_value := z.envelope_value - 1 }
      else if z.length_halt then
        { z with envelope_value := 15 }
      else z

/-- `tick_linear_counter` of src/apu/apu.c. -/
def tick_linear_counter (t : TriangleChannel) : TriangleChannel :=
  let t :=
    if t.linear_reload then
      { t with linear_counter := t.linear_counter_reload_value }
    else if t.linear_counter > 0 then
      { t with linear_counter := t.linear_counter - 1 }
    else t
  if ¬t.length_halt then { t with linear_reload := false } else t

/-- `tick_sweep` of src/apu/apu.c.  `channel` is the second C argument:
`apu_tick` passes `0` for `apu->pulse1` and `1` for `apu->pulse2`.
`(uint16_t)(-change)` is the two's complement `(65536 - change) % 65536`,
and the following `change--` wraps in `uint16_t`. -/
def tick_sweep (p : PulseChannel) (channel : Nat) : PulseChannel :=
  let current_period := p.timer_load % 65536
  let change0 := (current_period >>> p.sweep_shift) % 65536
  let change :=
    if p.sweep_negate then
      let neg := (65536 - change0) % 65536
      if channel = 1 then (neg + 65535) % 65536 else neg
    else change0
  let target_period := (current_period + change) % 65536
  let mute := current_period < 8 ∨ target_period > 0x7FF
  let p :=
    if p.sweep_counter = 0 ∧ p.sweep_enabled ∧ ¬mute ∧ p.sweep_shift > 0 then
      { p with timer_load := target_period }
    else p
  if p.sweep_counter = 0 ∨ p.sweep_reload then
    { p with sweep_counter := p.sweep_period, sweep_reload := false }
  else
    { p with sweep_counter := p.sweep_counter - 1 }

/-- `apu_tick` of src/apu/apu.c, minus the trailing floating-point
sample-accumulation block (which only touches the omitted audio fields).
`frame_step` plays the role of the C `static int step`. -/
def apu_tick (a : APU) : APU :=
  let a :=
    if a.frame_count % 2 = 0 then
      { a with pulse1 := pulse_tick_timer a.pulse1,
               pulse2 := pulse_tick_timer a.pulse2,
               noise := noise_tick_timer a.noise }
    else a
  let a := { a with triangle := triangle_tick_timer a.triangle }
  let a :=
    if a.frame_count % 7457 = 0 then
      let a := { a with pulse1 := tick_envelope a.pulse1,
                        pulse2 := tick_envelope a.pulse2,
                        noise := tick_noise_envelope a.noise,
                        triangle := tick_linear_counter a.triangle }
      let step := a.frame_step + 1
      let a :=
        if step = 2 ∨ step = 4 then
          { a with pulse1 := tick_sweep (tick_length_counter a.pulse1) 0,
                   pulse2 := tick_sweep (tick_length_counter a.pulse2) 1,
                   triangle := tick_triangle_length a.triangle,
                   noise := tick_noise_length a.noise }
        else a
      { a with frame_step := if step = 4 then 0 else step }
    else a
  { a with frame_count := a.frame_count + 1 }

/-- `apu_read` of src/apu/apu.c: the `$4015` status byte, clearing the
frame-IRQ flag; any other address reads 0. -/
def apu_read (a : APU) (addr : Nat) : Nat × APU :=
  if addr = 0x4015 then
    let status :=
      (if a.pulse1.length_counter > 0 then 0x01 else 0) |||
      (if a.pulse2.length_counter > 0 then 0x02 else 0) |||
      (if a.triangle.length_counter > 0 then 0x04 else 0) |||
      (if a.noise.length_counter > 0 then 0x08 else 0) |||
      (if a.dmc.bytes_remaining > 0 then 0x10 else 0) |||
      (if a.frame_irq then 0x40 else 0) |||
      (if a.dmc.irq_enabled then 0x80 else 0)
    (status, { a with frame_irq := false })
  else (0, a)

/-- `apu_write` of src/apu/apu.c (the switch has no cases for the DMC
registers `$4010`–`$4013`; those writes fall through with no effect). -/
def apu_write (a : APU) (addr val : Nat) : APU :=
  let val := val % 256
  if addr = 0x4000 then
    { a with pulse1 := { a.pulse1 with
        duty_mode := (val >>> 6) &&& 3,
        envelope_loop := (val >>> 5) &&& 1 ≠ 0,
        constant_volume := (val >>> 4) &&& 1 ≠ 0,
        volume := val &&& 0xF,
        envelope_period := val &&& 0xF } }
  else if addr = 0x4001 then
    { a with pulse1 := { a.pulse1 with
        sweep_enabled := (val >>> 7) &&& 1 ≠ 0,
        sweep_period := (val >>> 4) &&& 7,
        sweep_negate := (val >>> 3) &&& 1 ≠ 0,
        sweep_shift := val &&& 7,
        sweep_reload := true } }
  else if addr = 0x4002 then
    { a with pulse1 := { a.pulse1 with
        timer_load := (a.pulse1.timer_load &&& 0xFF00) ||| val } }
  else if addr = 0x4003 then
    let p := { a.pulse1 with
        timer_load := (a.pulse1.timer_load &&& 0x00FF) ||| ((val &&& 7) <<< 8) }
    let p := if p.enabled then { p with length_counter := length_table (val >>> 3) } else p
    { a with pulse1 := { p with envelope_start := true, duty_sequence_step := 0 } }
  else if addr = 0x4004 then
    { a with pulse2 := { a.pulse2 with
        duty_mode := (val >>> 6) &&& 3,
        envelope_loop := (val >>> 5) &&& 1 ≠ 0,
        constant_volume := (val >>> 4) &&& 1 ≠ 0,
        volume := val &&& 0xF,
        envelope_period := val &&& 0xF } }
  else if addr = 0x4005 then
    { a with pulse2 := { a.pulse2 with
        sweep_enabled := (val >>> 7) &&& 1 ≠ 0,
        sweep_period := (val >>> 4) &&& 7,
        sweep_negate := (val >>> 3) &&& 1 ≠ 0,
        sweep_shift := val &&& 7,
        sweep_reload := true } }
  else if addr = 0x4006 then
    { a with pulse2 := { a.pulse2 with
        timer_load := (a.pulse2.timer_load &&& 0xFF00) ||| val } }
  else if addr = 0x4007 then
    let p := { a.pulse2 with
        timer_load := (a.pulse2.timer_load &&& 0x00FF) ||| ((val &&& 7) <<< 8) }
    let p := if p.enabled then { p with length_counter := length_table (val >>> 3) } else p
    { a with pulse2 := { p with envelope_start := true, duty_sequence_step := 0 } }
  else if addr = 0x4008 then
    { a with triangle := { a.triangle with
        length_halt := (val >>> 7) &&& 1 ≠ 0,
        linear_counter_reload_value := val &&& 0x7F } }
  else if addr = 0x400A then
    { a with triangle := { a.triangle with
        timer_load := (a.triangle.timer_load &&& 0xFF00) ||| val } }
  else if addr = 0x400B then
    let t := { a.triangle with
        timer_load := (a.triangle.timer_load &&& 0x00FF) ||| ((val &&& 7) <<< 8) }
    let t := if t.enabled then { t with length_counter := length_table (val >>> 3) } else t
    { a with triangle := { t with linear_reload := true } }
  else if addr = 0x400C then
    { a with noise := { a.noise with
        length_halt := (val >>> 5) &&& 1 ≠ 0,
        constant_volume := (val >>> 4) &&& 1 ≠ 0,
        volume := val &&& 0xF,
        envelope_period := val &&& 0xF } }
  else if addr = 0x400E then
    { a with noise := { a.noise with
        mode_flag := (val >>> 7) &&& 1 ≠ 0,
        timer_load := noise_period (val &&& 0xF) } }
  else if addr = 0x400F then
    let z := if a.noise.enabled then
        { a.noise with length_counter := length_table (val >>> 3) }
      else a.noise
    { a with noise := { z with envelope_start := true } }
  else if addr = 0x4015 then
    let p1 := { a.pulse1 with enabled := val &&& 1 ≠ 0 }
    let p1 := if p1.enabled then p1 else { p1 with length_counter := 0 }
    let p2 := { a.pulse2 with enabled := val &&& 2 ≠ 0 }
    let p2 := if p2.enabled then p2 else { p2 with length_counter := 0 }
    let t := { a.triangle with enabled := val &&& 4 ≠ 0 }
    let t := if t.enabled then t else { t with length_counter := 0 }
    let z := { a.noise with enabled := val &&& 8 ≠ 0 }
    let z := if z.enabled then z else { z with length_counter := 0 }
    let d := { a.dmc with enabled := val &&& 16 ≠ 0 }
    let d := if d.enabled then d else { d with bytes_remaining := 0 }
    { a with pulse1 := p1, pulse2 := p2, triangle := t, noise := z, dmc := d,
             frame_irq := false }
  else if addr = 0x4017 then
    let a := { a with frame_counter_mode := (val >>> 7) &&& 1,
                      irq_inhibit := (val >>> 6) &&& 1 ≠ 0 }
    let a := if a.irq_inhibit then { a with frame_irq := false } else a
    if a.frame_counter_mode ≠ 0 then
      { a with pulse1 := tick_sweep (tick_length_counter (tick_envelope a.pulse1)) 0,
               pulse2 := tick_sweep (tick_length_counter (tick_envelope a.pulse2)) 1,
               noise := tick_noise_length (tick_noise_envelope a.noise),
               triangle := tick_triangle_length (tick_linear_counter a.triangle) }
    else a
  else a

/-- The integer-valued pulse output computed inside `apu_get_sample` of
src/apu/apu.c (`pulse1_out` / `pulse2_out`; the source repeats the same
four lines for each channel, here factored over the channel record).
The float variable holds exactly this integer before mixing. -/
def pulse_out (p : PulseChannel) : Nat :=
  if p.length_counter > 0 ∧ p.timer_load > 8 then
    if duty_cycles p.duty_mode p.duty_sequence_step ≠ 0 then
      (if p.constant_volume then p.volume else p.envelope_value)
    else 0
  else 0

/-- The integer-valued triangle output computed inside `apu_get_sample`. -/
def triangle_out (t : TriangleChannel) : Nat :=
  if t.length_counter > 0 ∧ t.linear_counter > 0 then
    let seq := t.sequencer_step
    if seq < 16 then 15 - seq else seq - 16
  else 0

/-- The integer-valued noise output computed inside `apu_get_sample`. -/
def noise_out (z : NoiseChannel) : Nat :=
  if z.length_counter > 0 ∧ ¬(z.shift_register &&& 1 ≠ 0) then
    (if z.constant_volume then z.volume else z.envelope_value)
  else 0

/-! ## Mapper and cartridge (src/mapper/mapper.h, src/mapper/mapper.c,
src/cartridge/cartridge.h, src/cartridge/cartridge.c) -/

/-- `MMC3State` of src/mapper/mapper.c; `bank_data` is the 8-byte array. -/
structure MMC3State where
  bank_select : Nat
  bank_data : Nat → Nat
  prg_mode : Nat
  chr_mode : Nat
  irq_latch : Nat
  irq_counter : Nat
  irq_enabled : Bool
  irq_pending : Bool
  irq_reload : Bool
  mirroring : Nat
  prg_ram_protect : Nat
  prev_a12_high : Bool
  last_a12_rise_cycle : Nat
  last_a12_high_cycle : Nat

/-- The mapper variants the factory `mapper_create` supports: id 0 (NROM,
`state == NULL`) and id 4 (MMC3 with its `MMC3State`).  The C struct of
function pointers becomes this tagged variant; the optional hooks
(`a12_latch`, `irq_pending`, `irq_clear`) are NULL exactly for NROM, which
the dispatchers below encode by doing nothing in the `nrom` case. -/
inductive MapperKind where
  | nrom : MapperKind
  | mmc3 (s : MMC3State) : MapperKind

/-- `Cartridge` of src/cartridge/cartridge.h together with its mapper.
`chr_rom`/`chr_ram`: exactly one is non-NULL after loading, modelled with
`Option`.  `prg_ram` is always allocated (8 KiB) by `cartridge_load`. -/
structure Cart where
  prg_rom : Nat → Nat
  prg_rom_size : Nat
  chr_rom : Option (Nat → Nat)
  chr_rom_size : Nat
  chr_ram : Option (Nat → Nat)
  prg_ram : Nat → Nat
  mirroring : Nat
  mapper : MapperKind

/-- `nrom_cpu_read` of src/mapper/mapper.c. -/
def nrom_cpu_read (c : Cart) (addr : Nat) : Nat :=
  if addr ≥ 0x8000 then
    (c.prg_rom ((addr - 0x8000) % c.prg_rom_size)) % 256
  else if addr ≥ 0x6000 then
    (c.prg_ram (addr - 0x6000)) % 256
  else 0

/-- `nrom_cpu_write` of src/mapper/mapper.c. -/
def nrom_cpu_write (c : Cart) (addr val : Nat) : Cart :=
  if addr ≥ 0x6000 ∧ addr < 0x8000 then
    { c with prg_ram := fun j => if j = addr - 0x6000 then val % 256 else c.prg_ram j }
  else c

/-- `nrom_ppu_read` of src/mapper/mapper.c. -/
def nrom_ppu_read (c : Cart) (addr : Nat) : Nat :=
  if addr < 0x2000 then
    match c.chr_rom, c.chr_ram with
    | some rom, _ => rom addr % 256
    | none, some ram => ram addr % 256
    | none, none => 0
  else 0

/-- `nrom_ppu_write` of src/mapper/mapper.c. -/
def nrom_ppu_write (c : Cart) (addr val : Nat) : Cart :=
  if addr < 0x2000 then
    match c.chr_ram with
    | some ram => { c with chr_ram := some (fun j => if j = addr then val % 256 else ram j) }
    | none => c
  else c

/-- The CHR bank-number computation shared verbatim by `mmc3_ppu_read` and
`mmc3_ppu_write` in src/mapper/mapper.c (the two functions repeat the same
`chr_mode` decision tree). -/
def mmc3_chr_offset (c : Cart) (s : MMC3State) (addr : Nat) : Nat :=
  let chr_banks := c.chr_rom_size / 1024
  let chr_banks := if chr_banks = 0 then 8 else chr_banks
  let bank :=
    if s.chr_mode = 0 then
      if addr < 0x0800 then (s.bank_data 0 &&& 0xFE) + ((addr >>> 10) &&& 1)
      else if addr < 0x1000 then (s.bank_data 1 &&& 0xFE) + (((addr - 0x0800) >>> 10) &&& 1)
      else if addr < 0x1400 then s.bank_data 2
      else if addr < 0x1800 then s.bank_data 3
      else if addr < 0x1C00 then s.bank_data 4
      else s.bank_data 5
    else
      if addr < 0x0400 then s.bank_data 2
      else if addr < 0x0800 then s.bank_data 3
      else if addr < 0x0C00 then s.bank_data 4
      else if addr < 0x1000 then s.bank_data 5
      else if addr < 0x1800 then (s.bank_data 0 &&& 0xFE) + (((addr - 0x1000) >>> 10) &&& 1)
      else (s.bank_data 1 &&& 0xFE) + (((addr - 0x1800) >>> 10) &&& 1)
  (bank % chr_banks) * 1024 + (addr &&& 0x03FF)

/-- `mmc3_cpu_read` of src/mapper/mapper.c (`prg_banks ≥ 2` for any real
MMC3 image; C wraps `prg_banks - 2` in `uint32_t` otherwise). -/
def mmc3_cpu_read (c : Cart) (s : MMC3State) (addr : Nat) : Nat :=
  if addr ≥ 0x8000 then
    let prg_banks := c.prg_rom_size / 8192
    let bank :=
      if addr < 0xA000 then (if s.prg_mode ≠ 0 then prg_banks - 2 else s.bank_data 6)
      else if addr < 0xC000 then s.bank_data 7
      else if addr < 0xE000 then (if s.prg_mode ≠ 0 then s.bank_data 6 else prg_banks - 2)
      else prg_banks - 1
    (c.prg_rom ((bank % prg_banks) * 8192 + (addr &&& 0x1FFF))) % 256
  else if addr ≥ 0x6000 then
    (c.prg_ram (addr - 0x6000)) % 256
  else 0

/-- `mmc3_cpu_write` of src/mapper/mapper.c. -/
def mmc3_cpu_write (c : Cart) (s : MMC3State) (addr val : Nat) : Cart :=
  let val := val % 256
  if addr ≥ 0x6000 ∧ addr < 0x8000 then
    { c with prg_ram := fun j => if j = addr - 0x6000 then val else c.prg_ram j }
  else if addr ≥ 0x8000 then
    let r := addr &&& 0xE001
    if r = 0x8000 then
      { c with mapper := .mmc3 { s with
          bank_select := val &&& 0x07,
          prg_mode := (val >>> 6) &&& 1,
          chr_mode := (val >>> 7) &&& 1 } }
    else if r = 0x8001 then
      { c with mapper := .mmc3 { s with
          bank_data := fun j => if j = s.bank_select then val else s.bank_data j } }
    else if r = 0xA000 then
      { c with mirroring := (val &&& 1) ^^^ 1,
               mapper := .mmc3 { s with mirroring := val &&& 1 } }
    else if r = 0xA001 then
      { c with mapper := .mmc3 { s with prg_ram_protect := val } }
    else if r = 0xC000 then
      { c with mapper := .mmc3 { s with irq_latch := val } }
    else if r = 0xC001 then
      { c with mapper := .mmc3 { s with irq_counter := 0, irq_reload := true } }
    else if r = 0xE000 then
      { c with mapper := .mmc3 { s with irq_enabled := false, irq_pending := false } }
    else if r = 0xE001 then
      { c with mapper := .mmc3 { s with irq_enabled := true } }
    else c
  else c

/-- `mmc3_ppu_read` of src/mapper/mapper.c. -/
def mmc3_ppu_read (c : Cart) (s : MMC3State) (addr : Nat) : Nat :=
  if addr < 0x2000 then
    let offset := mmc3_chr_offset c s addr
    match c.chr_rom, c.chr_ram with
    | some rom, _ => rom offset % 256
    | none, some ram => ram offset % 256
    | none, none => 0
  else 0

/-- `mmc3_ppu_write` of src/mapper/mapper.c. -/
def mmc3_ppu_write (c : Cart) (s : MMC3State) (addr val : Nat) : Cart :=
  if addr < 0x2000 then
    match c.chr_ram with
    | some ram =>
        let offset := mmc3_chr_offset c s addr
        { c with chr_ram := some (fun j => if j = offset then val % 256 else ram j) }
    | none => c
  else c

/-- `mmc3_scanline` of src/mapper/mapper.c. -/
def mmc3_scanline (s : MMC3State) : MMC3State :=
  let s :=
    if s.irq_counter = 0 ∨ s.irq_reload then
      { s with irq_counter := s.irq_latch, irq_reload := false }
    else
      { s with irq_counter := s.irq_counter - 1 }
  if s.irq_counter = 0 ∧ s.irq_enabled then { s with irq_pending := true } else s

/-- `mmc3_a12_latch` of src/mapper/mapper.c; `cycle` is the `uint32_t`
argument and `cycle - last_a12_high_cycle` wraps in `uint32_t`
(`MMC3_A12_FILTER_DELAY` is 12). -/
def mmc3_a12_latch (s : MMC3State) (addr cycle : Nat) : MMC3State :=
  let cycle := cycle % 4294967296
  let a12_high := addr &&& 0x1000 ≠ 0
  if a12_high then
    let s :=
      if ¬s.prev_a12_high ∧
          (cycle + 4294967296 - s.last_a12_high_cycle % 4294967296) % 4294967296 > 12 then
        mmc3_scanline s
      else s
    { s with last_a12_high_cycle := cycle, prev_a12_high := true }
  else
    { s with prev_a12_high := false }

/-- The mapper's `irq_pending` hook: NULL for NROM (the callers test the
pointer before calling, so a missing hook reads as false), `mmc3_irq_pending`
for MMC3. -/
def mapper_irq_pending : MapperKind → Bool
  | .nrom => false
  | .mmc3 s => s.irq_pending

/-- The mapper's `irq_clear` hook (`mmc3_irq_clear`); a no-op for NROM whose
hook is NULL. -/
def mapper_irq_clear (c : Cart) : Cart :=
  match c.mapper with
  | .nrom => c
  | .mmc3 s => { c with mapper := .mmc3 { s with irq_pending := false } }

/-- The mapper's `a12_latch` hook (`mmc3_a12_latch`); NULL for NROM. -/
def mapper_a12_latch (c : Cart) (addr cycle : Nat) : Cart :=
  match c.mapper with
  | .nrom => c
  | .mmc3 s => { c with mapper := .mmc3 (mmc3_a12_latch s addr cycle) }

/-- `cartridge_cpu_read` of src/cartridge/cartridge.c (dispatch through the
mapper's `cpu_read`). -/
def cartridge_cpu_read (c : Cart) (addr : Nat) : Nat :=
  match c.mapper with
  | .nrom => nrom_cpu_read c addr
  | .mmc3 s => mmc3_cpu_read c s addr

/-- `cartridge_cpu_write` of src/cartridge/cartridge.c. -/
def cartridge_cpu_write (c : Cart) (addr val : Nat) : Cart :=
  match c.mapper with
  | .nrom => nrom_cpu_write c addr val
  | .mmc3 s => mmc3_cpu_write c s addr val

/-- `cartridge_ppu_read` of src/cartridge/cartridge.c. -/
def cartridge_ppu_read (c : Cart) (addr : Nat) : Nat :=
  match c.mapper with
  | .nrom => nrom_ppu_read c addr
  | .mmc3 s => mmc3_ppu_read c s addr

/-- `cartridge_ppu_write` of src/cartridge/cartridge.c. -/
def cartridge_ppu_write (c : Cart) (addr val : Nat) : Cart :=
  match c.mapper with
  | .nrom => nrom_ppu_write c addr val
  | .mmc3 s => mmc3_ppu_write c s addr val

/-! ## PPU data model (src/ppu/ppu.h) -/

/-- Register bit constants of src/ppu/ppu.h. -/
def PPU_CTRL_INCREMENT : Nat := 0x04

/-- `PPU_CTRL_SPRITE_PATTERN` of src/ppu/ppu.h. -/
def PPU_CTRL_SPRITE_PATTERN : Nat := 0x08

/-- `PPU_CTRL_BG_PATTERN` of src/ppu/ppu.h. -/
def PPU_CTRL_BG_PATTERN : Nat := 0x10

/-- `PPU_CTRL_SPRITE_SIZE` of src/ppu/ppu.h. -/
def PPU_CTRL_SPRITE_SIZE : Nat := 0x20

/-- `PPU_CTRL_NMI_ENABLE` of src/ppu/ppu.h. -/
def PPU_CTRL_NMI_ENABLE : Nat := 0x80

/-- `PPU_MASK_BG_LEFT` of src/ppu/ppu.h. -/
def PPU_MASK_BG_LEFT : Nat := 0x02

/-- `PPU_MASK_SPRITE_LEFT` of src/ppu/ppu.h. -/
def PPU_MASK_SPRITE_LEFT : Nat := 0x04

/-- `PPU_MASK_BG_ENABLE` of src/ppu/ppu.h. -/
def PPU_MASK_BG_ENABLE : Nat := 0x08

/-- `PPU_MASK_SPRITE_ENABLE` of src/ppu/ppu.h. -/
def PPU_MASK_SPRITE_ENABLE : Nat := 0x10

/-- `PPU_STATUS_OVERFLOW` of src/ppu/ppu.h. -/
def PPU_STATUS_OVERFLOW : Nat := 0x20

/-- `PPU_STATUS_SPRITE0_HIT` of src/ppu/ppu.h. -/
def PPU_STATUS_SPRITE0_HIT : Nat := 0x40

/-- `PPU_STATUS_VBLANK` of src/ppu/ppu.h. -/
def PPU_STATUS_VBLANK : Nat := 0x80

/-- `PPU` of src/ppu/ppu.h.  `scanline` and `dot` are C `int`s; the byte
and word arrays become functions. -/
structure PPU where
  scanline : Int
  dot : Int
  frame : Nat
  ctrl : Nat
  mask : Nat
  status : Nat
  oam_addr : Nat
  vram : Nat → Nat
  palette : Nat → Nat
  oam : Nat → Nat
  secondary_oam : Nat → Nat
  v : Nat
  t : Nat
  fine_x : Nat
  w : Bool
  data_buffer : Nat
  nt_byte : Nat
  at_byte : Nat
  bg_lo : Nat
  bg_hi : Nat
  bg_shift_lo : Nat
  bg_shift_hi : Nat
  at_latch_lo : Nat
  at_latch_hi : Nat
  at_shift_lo : Nat
  at_shift_hi : Nat
  sprite_count : Nat
  sprite_patterns_lo : Nat → Nat
  sprite_patterns_hi : Nat → Nat
  sprite_positions : Nat → Nat
  sprite_attributes : Nat → Nat
  sprite_indices : Nat → Nat
  framebuffer : Nat → Nat
  frame_ready : Bool
  nmi_occurred : Bool
  nmi_output : Bool
  nmi_pending : Bool
  odd_frame : Bool

/-- The PPU of src/ppu/ppu.c together with the cartridge its `cart` pointer
refers to: the state every function of that translation unit can touch. -/
structure PpuC where
  ppu : PPU
  cart : Cart

/-- `nes_palette[64]` of src/ppu/ppu.c. -/
def nes_palette (i : Nat) : Nat :=
  [0x666666, 0x002A88, 0x1412A7, 0x3B00A4, 0x5C007E, 0x6E0040, 0x6C0600, 0x561D00,
   0x333500, 0x0B4800, 0x005200, 0x004F08, 0x00404D, 0x000000, 0x000000, 0x000000,
   0xADADAD, 0x155FD9, 0x4240FF, 0x7527FE, 0xA01ACC, 0xB71E7B, 0xB53120, 0x994E00,
   0x6B6D00, 0x388700, 0x0C9300, 0x008F32, 0x007C8D, 0x000000, 0x000000, 0x000000,
   0xFFFEFF, 0x64B0FF, 0x9290FF, 0xC676FF, 0xF36AFF, 0xFE6ECC, 0xFE8170, 0xEA9E22,
   0xBCBE00, 0x88D800, 0x5CE430, 0x45E082, 0x48CDDE, 0x4F4F4F, 0x000000, 0x000000,
   0xFFFEFF, 0xC0DFFF, 0xD3D2FF, 0xE8C8FF, 0xFBC2FF, 0xFEC4EA, 0xFECCC5, 0xF7D8A5,
   0xE4E594, 0xCFEF96, 0xBDF4AB, 0xB3F3CC, 0xB5EBF2, 0xB8B8B8, 0x000000, 0x000000].getD i 0

/-- Conversion of a C `int` expression to `uint32_t` (used for the
`scanline * 341 + dot` cycle argument of the A12 hook). -/
def u32ofInt (i : Int) : Nat := (i % 4294967296).toNat

/-- `ppu_mirror_vram_addr` of src/ppu/ppu.c (`addr - 0x2000` wraps in
`uint16_t`; the cartridge pointer is always non-NULL here). -/
def ppu_mirror_vram_addr (m : PpuC) (addr : Nat) : Nat :=
  let addr := ((addr + 65536 - 0x2000) % 65536) &&& 0x0FFF
  let mirroring := m.cart.mirroring
  let nametable := addr / 0x0400
  let offset := addr % 0x0400
  let nametable := if mirroring = 0 then (nametable &&& 0x02) >>> 1 else nametable &&& 0x01
  nametable * 0x0400 + offset

/-- The static `ppu_read` of src/ppu/ppu.c (internal PPU-memory read):
notifies the mapper's A12 hook, then reads pattern tables via the
cartridge, nametable RAM with mirroring, or palette RAM with the
`$3F10/$3F14/$3F18/$3F1C` mirror rule. -/
def ppu_read (m : PpuC) (addr0 : Nat) : Nat × PpuC :=
  let addr := addr0 &&& 0x3FFF
  let cur := u32ofInt (m.ppu.scanline * 341 + m.ppu.dot)
  let m := { m with cart := mapper_a12_latch m.cart addr cur }
  if addr < 0x2000 then
    (cartridge_ppu_read m.cart addr, m)
  else if addr < 0x3F00 then
    (m.ppu.vram (ppu_mirror_vram_addr m addr) % 256, m)
  else
    let a := addr &&& 0x1F
    let a := if a = 0x10 ∨ a = 0x14 ∨ a = 0x18 ∨ a = 0x1C then a - 0x10 else a
    (m.ppu.palette a % 256, m)

/-- The static `ppu_write` of src/ppu/ppu.c (internal PPU-memory write). -/
def ppu_write (m : PpuC) (addr0 val : Nat) : PpuC :=
  let val := val % 256
  let addr := addr0 &&& 0x3FFF
  let cur := u32ofInt (m.ppu.scanline * 341 + m.ppu.dot)
  let m := { m with cart := mapper_a12_latch m.cart addr cur }
  if addr < 0x2000 then
    { m with cart := cartridge_ppu_write m.cart addr val }
  else if addr < 0x3F00 then
    { m with ppu := { m.ppu with
        vram := fun j => if j = ppu_mirror_vram_addr m addr then val else m.ppu.vram j } }
  else
    let a := addr &&& 0x1F
    let a := if a = 0x10 ∨ a = 0x14 ∨ a = 0x18 ∨ a = 0x1C then a - 0x10 else a
    { m with ppu := { m.ppu with
        palette := fun j => if j = a then val else m.ppu.palette j } }

/-- `ppu_read_register` of src/ppu/ppu.c (cases on `addr & 0x07`). -/
def ppu_read_register (m : PpuC) (addr : Nat) : Nat × PpuC :=
  let r := addr &&& 0x07
  if r = 2 then
    let result := (m.ppu.status &&& 0xE0) ||| (m.ppu.data_buffer &&& 0x1F)
    (result % 256, { m with ppu := { m.ppu with
        status := m.ppu.status &&& (255 ^^^ PPU_STATUS_VBLANK),
        nmi_occurred := false, w := false } })
  else if r = 4 then
    (m.ppu.oam m.ppu.oam_addr % 256, m)
  else if r = 7 then
    let (result, m) :=
      if (m.ppu.v &&& 0x3FFF) < 0x3F00 then
        let result := m.ppu.data_buffer
        let (b, m) := ppu_read m m.ppu.v
        (result, { m with ppu := { m.ppu with data_buffer := b } })
      else
        let (result, m) := ppu_read m m.ppu.v
        -- in this branch `v & 0x3FFF ≥ 0x3F00` forces `v ≥ 0x1000`,
        -- so the uint16 subtraction `v - 0x1000` does not wrap
        let (b, m) := ppu_read m (m.ppu.v - 0x1000)
        (result, { m with ppu := { m.ppu with data_buffer := b } })
    let inc := if m.ppu.ctrl &&& PPU_CTRL_INCREMENT ≠ 0 then 32 else 1
    (result % 256, { m with ppu := { m.ppu with v := (m.ppu.v + inc) &&& 0x7FFF } })
  else
    (0, m)

/-- `ppu_write_register` of src/ppu/ppu.c (cases on `addr & 0x07`). -/
def ppu_write_register (m : PpuC) (addr val : Nat) : PpuC :=
  let val := val % 256
  let r := addr &&& 0x07
  if r = 0 then
    let old_nmi_output := m.ppu.nmi_output
    let p : PPU := { m.ppu with
               ctrl := val,
               nmi_output := val &&& PPU_CTRL_NMI_ENABLE ≠ 0,
               t := (m.ppu.t &&& 0xF3FF) ||| ((val &&& 0x03) <<< 10) }
    let p :=
      if ¬old_nmi_output ∧ p.nmi_output ∧ (p.status &&& PPU_STATUS_VBLANK ≠ 0) then
        { p with nmi_pending := true }
      else p
    { m with ppu := p }
  else if r = 1 then
    { m with ppu := { m.ppu with mask := val } }
  else if r = 3 then
    { m with ppu := { m.ppu with oam_addr := val } }
  else if r = 4 then
    { m with ppu := { m.ppu with
        oam := fun j => if j = m.ppu.oam_addr then val else m.ppu.oam j,
        oam_addr := (m.ppu.oam_addr + 1) % 256 } }
  else if r = 5 then
    if ¬m.ppu.w then
      { m with ppu := { m.ppu with
          t := (m.ppu.t &&& 0xFFE0) ||| (val >>> 3),
          fine_x := val &&& 0x07, w := true } }
    else
      { m with ppu := { m.ppu with
          t := (m.ppu.t &&& 0x8C1F) ||| ((val &&& 0x07) <<< 12) ||| ((val &&& 0xF8) <<< 2),
          w := false } }
  else if r = 6 then
    if ¬m.ppu.w then
      { m with ppu := { m.ppu with
          t := (m.ppu.t &&& 0x00FF) ||| ((val &&& 0x3F) <<< 8), w := true } }
    else
      let t := (m.ppu.t &&& 0xFF00) ||| val
      { m with ppu := { m.ppu with t := t, v := t, w := false } }
  else if r = 7 then
    let m := ppu_write m m.ppu.v val
    let inc := if m.ppu.ctrl &&& PPU_CTRL_INCREMENT ≠ 0 then 32 else 1
    { m with ppu := { m.ppu with v := (m.ppu.v + inc) &&& 0x7FFF } }
  else m

/-- `ppu_rendering_enabled` of src/ppu/ppu.c. -/
def ppu_rendering_enabled (p : PPU) : Bool :=
  p.mask &&& (PPU_MASK_BG_ENABLE ||| PPU_MASK_SPRITE_ENABLE) != 0

/-- `ppu_increment_x` of src/ppu/ppu.c (`v` is `uint16_t`). -/
def ppu_increment_x (p : PPU) : PPU :=
  if p.v &&& 0x001F = 31 then
    { p with v := (p.v &&& 0xFFE0) ^^^ 0x0400 }
  else
    { p with v := (p.v + 1) % 65536 }

/-- `ppu_increment_y` of src/ppu/ppu.c. -/
def ppu_increment_y (p : PPU) : PPU :=
  if p.v &&& 0x7000 ≠ 0x7000 then
    { p with v := (p.v + 0x1000) % 65536 }
  else
    let p := { p with v := p.v &&& 0x8FFF }
    let y := (p.v &&& 0x03E0) >>> 5
    let (y, p) :=
      if y = 29 then (0, { p with v := p.v ^^^ 0x0800 })
      else if y = 31 then (0, p)
      else (y + 1, p)
    { p with v := (p.v &&& 0xFC1F) ||| (y <<< 5) }

/-- `ppu_copy_x` of src/ppu/ppu.c. -/
def ppu_copy_x (p : PPU) : PPU :=
  { p with v := (p.v &&& 0xFBE0) ||| (p.t &&& 0x041F) }

/-- `ppu_copy_y` of src/ppu/ppu.c. -/
def ppu_copy_y (p : PPU) : PPU :=
  { p with v := (p.v &&& 0x841F) ||| (p.t &&& 0x7BE0) }

/-- `ppu_load_shifters` of src/ppu/ppu.c. -/
def ppu_load_shifters (p : PPU) : PPU :=
  { p with bg_shift_lo := (p.bg_shift_lo &&& 0xFF00) ||| p.bg_lo,
           bg_shift_hi := (p.bg_shift_hi &&& 0xFF00) ||| p.bg_hi,
           at_latch_lo := if p.at_byte &&& 0x01 ≠ 0 then 0xFF else 0x00,
           at_latch_hi := if p.at_byte &&& 0x02 ≠ 0 then 0xFF else 0x00 }

/-- `ppu_shift_shifters` of src/ppu/ppu.c (all four shifters are
`uint16_t`). -/
def ppu_shift_shifters (p : PPU) : PPU :=
  if p.mask &&& PPU_MASK_BG_ENABLE ≠ 0 then
    { p with bg_shift_lo := (p.bg_shift_lo <<< 1) % 65536,
             bg_shift_hi := (p.bg_shift_hi <<< 1) % 65536,
             at_shift_lo := ((p.at_shift_lo <<< 1) ||| (p.at_latch_lo &&& 1)) % 65536,
             at_shift_hi := ((p.at_shift_hi <<< 1) ||| (p.at_latch_hi &&& 1)) % 65536 }
  else p

/-- `ppu_fetch_nt_byte` of src/ppu/ppu.c. -/
def ppu_fetch_nt_byte (m : PpuC) : PpuC :=
  let (b, m) := ppu_read m (0x2000 ||| (m.ppu.v &&& 0x0FFF))
  { m with ppu := { m.ppu with nt_byte := b } }

/-- `ppu_fetch_at_byte` of src/ppu/ppu.c. -/
def ppu_fetch_at_byte (m : PpuC) : PpuC :=
  let addr := 0x23C0 ||| (m.ppu.v &&& 0x0C00) ||| ((m.ppu.v >>> 4) &&& 0x38) |||
              ((m.ppu.v >>> 2) &&& 0x07)
  let shift := ((m.ppu.v >>> 4) &&& 4) ||| (m.ppu.v &&& 2)
  let (b, m) := ppu_read m addr
  { m with ppu := { m.ppu with at_byte := (b >>> shift) &&& 0x03 } }

/-- `ppu_fetch_bg_lo` of src/ppu/ppu.c (the pattern base is recomputed from
CTRL at every fetch, per the comment in the source). -/
def ppu_fetch_bg_lo (m : PpuC) : PpuC :=
  let bg_pattern_base := if m.ppu.ctrl &&& PPU_CTRL_BG_PATTERN ≠ 0 then 0x1000 else 0x0000
  let tile_offset := ((m.ppu.nt_byte <<< 4) + ((m.ppu.v >>> 12) &&& 0x07)) % 65536
  let pattern_addr := (bg_pattern_base + tile_offset) % 65536
  let (b, m) := ppu_read m pattern_addr
  { m with ppu := { m.ppu with bg_lo := b } }

/-- `ppu_fetch_bg_hi` of src/ppu/ppu.c. -/
def ppu_fetch_bg_hi (m : PpuC) : PpuC :=
  let bg_pattern_base := if m.ppu.ctrl &&& PPU_CTRL_BG_PATTERN ≠ 0 then 0x1000 else 0x0000
  let tile_offset := ((m.ppu.nt_byte <<< 4) + ((m.ppu.v >>> 12) &&& 0x07)) % 65536
  let pattern_addr := (bg_pattern_base + tile_offset + 8) % 65536
  let (b, m) := ppu_read m pattern_addr
  { m with ppu := { m.ppu with bg_hi := b } }

/-- `ppu_init` of src/ppu/ppu.c: `memset(ppu, 0, sizeof *ppu)` (the cart
pointer lives in `PpuC`). -/
def ppu_init : PPU :=
  { scanline := 0, dot := 0, frame := 0, ctrl := 0, mask := 0, status := 0,
    oam_addr := 0, vram := fun _ => 0, palette := fun _ => 0, oam := fun _ => 0,
    secondary_oam := fun _ => 0, v := 0, t := 0, fine_x := 0, w := false,
    data_buffer := 0, nt_byte := 0, at_byte := 0, bg_lo := 0, bg_hi := 0,
    bg_shift_lo := 0, bg_shift_hi := 0, at_latch_lo := 0, at_latch_hi := 0,
    at_shift_lo := 0, at_shift_hi := 0, sprite_count := 0,
    sprite_patterns_lo := fun _ => 0, sprite_patterns_hi := fun _ => 0,
    sprite_positions := fun _ => 0, sprite_attributes := fun _ => 0,
    sprite_indices := fun _ => 0, framebuffer := fun _ => 0,
    frame_ready := false, nmi_occurred := false, nmi_output := false,
    nmi_pending := false, odd_frame := false }

/-- One iteration (OAM entry `i`) of the 64-entry scan loop of
`ppu_evaluate_sprites` in src/ppu/ppu.c; `h` is the `sprite_height` local
and `row = scanline - y` is a C `int`. -/
def sprite_eval_step (h : Int) (p : PPU) (i : Nat) : PPU :=
  let y := p.oam (i * 4 + 0)
  let row : Int := p.scanline - y
  if 0 ≤ row ∧ row < h then
    if p.sprite_count < 8 then
      { p with
        secondary_oam := fun j =>
          if j = p.sprite_count * 4 + 0 then p.oam (i * 4 + 0)
          else if j = p.sprite_count * 4 + 1 then p.oam (i * 4 + 1)
          else if j = p.sprite_count * 4 + 2 then p.oam (i * 4 + 2)
          else if j = p.sprite_count * 4 + 3 then p.oam (i * 4 + 3)
          else p.secondary_oam j,
        sprite_indices := fun j =>
          if j = p.sprite_count then i else p.sprite_indices j,
        sprite_count := p.sprite_count + 1 }
    else p
  else p

/-- `ppu_evaluate_sprites` of src/ppu/ppu.c: reset `sprite_count`, fill
`secondary_oam` with `0xFF`, then scan the 64 OAM entries taking the first
(at most) eight whose Y range covers the current scanline. -/
def ppu_evaluate_sprites (p : PPU) : PPU :=
  let h : Int := if p.ctrl &&& PPU_CTRL_SPRITE_SIZE ≠ 0 then 16 else 8
  let p := { p with sprite_count := 0, secondary_oam := fun _ => 0xFF }
  (List.range 64).foldl (sprite_eval_step h) p

/-- The byte reversal applied by `ppu_fetch_sprite_info` for horizontal
flip (three swap lines, repeated for `lo` and `hi` in the source). -/
def bit_reverse8 (b : Nat) : Nat :=
  let b := ((b &&& 0x55) <<< 1) ||| ((b &&& 0xAA) >>> 1)
  let b := ((b &&& 0x33) <<< 2) ||| ((b &&& 0xCC) >>> 2)
  ((b &&& 0x0F) <<< 4) ||| ((b &&& 0xF0) >>> 4)

/-- `ppu_fetch_sprite_info` of src/ppu/ppu.c.  `slot_index` ranges over
0..7 from `ppu_tick`.  The `pattern_addr` additions happen in C `int` and
are converted to `uint16_t`. -/
def ppu_fetch_sprite_info (m : PpuC) (slot_index : Nat) : PpuC :=
  let sprite_height : Int := if m.ppu.ctrl &&& PPU_CTRL_SPRITE_SIZE ≠ 0 then 16 else 8
  let valid_sprite := slot_index < m.ppu.sprite_count
  if valid_sprite then
    let y := m.ppu.secondary_oam (slot_index * 4 + 0)
    let tile := m.ppu.secondary_oam (slot_index * 4 + 1)
    let attr := m.ppu.secondary_oam (slot_index * 4 + 2)
    let x := m.ppu.secondary_oam (slot_index * 4 + 3)
    let m := { m with ppu := { m.ppu with
        sprite_attributes := fun j =>
          if j = slot_index then attr else m.ppu.sprite_attributes j,
        sprite_positions := fun j =>
          if j = slot_index then x else m.ppu.sprite_positions j } }
    let row : Int := m.ppu.scanline - y
    let row := if attr &&& 0x80 ≠ 0 then sprite_height - 1 - row else row
    let pattern_addr : Nat :=
      if sprite_height = 16 then
        let table : Nat := if tile &&& 0x01 ≠ 0 then 0x1000 else 0x0000
        let tile := tile &&& 0xFE
        let (tile, row) := if row ≥ 8 then (tile + 1, row - 8) else (tile, row)
        (((table + (tile <<< 4) : Nat) + row) % 65536).toNat
      else
        let table : Nat := if m.ppu.ctrl &&& PPU_CTRL_SPRITE_PATTERN ≠ 0 then 0x1000 else 0x0000
        (((table + (tile <<< 4) : Nat) + row) % 65536).toNat
    let (lo, m) := ppu_read m pattern_addr
    let (hi, m) := ppu_read m ((pattern_addr + 8) % 65536)
    let (lo, hi) := if attr &&& 0x40 ≠ 0 then (bit_reverse8 lo, bit_reverse8 hi) else (lo, hi)
    { m with ppu := { m.ppu with
        sprite_patterns_lo := fun j =>
          if j = slot_index then lo else m.ppu.sprite_patterns_lo j,
        sprite_patterns_hi := fun j =>
          if j = slot_index then hi else m.ppu.sprite_patterns_hi j } }
  else
    -- invalid slot: tile = 0xFF, attr = 0xFF; the dummy fetch still
    -- reaches the mapper (A12 hook), its result is discarded
    let table : Nat :=
      if sprite_height = 16 then 0x1000
      else if m.ppu.ctrl &&& PPU_CTRL_SPRITE_PATTERN ≠ 0 then 0x1000 else 0x0000
    let pattern_addr := table + (0xFF <<< 4)
    let (_, m) := ppu_read m pattern_addr
    let (_, m) := ppu_read m ((pattern_addr + 8) % 65536)
    m

/-- The first-matching-slot sprite scan inside `ppu_render_pixel` of
src/ppu/ppu.c: for the first slot whose X interval covers the pixel and
whose 2-bit colour is nonzero, return
(pixel, palette, priority, is-slot-of-original-index-0). -/
def sprite_pixel_scan (p : PPU) (x : Int) : Option (Nat × Nat × Nat × Bool) :=
  (List.range p.sprite_count).findSome? fun i =>
    let offset : Int := x - p.sprite_positions i
    if 0 ≤ offset ∧ offset < 8 then
      let sh := (7 - offset).toNat
      let p0 := (p.sprite_patterns_lo i >>> sh) &&& 1
      let p1 := (p.sprite_patterns_hi i >>> sh) &&& 1
      let pixel := (p1 <<< 1) ||| p0
      if pixel ≠ 0 then
        some (pixel, (p.sprite_attributes i &&& 0x03) + 4,
              (p.sprite_attributes i >>> 5) &&& 1, p.sprite_indices i = 0)
      else none
    else none

/-- `ppu_render_pixel` of src/ppu/ppu.c. -/
def ppu_render_pixel (m : PpuC) : PpuC :=
  let x : Int := m.ppu.dot - 1
  let y : Int := m.ppu.scanline
  if x < 0 ∨ x ≥ 256 ∨ y < 0 ∨ y ≥ 240 then m
  else
    let (bg_pixel, bg_palette) :=
      if m.ppu.mask &&& PPU_MASK_BG_ENABLE ≠ 0 ∧
         (m.ppu.mask &&& PPU_MASK_BG_LEFT ≠ 0 ∨ x ≥ 8) then
        let mux := 0x8000 >>> m.ppu.fine_x
        let p0 := if m.ppu.bg_shift_lo &&& mux ≠ 0 then 1 else 0
        let p1 := if m.ppu.bg_shift_hi &&& mux ≠ 0 then 1 else 0
        let a0 := if m.ppu.at_shift_lo &&& (0x80 >>> m.ppu.fine_x) ≠ 0 then 1 else 0
        let a1 := if m.ppu.at_shift_hi &&& (0x80 >>> m.ppu.fine_x) ≠ 0 then 1 else 0
        ((p1 <<< 1) ||| p0, (a1 <<< 1) ||| a0)
      else (0, 0)
    let (sprite_pixel, sprite_palette, sprite_priority, sprite_zero) :=
      if m.ppu.mask &&& PPU_MASK_SPRITE_ENABLE ≠ 0 ∧
         (m.ppu.mask &&& PPU_MASK_SPRITE_LEFT ≠ 0 ∨ x ≥ 8) then
        match sprite_pixel_scan m.ppu x with
        | some (px, pal, pri, z) => (px, pal, pri, z)
        | none => (0, 0, 0, false)
      else (0, 0, 0, false)
    let (pixel, palette, m) :=
      if bg_pixel = 0 ∧ sprite_pixel = 0 then (0, 0, m)
      else if bg_pixel = 0 ∧ sprite_pixel ≠ 0 then (sprite_pixel, sprite_palette, m)
      else if bg_pixel ≠ 0 ∧ sprite_pixel = 0 then (bg_pixel, bg_palette, m)
      else
        let m :=
          if sprite_zero ∧ x < 255 ∧
             (m.ppu.mask &&& PPU_MASK_BG_ENABLE ≠ 0) ∧
             (m.ppu.mask &&& PPU_MASK_SPRITE_ENABLE ≠ 0) ∧
             ¬(m.ppu.mask &&& PPU_MASK_BG_LEFT = 0 ∧ x < 8) then
            { m with ppu := { m.ppu with
                status := m.ppu.status ||| PPU_STATUS_SPRITE0_HIT } }
          else m
        if sprite_priority = 0 then (sprite_pixel, sprite_palette, m)
        else (bg_pixel, bg_palette, m)
    let (ci, m) := ppu_read m (0x3F00 + (palette <<< 2) + pixel)
    let color_index := ci &&& 0x3F
    { m with ppu := { m.ppu with
        framebuffer := fun j =>
          if j = (y * 256 + x).toNat then nes_palette color_index ||| 0xFF000000
          else m.ppu.framebuffer j } }

/-- `ppu_tick` of src/ppu/ppu.c: one PPU dot. -/
def ppu_tick (m : PpuC) : PpuC :=
  let rendering := ppu_rendering_enabled m.ppu
  let pre_line := m.ppu.scanline = 261
  let visible_line := m.ppu.scanline < 240
  let render_line := pre_line ∨ visible_line
  let prefetch_cycle := m.ppu.dot ≥ 321 ∧ m.ppu.dot ≤ 336
  let visible_cycle := m.ppu.dot ≥ 1 ∧ m.ppu.dot ≤ 256
  let fetch_cycle := prefetch_cycle ∨ visible_cycle
  let m :=
    if rendering then
      let m := if visible_line ∧ visible_cycle then ppu_render_pixel m else m
      let m :=
        if render_line ∧ fetch_cycle then
          let m := { m with ppu := ppu_shift_shifters m.ppu }
          let r := (m.ppu.dot - 1) % 8
          if r = 0 then ppu_fetch_nt_byte { m with ppu := ppu_load_shifters m.ppu }
          else if r = 2 then ppu_fetch_at_byte m
          else if r = 4 then ppu_fetch_bg_lo m
          else if r = 6 then ppu_fetch_bg_hi m
          else if r = 7 then { m with ppu := ppu_increment_x m.ppu }
          else m
        else m
      let m :=
        if render_line then
          let m := if m.ppu.dot = 256 then { m with ppu := ppu_increment_y m.ppu } else m
          let m :=
            if m.ppu.dot = 257 then
              { m with ppu := ppu_copy_x (ppu_load_shifters m.ppu) }
            else m
          if m.ppu.dot = 337 ∨ m.ppu.dot = 339 then ppu_fetch_nt_byte m else m
        else m
      let m :=
        if pre_line ∧ m.ppu.dot ≥ 280 ∧ m.ppu.dot ≤ 304 then
          { m with ppu := ppu_copy_y m.ppu }
        else m
      if visible_line then
        let m :=
          if m.ppu.dot = 257 then { m with ppu := ppu_evaluate_sprites m.ppu } else m
        if m.ppu.dot ≥ 257 ∧ m.ppu.dot ≤ 320 then
          if (m.ppu.dot - 257) % 8 = 0 then
            ppu_fetch_sprite_info m ((m.ppu.dot - 257) / 8).toNat
          else m
        else m
      else m
    else m
  let m :=
    if m.ppu.scanline = 241 ∧ m.ppu.dot = 1 then
      let p := { m.ppu with status := m.ppu.status ||| PPU_STATUS_VBLANK,
                            nmi_occurred := true }
      let p := if p.nmi_output then { p with nmi_pending := true } else p
      { m with ppu := p }
    else m
  let m :=
    if pre_line ∧ m.ppu.dot = 1 then
      -- status &= ~(VBLANK | SPRITE0_HIT | OVERFLOW), i.e. & 0x1F on uint8
      { m with ppu := { m.ppu with status := m.ppu.status &&& 0x1F,
                                   nmi_occurred := false } }
    else m
  let m :=
    if pre_line ∧ m.ppu.dot = 340 ∧ rendering ∧ m.ppu.odd_frame then
      { m with ppu := { m.ppu with dot := m.ppu.dot + 1 } }
    else m
  let m : PpuC := { m with ppu := { m.ppu with dot := m.ppu.dot + 1 } }
  if m.ppu.dot > 340 then
    let p : PPU := { m.ppu with dot := 0, scanline := m.ppu.scanline + 1 }
    if p.scanline > 261 then
      { m with ppu := { p with scanline := 0, frame := p.frame + 1,
                               frame_ready := true, odd_frame := !p.odd_frame } }
    else { m with ppu := p }
  else m

/-! ## CPU and bus data model (src/cpu/cpu.h, src/bus/bus.h) -/

/-- `FLAG_C` of src/cpu/cpu.h. -/
def FLAG_C : Nat := 0x01

/-- `FLAG_Z` of src/cpu/cpu.h. -/
def FLAG_Z : Nat := 0x02

/-- `FLAG_I` of src/cpu/cpu.h. -/
def FLAG_I : Nat := 0x04

/-- `FLAG_D` of src/cpu/cpu.h. -/
def FLAG_D : Nat := 0x08

/-- `FLAG_B` of src/cpu/cpu.h. -/
def FLAG_B : Nat := 0x10

/-- `FLAG_U` of src/cpu/cpu.h. -/
def FLAG_U : Nat := 0x20

/-- `FLAG_V` of src/cpu/cpu.h. -/
def FLAG_V : Nat := 0x40

/-- `FLAG_N` of src/cpu/cpu.h. -/
def FLAG_N : Nat := 0x80

/-- `CPU` of src/cpu/cpu.h (the `Bus*` back-pointer lives in `Nes`). -/
structure CPU where
  A : Nat
  X : Nat
  Y : Nat
  P : Nat
  S : Nat
  PC : Nat
  cycles : Nat
  nmi_pending : Bool
  irq_pending : Bool

/-- `Bus` of src/bus/bus.h; the two-element `controller` and
`controller_state` arrays become pairs of fields, the device pointers live
in `Nes`. -/
structure Bus where
  ram : Nat → Nat
  controller0 : Nat
  controller1 : Nat
  controller_state0 : Nat
  controller_state1 : Nat
  controller_strobe : Nat
  open_bus : Nat
  dma_pending : Bool
  dma_page : Nat
  dma_cycles : Int

/-- The whole machine: the `NES` record of src/main.c restricted to the
emulation core (CPU, bus, PPU, APU, cartridge+mapper), which is also the
pointer graph every core function can reach. -/
structure Nes where
  cpu : CPU
  bus : Bus
  ppu : PPU
  apu : APU
  cart : Cart

/-! ## Bus functions (src/bus/bus.c) -/

/-- `bus_read` of src/bus/bus.c.  The device pointers are non-NULL in an
initialized machine, so the `bus->ppu`/`bus->apu`/`bus->cart` guards are
always taken. -/
def bus_read (n : Nes) (addr : Nat) : Nat × Nes :=
  let addr := addr % 65536
  if addr < 0x2000 then
    (n.bus.ram (addr &&& 0x07FF) % 256, n)
  else if addr < 0x4000 then
    let (v, m) := ppu_read_register ⟨n.ppu, n.cart⟩ addr
    (v, { n with ppu := m.ppu, cart := m.cart })
  else if addr < 0x4020 then
    if addr = 0x4016 then
      if n.bus.controller_strobe ≠ 0 then
        (((n.bus.controller0 &&& 1) &&& 1) ||| 0x40, n)
      else
        let bit := n.bus.controller_state0 &&& 1
        let st := ((n.bus.controller_state0 >>> 1) ||| 0x80) % 256
        (((bit &&& 1) ||| 0x40),
         { n with bus := { n.bus with controller_state0 := st } })
    else if addr = 0x4017 then
      if n.bus.controller_strobe ≠ 0 then
        (((n.bus.controller1 &&& 1) &&& 1) ||| 0x40, n)
      else
        let bit := n.bus.controller_state1 &&& 1
        let st := ((n.bus.controller_state1 >>> 1) ||| 0x80) % 256
        (((bit &&& 1) ||| 0x40),
         { n with bus := { n.bus with controller_state1 := st } })
    else if addr = 0x4015 then
      let (v, a) := apu_read n.apu addr
      (v % 256, { n with apu := a })
    else
      (n.bus.open_bus % 256, n)
  else
    (cartridge_cpu_read n.cart addr, n)

/-- `bus_write` of src/bus/bus.c. -/
def bus_write (n : Nes) (addr val : Nat) : Nes :=
  let addr := addr % 65536
  let val := val % 256
  if addr < 0x2000 then
    { n with bus := { n.bus with
        ram := fun j => if j = (addr &&& 0x07FF) then val else n.bus.ram j } }
  else if addr < 0x4000 then
    let m := ppu_write_register ⟨n.ppu, n.cart⟩ addr val
    { n with ppu := m.ppu, cart := m.cart }
  else if addr < 0x4020 then
    if addr = 0x4014 then
      { n with bus := { n.bus with dma_page := val, dma_pending := true } }
    else if addr = 0x4016 then
      let b :=
        if n.bus.controller_strobe ≠ 0 ∧ val &&& 1 = 0 then
          { n.bus with controller_state0 := n.bus.controller0,
                       controller_state1 := n.bus.controller1 }
        else n.bus
      { n with bus := { b with controller_strobe := val &&& 1 } }
    else if addr ≥ 0x4000 ∧ addr ≤ 0x4017 ∧ addr ≠ 0x4014 ∧ addr ≠ 0x4016 then
      { n with apu := apu_write n.apu addr val }
    else n
  else
    { n with cart := cartridge_cpu_write n.cart addr val }

/-! ## CPU functions (src/cpu/cpu.c) -/

/-- `set_flag` of src/cpu/cpu.c (`P &= ~flag` on the `uint8_t` P is
`P &&& (255 ^^^ flag)`). -/
def set_flag (c : CPU) (flag : Nat) (val : Bool) : CPU :=
  if val then { c with P := c.P ||| flag } else { c with P := c.P &&& (255 ^^^ flag) }

/-- `get_flag` of src/cpu/cpu.c. -/
def get_flag (c : CPU) (flag : Nat) : Bool :=
  c.P &&& flag != 0

/-- `set_ZN` of src/cpu/cpu.c. -/
def set_ZN (c : CPU) (val : Nat) : CPU :=
  let val := val % 256
  set_flag (set_flag c FLAG_Z (val == 0)) FLAG_N (val &&& 0x80 != 0)

/-- `push8` of src/cpu/cpu.c (the `uint8_t` S is read for the address and
post-decremented with wrap). -/
def push8 (n : Nes) (val : Nat) : Nes :=
  let n := bus_write n (0x0100 ||| (n.cpu.S % 256)) val
  { n with cpu := { n.cpu with S := (n.cpu.S + 255) % 256 } }

/-- `pop8` of src/cpu/cpu.c. -/
def pop8 (n : Nes) : Nat × Nes :=
  let n := { n with cpu := { n.cpu with S := (n.cpu.S + 1) % 256 } }
  bus_read n (0x0100 ||| (n.cpu.S % 256))

/-- `push16` of src/cpu/cpu.c. -/
def push16 (n : Nes) (val : Nat) : Nes :=
  let n := push8 n ((val >>> 8) &&& 0xFF)
  push8 n (val &&& 0xFF)

/-- `pop16` of src/cpu/cpu.c. -/
def pop16 (n : Nes) : Nat × Nes :=
  let (lo, n) := pop8 n
  let (hi, n) := pop8 n
  ((hi <<< 8) ||| lo, n)

/-- `read16` of src/cpu/cpu.c. -/
def read16 (n : Nes) (addr : Nat) : Nat × Nes :=
  let (lo, n) := bus_read n addr
  let (hi, n) := bus_read n (addr + 1)
  ((hi <<< 8) ||| lo, n)

/-- `read16_zp` of src/cpu/cpu.c (`addr` is a `uint8_t` parameter). -/
def read16_zp (n : Nes) (addr : Nat) : Nat × Nes :=
  let addr := addr % 256
  let (lo, n) := bus_read n addr
  let (hi, n) := bus_read n ((addr + 1) &&& 0xFF)
  ((hi <<< 8) ||| lo, n)

/-- `read16_jmp_bug` of src/cpu/cpu.c: the high byte is read from
`(addr & 0xFF00) | ((addr + 1) & 0x00FF)`, so a pointer ending in `$FF`
wraps inside its page. -/
def read16_jmp_bug (n : Nes) (addr : Nat) : Nat × Nes :=
  let addr := addr % 65536
  let (lo, n) := bus_read n addr
  let hi_addr := (addr &&& 0xFF00) ||| ((addr + 1) &&& 0x00FF)
  let (hi, n) := bus_read n hi_addr
  ((hi <<< 8) ||| lo, n)

/-- `AddrMode` of src/cpu/cpu.c. -/
inductive AddrMode where
  | imp | acc | imm | zp | zpx | zpy | abs | abx | aby | ind | izx | izy | rel

/-- `AddrResult` of src/cpu/cpu.c. -/
structure AddrResult where
  addr : Nat
  page_crossed : Bool

/-- `addr_imp` / `addr_acc` of src/cpu/cpu.c. -/
def addr_imp (n : Nes) : AddrResult × Nes := (⟨0, false⟩, n)

/-- `addr_imm` of src/cpu/cpu.c (`cpu->PC++` wraps in `uint16_t`). -/
def addr_imm (n : Nes) : AddrResult × Nes :=
  (⟨n.cpu.PC, false⟩, { n with cpu := { n.cpu with PC := (n.cpu.PC + 1) % 65536 } })

/-- `addr_zp` of src/cpu/cpu.c. -/
def addr_zp (n : Nes) : AddrResult × Nes :=
  let (b, n) := bus_read n n.cpu.PC
  let n := { n with cpu := { n.cpu with PC := (n.cpu.PC + 1) % 65536 } }
  (⟨b, false⟩, n)

/-- `addr_zpx` of src/cpu/cpu.c. -/
def addr_zpx (n : Nes) : AddrResult × Nes :=
  let (b, n) := bus_read n n.cpu.PC
  let n := { n with cpu := { n.cpu with PC := (n.cpu.PC + 1) % 65536 } }
  (⟨(b + n.cpu.X) &&& 0xFF, false⟩, n)

/-- `addr_zpy` of src/cpu/cpu.c. -/
def addr_zpy (n : Nes) : AddrResult × Nes :=
  let (b, n) := bus_read n n.cpu.PC
  let n := { n with cpu := { n.cpu with PC := (n.cpu.PC + 1) % 65536 } }
  (⟨(b + n.cpu.Y) &&& 0xFF, false⟩, n)

/-- `addr_abs` of src/cpu/cpu.c. -/
def addr_abs (n : Nes) : AddrResult × Nes :=
  let (a, n) := read16 n n.cpu.PC
  let n := { n with cpu := { n.cpu with PC := (n.cpu.PC + 2) % 65536 } }
  (⟨a, false⟩, n)

/-- `addr_abx` of src/cpu/cpu.c. -/
def addr_abx (n : Nes) : AddrResult × Nes :=
  let (base, n) := read16 n n.cpu.PC
  let n := { n with cpu := { n.cpu with PC := (n.cpu.PC + 2) % 65536 } }
  let addr := (base + n.cpu.X) % 65536
  (⟨addr, (base &&& 0xFF00) != (addr &&& 0xFF00)⟩, n)

/-- `addr_aby` of src/cpu/cpu.c. -/
def addr_aby (n : Nes) : AddrResult × Nes :=
  let (base, n) := read16 n n.cpu.PC
  let n := { n with cpu := { n.cpu with PC := (n.cpu.PC + 2) % 65536 } }
  let addr := (base + n.cpu.Y) % 65536
  (⟨addr, (base &&& 0xFF00) != (addr &&& 0xFF00)⟩, n)

/-- `addr_ind` of src/cpu/cpu.c (the JMP-indirect mode, using
`read16_jmp_bug`). -/
def addr_ind (n : Nes) : AddrResult × Nes :=
  let (ptr, n) := read16 n n.cpu.PC
  let n := { n with cpu := { n.cpu with PC := (n.cpu.PC + 2) % 65536 } }
  let (a, n) := read16_jmp_bug n ptr
  (⟨a, false⟩, n)

/-- `addr_izx` of src/cpu/cpu.c. -/
def addr_izx (n : Nes) : AddrResult × Nes :=
  let (b, n) := bus_read n n.cpu.PC
  let n := { n with cpu := { n.cpu with PC := (n.cpu.PC + 1) % 65536 } }
  let ptr := (b + n.cpu.X) &&& 0xFF
  let (a, n) := read16_zp n ptr
  (⟨a, false⟩, n)

/-- `addr_izy` of src/cpu/cpu.c. -/
def addr_izy (n : Nes) : AddrResult × Nes :=
  let (ptr, n) := bus_read n n.cpu.PC
  let n := { n with cpu := { n.cpu with PC := (n.cpu.PC + 1) % 65536 } }
  let (base, n) := read16_zp n ptr
  let addr := (base + n.cpu.Y) % 65536
  (⟨addr, (base &&& 0xFF00) != (addr &&& 0xFF00)⟩, n)

/-- `addr_rel` of src/cpu/cpu.c (the operand byte is cast to `int8_t`;
`PC + offset` is converted back to `uint16_t`). -/
def addr_rel (n : Nes) : AddrResult × Nes :=
  let (b, n) := bus_read n n.cpu.PC
  let n := { n with cpu := { n.cpu with PC := (n.cpu.PC + 1) % 65536 } }
  let offset : Int := if b ≥ 128 then (b : Int) - 256 else (b : Int)
  let addr := (((n.cpu.PC : Int) + offset) % 65536).toNat
  (⟨addr, (n.cpu.PC &&& 0xFF00) != (addr &&& 0xFF00)⟩, n)

/-- `resolve_addr` of src/cpu/cpu.c. -/
def resolve_addr (n : Nes) : AddrMode → AddrResult × Nes
  | .imp => addr_imp n
  | .acc => addr_imp n
  | .imm => addr_imm n
  | .zp => addr_zp n
  | .zpx => addr_zpx n
  | .zpy => addr_zpy n
  | .abs => addr_abs n
  | .abx => addr_abx n
  | .aby => addr_aby n
  | .ind => addr_ind n
  | .izx => addr_izx n
  | .izy => addr_izy n
  | .rel => addr_rel n

/-- `op_lda` of src/cpu/cpu.c. -/
def op_lda (n : Nes) (addr : Nat) : Nes :=
  let (v, n) := bus_read n addr
  { n with cpu := set_ZN { n.cpu with A := v } v }

/-- `op_ldx` of src/cpu/cpu.c. -/
def op_ldx (n : Nes) (addr : Nat) : Nes :=
  let (v, n) := bus_read n addr
  { n with cpu := set_ZN { n.cpu with X := v } v }

/-- `op_ldy` of src/cpu/cpu.c. -/
def op_ldy (n : Nes) (addr : Nat) : Nes :=
  let (v, n) := bus_read n addr
  { n with cpu := set_ZN { n.cpu with Y := v } v }

/-- `op_sta` / `op_stx` / `op_sty` of src/cpu/cpu.c. -/
def op_sta (n : Nes) (addr : Nat) : Nes := bus_write n addr n.cpu.A

/-- `op_stx` of src/cpu/cpu.c. -/
def op_stx (n : Nes) (addr : Nat) : Nes := bus_write n addr n.cpu.X

/-- `op_sty` of src/cpu/cpu.c. -/
def op_sty (n : Nes) (addr : Nat) : Nes := bus_write n addr n.cpu.Y

/-- `op_tax`..`op_txs` of src/cpu/cpu.c. -/
def op_tax (c : CPU) : CPU := set_ZN { c with X := c.A } c.A

/-- `op_tay` of src/cpu/cpu.c. -/
def op_tay (c : CPU) : CPU := set_ZN { c with Y := c.A } c.A

/-- `op_txa` of src/cpu/cpu.c. -/
def op_txa (c : CPU) : CPU := set_ZN { c with A := c.X } c.X

/-- `op_tya` of src/cpu/cpu.c. -/
def op_tya (c : CPU) : CPU := set_ZN { c with A := c.Y } c.Y

/-- `op_tsx` of src/cpu/cpu.c. -/
def op_tsx (c : CPU) : CPU := set_ZN { c with X := c.S } c.S

/-- `op_txs` of src/cpu/cpu.c (no flags touched). -/
def op_txs (c : CPU) : CPU := { c with S := c.X }

/-- `op_pha` of src/cpu/cpu.c. -/
def op_pha (n : Nes) : Nes := push8 n n.cpu.A

/-- `op_php` of src/cpu/cpu.c: pushes P with Break and Unused set. -/
def op_php (n : Nes) : Nes := push8 n (n.cpu.P ||| FLAG_B ||| FLAG_U)

/-- `op_pla` of src/cpu/cpu.c. -/
def op_pla (n : Nes) : Nes :=
  let (v, n) := pop8 n
  { n with cpu := set_ZN { n.cpu with A := v } v }

/-- `op_plp` of src/cpu/cpu.c: `P = (pop8() & ~FLAG_B) | FLAG_U`. -/
def op_plp (n : Nes) : Nes :=
  let (v, n) := pop8 n
  { n with cpu := { n.cpu with P := (v &&& (255 ^^^ FLAG_B)) ||| FLAG_U } }

/-- `op_adc` of src/cpu/cpu.c (`val` is a `uint8_t` parameter; the overflow
test `(~(A ^ val) & (A ^ sum)) & 0x80` is taken bit-for-bit, `~` modelled
as `^^^ 0xFF` on bit 7). -/
def op_adc (c : CPU) (val : Nat) : CPU :=
  let val := val % 256
  let sum := c.A + val + (if get_flag c FLAG_C then 1 else 0)
  let c1 := set_flag c FLAG_C (sum > 0xFF)
  let c2 := set_flag c1 FLAG_V ((((c.A ^^^ val) ^^^ 0xFF) &&& (c.A ^^^ sum)) &&& 0x80 != 0)
  set_ZN { c2 with A := sum &&& 0xFF } (sum &&& 0xFF)

/-- `op_sbc` of src/cpu/cpu.c: ADC of the complemented operand. -/
def op_sbc (c : CPU) (val : Nat) : CPU := op_adc c ((val % 256) ^^^ 0xFF)

/-- `op_and` of src/cpu/cpu.c. -/
def op_and (c : CPU) (val : Nat) : CPU :=
  let a := c.A &&& (val % 256)
  set_ZN { c with A := a } a

/-- `op_ora` of src/cpu/cpu.c. -/
def op_ora (c : CPU) (val : Nat) : CPU :=
  let a := c.A ||| (val % 256)
  set_ZN { c with A := a } a

/-- `op_eor` of src/cpu/cpu.c. -/
def op_eor (c : CPU) (val : Nat) : CPU :=
  let a := c.A ^^^ (val % 256)
  set_ZN { c with A := a } a

/-- `op_asl` of src/cpu/cpu.c (returns the shifted value for RMW). -/
def op_asl (c : CPU) (val : Nat) : CPU × Nat :=
  let val := val % 256
  let c := set_flag c FLAG_C (val &&& 0x80 != 0)
  let val := (val <<< 1) % 256
  (set_ZN c val, val)

/-- `op_lsr` of src/cpu/cpu.c. -/
def op_lsr (c : CPU) (val : Nat) : CPU × Nat :=
  let val := val % 256
  let c := set_flag c FLAG_C (val &&& 0x01 != 0)
  let val := val >>> 1
  (set_ZN c val, val)

/-- `op_rol` of src/cpu/cpu.c. -/
def op_rol (c : CPU) (val : Nat) : CPU × Nat :=
  let val := val % 256
  let carry := if get_flag c FLAG_C then 1 else 0
  let c := set_flag c FLAG_C (val &&& 0x80 != 0)
  let val := ((val <<< 1) ||| carry) % 256
  (set_ZN c val, val)

/-- `op_ror` of src/cpu/cpu.c. -/
def op_ror (c : CPU) (val : Nat) : CPU × Nat :=
  let val := val % 256
  let carry := if get_flag c FLAG_C then 0x80 else 0
  let c := set_flag c FLAG_C (val &&& 0x01 != 0)
  let val := (val >>> 1) ||| carry
  (set_ZN c val, val)

/-- `op_inc` of src/cpu/cpu.c (`val++` wraps in `uint8_t`). -/
def op_inc (c : CPU) (val : Nat) : CPU × Nat :=
  let val := (val % 256 + 1) % 256
  (set_ZN c val, val)

/-- `op_dec` of src/cpu/cpu.c. -/
def op_dec (c : CPU) (val : Nat) : CPU × Nat :=
  let val := (val % 256 + 255) % 256
  (set_ZN c val, val)

/-- `op_inx` of src/cpu/cpu.c. -/
def op_inx (c : CPU) : CPU :=
  let c := { c with X := (c.X + 1) % 256 }
  set_ZN c c.X

/-- `op_iny` of src/cpu/cpu.c. -/
def op_iny (c : CPU) : CPU :=
  let c := { c with Y := (c.Y + 1) % 256 }
  set_ZN c c.Y

/-- `op_dex` of src/cpu/cpu.c. -/
def op_dex (c : CPU) : CPU :=
  let c := { c with X := (c.X + 255) % 256 }
  set_ZN c c.X

/-- `op_dey` of src/cpu/cpu.c. -/
def op_dey (c : CPU) : CPU :=
  let c := { c with Y := (c.Y + 255) % 256 }
  set_ZN c c.Y

/-- `op_cmp` of src/cpu/cpu.c (`diff` wraps in `uint8_t`). -/
def op_cmp (c : CPU) (val : Nat) : CPU :=
  let val := val % 256
  let diff := (c.A + 256 - val) % 256
  let c := set_flag c FLAG_C (c.A ≥ val)
  set_ZN c diff

/-- `op_cpx` of src/cpu/cpu.c. -/
def op_cpx (c : CPU) (val : Nat) : CPU :=
  let val := val % 256
  let diff := (c.X + 256 - val) % 256
  let c := set_flag c FLAG_C (c.X ≥ val)
  set_ZN c diff

/-- `op_cpy` of src/cpu/cpu.c. -/
def op_cpy (c : CPU) (val : Nat) : CPU :=
  let val := val % 256
  let diff := (c.Y + 256 - val) % 256
  let c := set_flag c FLAG_C (c.Y ≥ val)
  set_ZN c diff

/-- `op_bit` of src/cpu/cpu.c. -/
def op_bit (c : CPU) (val : Nat) : CPU :=
  let val := val % 256
  let c := set_flag c FLAG_Z ((c.A &&& val) == 0)
  let c := set_flag c FLAG_V (val &&& 0x40 != 0)
  set_flag c FLAG_N (val &&& 0x80 != 0)

/-- `op_branch` of src/cpu/cpu.c: returns the extra cycles. -/
def op_branch (c : CPU) (condition : Bool) (addr : Nat) (page_crossed : Bool) :
    Nat × CPU :=
  if condition then
    (if page_crossed then 2 else 1, { c with PC := addr })
  else (0, c)

/-- `op_clc`..`op_sei` of src/cpu/cpu.c. -/
def op_clc (c : CPU) : CPU := set_flag c FLAG_C false

/-- `op_cld` of src/cpu/cpu.c. -/
def op_cld (c : CPU) : CPU := set_flag c FLAG_D false

/-- `op_cli` of src/cpu/cpu.c. -/
def op_cli (c : CPU) : CPU := set_flag c FLAG_I false

/-- `op_clv` of src/cpu/cpu.c. -/
def op_clv (c : CPU) : CPU := set_flag c FLAG_V false

/-- `op_sec` of src/cpu/cpu.c. -/
def op_sec (c : CPU) : CPU := set_flag c FLAG_C true

/-- `op_sed` of src/cpu/cpu.c. -/
def op_sed (c : CPU) : CPU := set_flag c FLAG_D true

/-- `op_sei` of src/cpu/cpu.c. -/
def op_sei (c : CPU) : CPU := set_flag c FLAG_I true

/-- `op_jmp` of src/cpu/cpu.c. -/
def op_jmp (c : CPU) (addr : Nat) : CPU := { c with PC := addr }

/-- `op_jsr` of src/cpu/cpu.c (`cpu->PC - 1` wraps in `uint16_t`). -/
def op_jsr (n : Nes) (addr : Nat) : Nes :=
  let n := push16 n ((n.cpu.PC + 65535) % 65536)
  { n with cpu := { n.cpu with PC := addr } }

/-- `op_rts` of src/cpu/cpu.c. -/
def op_rts (n : Nes) : Nes :=
  let (v, n) := pop16 n
  { n with cpu := { n.cpu with PC := (v + 1) % 65536 } }

/-- `op_rti` of src/cpu/cpu.c: P from the stack with Break cleared and
Unused forced, then PC. -/
def op_rti (n : Nes) : Nes :=
  let (v, n) := pop8 n
  let n := { n with cpu := { n.cpu with P := (v &&& (255 ^^^ FLAG_B)) ||| FLAG_U } }
  let (w, n) := pop16 n
  { n with cpu := { n.cpu with PC := w } }

/-- `op_brk` of src/cpu/cpu.c. -/
def op_brk (n : Nes) : Nes :=
  let n := { n with cpu := { n.cpu with PC := (n.cpu.PC + 1) % 65536 } }
  let n := push16 n n.cpu.PC
  let n := push8 n (n.cpu.P ||| FLAG_B ||| FLAG_U)
  let n := { n with cpu := set_flag n.cpu FLAG_I true }
  let (v, n) := read16 n 0xFFFE
  { n with cpu := { n.cpu with PC := v } }


/-- `OpcodeInfo` of src/cpu/cpu.c (the `name` string is used only by the
trace formatter `cpu_trace`, which is outside this embedding). -/
structure OpcodeInfo where
  mode : AddrMode
  cycles : Nat
  page_penalty : Bool

/-- The 256 entries of `opcode_table[256]` of src/cpu/cpu.c, in opcode
order.  Entries the C designated initializer leaves unassigned are
zero-initialized: `mode = ADDR_IMP (0)`, `cycles = 0`,
`page_penalty = false`. -/
def opcode_table_entries : List OpcodeInfo :=
  [   OpcodeInfo.mk AddrMode.imp 7 false,  -- 0x00 BRK
   OpcodeInfo.mk AddrMode.izx 6 false,  -- 0x01 ORA
   OpcodeInfo.mk AddrMode.imp 0 false,  -- 0x02 (unassigned, zero-initialized)
   OpcodeInfo.mk AddrMode.izx 8 false,  -- 0x03 *SLO
   OpcodeInfo.mk AddrMode.zp 3 false,  -- 0x04 *NOP
   OpcodeInfo.mk AddrMode.zp 3 false,  -- 0x05 ORA
   OpcodeInfo.mk AddrMode.zp 5 false,  -- 0x06 ASL
   OpcodeInfo.mk AddrMode.zp 5 false,  -- 0x07 *SLO
   OpcodeInfo.mk AddrMode.imp 3 false,  -- 0x08 PHP
   OpcodeInfo.mk AddrMode.imm 2 false,  -- 0x09 ORA
   OpcodeInfo.mk AddrMode.acc 2 false,  -- 0x0A ASL
   OpcodeInfo.mk AddrMode.imm 2 false,  -- 0x0B *ANC
   OpcodeInfo.mk AddrMode.abs 4 false,  -- 0x0C *NOP
   OpcodeInfo.mk AddrMode.abs 4 false,  -- 0x0D ORA
   OpcodeInfo.mk AddrMode.abs 6 false,  -- 0x0E ASL
   OpcodeInfo.mk AddrMode.abs 6 false,  -- 0x0F *SLO
   OpcodeInfo.mk AddrMode.rel 2 true,  -- 0x10 BPL
   OpcodeInfo.mk AddrMode.izy 5 true,  -- 0x11 ORA
   OpcodeInfo.mk AddrMode.imp 0 false,  -- 0x12 (unassigned, zero-initialized)
   OpcodeInfo.mk AddrMode.izy 8 false,  -- 0x13 *SLO
   OpcodeInfo.mk AddrMode.zpx 4 false,  -- 0x14 *NOP
   OpcodeInfo.mk AddrMode.zpx 4 false,  -- 0x15 ORA
   OpcodeInfo.mk AddrMode.zpx 6 false,  -- 0x16 ASL
   OpcodeInfo.mk AddrMode.zpx 6 false,  -- 0x17 *SLO
   OpcodeInfo.mk AddrMode.imp 2 false,  -- 0x18 CLC
   OpcodeInfo.mk AddrMode.aby 4 true,  -- 0x19 ORA
   OpcodeInfo.mk AddrMode.imp 2 false,  -- 0x1A *NOP
   OpcodeInfo.mk AddrMode.aby 7 false,  -- 0x1B *SLO
   OpcodeInfo.mk AddrMode.abx 4 true,  -- 0x1C *NOP
   OpcodeInfo.mk AddrMode.abx 4 true,  -- 0x1D ORA
   OpcodeInfo.mk AddrMode.abx 7 false,  -- 0x1E ASL
   OpcodeInfo.mk AddrMode.abx 7 false,  -- 0x1F *SLO
   OpcodeInfo.mk AddrMode.abs 6 false,  -- 0x20 JSR
   OpcodeInfo.mk AddrMode.izx 6 false,  -- 0x21 AND
   OpcodeInfo.mk AddrMode.imp 0 false,  -- 0x22 (unassigned, zero-initialized)
   OpcodeInfo.mk AddrMode.izx 8 false,  -- 0x23 *RLA
   OpcodeInfo.mk AddrMode.zp 3 false,  -- 0x24 BIT
   OpcodeInfo.mk AddrMode.zp 3 false,  -- 0x25 AND
   OpcodeInfo.mk AddrMode.zp 5 false,  -- 0x26 ROL
   OpcodeInfo.mk AddrMode.zp 5 false,  -- 0x27 *RLA
   OpcodeInfo.mk AddrMode.imp 4 false,  -- 0x28 PLP
   OpcodeInfo.mk AddrMode.imm 2 false,  -- 0x29 AND
   OpcodeInfo.mk AddrMode.acc 2 false,  -- 0x2A ROL
   OpcodeInfo.mk AddrMode.imm 2 false,  -- 0x2B *ANC
   OpcodeInfo.mk AddrMode.abs 4 false,  -- 0x2C BIT
   OpcodeInfo.mk AddrMode.abs 4 false,  -- 0x2D AND
   OpcodeInfo.mk AddrMode.abs 6 false,  -- 0x2E ROL
   OpcodeInfo.mk AddrMode.abs 6 false,  -- 0x2F *RLA
   OpcodeInfo.mk AddrMode.rel 2 true,  -- 0x30 BMI
   OpcodeInfo.mk AddrMode.izy 5 true,  -- 0x31 AND
   OpcodeInfo.mk AddrMode.imp 0 false,  -- 0x32 (unassigned, zero-initialized)
   OpcodeInfo.mk AddrMode.izy 8 false,  -- 0x33 *RLA
   OpcodeInfo.mk AddrMode.zpx 4 false,  -- 0x34 *NOP
   OpcodeInfo.mk AddrMode.zpx 4 false,  -- 0x35 AND
   OpcodeInfo.mk AddrMode.zpx 6 false,  -- 0x36 ROL
   OpcodeInfo.mk AddrMode.zpx 6 false,  -- 0x37 *RLA
   OpcodeInfo.mk AddrMode.imp 2 false,  -- 0x38 SEC
   OpcodeInfo.mk AddrMode.aby 4 true,  -- 0x39 AND
   OpcodeInfo.mk AddrMode.imp 2 false,  -- 0x3A *NOP
   OpcodeInfo.mk AddrMode.aby 7 false,  -- 0x3B *RLA
   OpcodeInfo.mk AddrMode.abx 4 true,  -- 0x3C *NOP
   OpcodeInfo.mk AddrMode.abx 4 true,  -- 0x3D AND
   OpcodeInfo.mk AddrMode.abx 7 false,  -- 0x3E ROL
   OpcodeInfo.mk AddrMode.abx 7 false,  -- 0x3F *RLA
   OpcodeInfo.mk AddrMode.imp 6 false,  -- 0x40 RTI
   OpcodeInfo.mk AddrMode.izx 6 false,  -- 0x41 EOR
   OpcodeInfo.mk AddrMode.imp 0 false,  -- 0x42 (unassigned, zero-initialized)
   OpcodeInfo.mk AddrMode.izx 8 false,  -- 0x43 *SRE
   OpcodeInfo.mk AddrMode.zp 3 false,  -- 0x44 *NOP
   OpcodeInfo.mk AddrMode.zp 3 false,  -- 0x45 EOR
   OpcodeInfo.mk AddrMode.zp 5 false,  -- 0x46 LSR
   OpcodeInfo.mk AddrMode.zp 5 false,  -- 0x47 *SRE
   OpcodeInfo.mk AddrMode.imp 3 false,  -- 0x48 PHA
   OpcodeInfo.mk AddrMode.imm 2 false,  -- 0x49 EOR
   OpcodeInfo.mk AddrMode.acc 2 false,  -- 0x4A LSR
   OpcodeInfo.mk AddrMode.imm 2 false,  -- 0x4B *ALR
   OpcodeInfo.mk AddrMode.abs 3 false,  -- 0x4C JMP
   OpcodeInfo.mk AddrMode.abs 4 false,  -- 0x4D EOR
   OpcodeInfo.mk AddrMode.abs 6 false,  -- 0x4E LSR
   OpcodeInfo.mk AddrMode.abs 6 false,  -- 0x4F *SRE
   OpcodeInfo.mk AddrMode.rel 2 true,  -- 0x50 BVC
   OpcodeInfo.mk AddrMode.izy 5 true,  -- 0x51 EOR
   OpcodeInfo.mk AddrMode.imp 0 false,  -- 0x52 (unassigned, zero-initialized)
   OpcodeInfo.mk AddrMode.izy 8 false,  -- 0x53 *SRE
   OpcodeInfo.mk AddrMode.zpx 4 false,  -- 0x54 *NOP
   OpcodeInfo.mk AddrMode.zpx 4 false,  -- 0x55 EOR
   OpcodeInfo.mk AddrMode.zpx 6 false,  -- 0x56 LSR
   OpcodeInfo.mk AddrMode.zpx 6 false,  -- 0x57 *SRE
   OpcodeInfo.mk AddrMode.imp 2 false,  -- 0x58 CLI
   OpcodeInfo.mk AddrMode.aby 4 true,  -- 0x59 EOR
   OpcodeInfo.mk AddrMode.imp 2 false,  -- 0x5A *NOP
   OpcodeInfo.mk AddrMode.aby 7 false,  -- 0x5B *SRE
   OpcodeInfo.mk AddrMode.abx 4 true,  -- 0x5C *NOP
   OpcodeInfo.mk AddrMode.abx 4 true,  -- 0x5D EOR
   OpcodeInfo.mk AddrMode.abx 7 false,  -- 0x5E LSR
   OpcodeInfo.mk AddrMode.abx 7 false,  -- 0x5F *SRE
   OpcodeInfo.mk AddrMode.imp 6 false,  -- 0x60 RTS
   OpcodeInfo.mk AddrMode.izx 6 false,  -- 0x61 ADC
   OpcodeInfo.mk AddrMode.imp 0 false,  -- 0x62 (unassigned, zero-initialized)
   OpcodeInfo.mk AddrMode.izx 8 false,  -- 0x63 *RRA
   OpcodeInfo.mk AddrMode.zp 3 false,  -- 0x64 *NOP
   OpcodeInfo.mk AddrMode.zp 3 false,  -- 0x65 ADC
   OpcodeInfo.mk AddrMode.zp 5 false,  -- 0x66 ROR
   OpcodeInfo.mk AddrMode.zp 5 false,  -- 0x67 *RRA
   OpcodeInfo.mk AddrMode.imp 4 false,  -- 0x68 PLA
   OpcodeInfo.mk AddrMode.imm 2 false,  -- 0x69 ADC
   OpcodeInfo.mk AddrMode.acc 2 false,  -- 0x6A ROR
   OpcodeInfo.mk AddrMode.imm 2 false,  -- 0x6B *ARR
   OpcodeInfo.mk AddrMode.ind 5 false,  -- 0x6C JMP
   OpcodeInfo.mk AddrMode.abs 4 false,  -- 0x6D ADC
   OpcodeInfo.mk AddrMode.abs 6 false,  -- 0x6E ROR
   OpcodeInfo.mk AddrMode.abs 6 false,  -- 0x6F *RRA
   OpcodeInfo.mk AddrMode.rel 2 true,  -- 0x70 BVS
   OpcodeInfo.mk AddrMode.izy 5 true,  -- 0x71 ADC
   OpcodeInfo.mk AddrMode.imp 0 false,  -- 0x72 (unassigned, zero-initialized)
   OpcodeInfo.mk AddrMode.izy 8 false,  -- 0x73 *RRA
   OpcodeInfo.mk AddrMode.zpx 4 false,  -- 0x74 *NOP
   OpcodeInfo.mk AddrMode.zpx 4 false,  -- 0x75 ADC
   OpcodeInfo.mk AddrMode.zpx 6 false,  -- 0x76 ROR
   OpcodeInfo.mk AddrMode.zpx 6 false,  -- 0x77 *RRA
   OpcodeInfo.mk AddrMode.imp 2 false,  -- 0x78 SEI
   OpcodeInfo.mk AddrMode.aby 4 true,  -- 0x79 ADC
   OpcodeInfo.mk AddrMode.imp 2 false,  -- 0x7A *NOP
   OpcodeInfo.mk AddrMode.aby 7 false,  -- 0x7B *RRA
   OpcodeInfo.mk AddrMode.abx 4 true,  -- 0x7C *NOP
   OpcodeInfo.mk AddrMode.abx 4 true,  -- 0x7D ADC
   OpcodeInfo.mk AddrMode.abx 7 false,  -- 0x7E ROR
   OpcodeInfo.mk AddrMode.abx 7 false,  -- 0x7F *RRA
   OpcodeInfo.mk AddrMode.imm 2 false,  -- 0x80 *NOP
   OpcodeInfo.mk AddrMode.izx 6 false,  -- 0x81 STA
   OpcodeInfo.mk AddrMode.imm 2 false,  -- 0x82 *NOP
   OpcodeInfo.mk AddrMode.izx 6 false,  -- 0x83 *SAX
   OpcodeInfo.mk AddrMode.zp 3 false,  -- 0x84 STY
   OpcodeInfo.mk AddrMode.zp 3 false,  -- 0x85 STA
   OpcodeInfo.mk AddrMode.zp 3 false,  -- 0x86 STX
   OpcodeInfo.mk AddrMode.zp 3 false,  -- 0x87 *SAX
   OpcodeInfo.mk AddrMode.imp 2 false,  -- 0x88 DEY
   OpcodeInfo.mk AddrMode.imm 2 false,  -- 0x89 *NOP
   OpcodeInfo.mk AddrMode.imp 2 false,  -- 0x8A TXA
   OpcodeInfo.mk AddrMode.imp 0 false,  -- 0x8B (unassigned, zero-initialized)
   OpcodeInfo.mk AddrMode.abs 4 false,  -- 0x8C STY
   OpcodeInfo.mk AddrMode.abs 4 false,  -- 0x8D STA
   OpcodeInfo.mk AddrMode.abs 4 false,  -- 0x8E STX
   OpcodeInfo.mk AddrMode.abs 4 false,  -- 0x8F *SAX
   OpcodeInfo.mk AddrMode.rel 2 true,  -- 0x90 BCC
   OpcodeInfo.mk AddrMode.izy 6 false,  -- 0x91 STA
   OpcodeInfo.mk AddrMode.imp 0 false,  -- 0x92 (unassigned, zero-initialized)
   OpcodeInfo.mk AddrMode.imp 0 false,  -- 0x93 (unassigned, zero-initialized)
   OpcodeInfo.mk AddrMode.zpx 4 false,  -- 0x94 STY
   OpcodeInfo.mk AddrMode.zpx 4 false,  -- 0x95 STA
   OpcodeInfo.mk AddrMode.zpy 4 false,  -- 0x96 STX
   OpcodeInfo.mk AddrMode.zpy 4 false,  -- 0x97 *SAX
   OpcodeInfo.mk AddrMode.imp 2 false,  -- 0x98 TYA
   OpcodeInfo.mk AddrMode.aby 5 false,  -- 0x99 STA
   OpcodeInfo.mk AddrMode.imp 2 false,  -- 0x9A TXS
   OpcodeInfo.mk AddrMode.imp 0 false,  -- 0x9B (unassigned, zero-initialized)
   OpcodeInfo.mk AddrMode.imp 0 false,  -- 0x9C (unassigned, zero-initialized)
   OpcodeInfo.mk AddrMode.abx 5 false,  -- 0x9D STA
   OpcodeInfo.mk AddrMode.imp 0 false,  -- 0x9E (unassigned, zero-initialized)
   OpcodeInfo.mk AddrMode.imp 0 false,  -- 0x9F (unassigned, zero-initialized)
   OpcodeInfo.mk AddrMode.imm 2 false,  -- 0xA0 LDY
   OpcodeInfo.mk AddrMode.izx 6 false,  -- 0xA1 LDA
   OpcodeInfo.mk AddrMode.imm 2 false,  -- 0xA2 LDX
   OpcodeInfo.mk AddrMode.izx 6 false,  -- 0xA3 *LAX
   OpcodeInfo.mk AddrMode.zp 3 false,  -- 0xA4 LDY
   OpcodeInfo.mk AddrMode.zp 3 false,  -- 0xA5 LDA
   OpcodeInfo.mk AddrMode.zp 3 false,  -- 0xA6 LDX
   OpcodeInfo.mk AddrMode.zp 3 false,  -- 0xA7 *LAX
   OpcodeInfo.mk AddrMode.imp 2 false,  -- 0xA8 TAY
   OpcodeInfo.mk AddrMode.imm 2 false,  -- 0xA9 LDA
   OpcodeInfo.mk AddrMode.imp 2 false,  -- 0xAA TAX
   OpcodeInfo.mk AddrMode.imp 0 false,  -- 0xAB (unassigned, zero-initialized)
   OpcodeInfo.mk AddrMode.abs 4 false,  -- 0xAC LDY
   OpcodeInfo.mk AddrMode.abs 4 false,  -- 0xAD LDA
   OpcodeInfo.mk AddrMode.abs 4 false,  -- 0xAE LDX
   OpcodeInfo.mk AddrMode.abs 4 false,  -- 0xAF *LAX
   OpcodeInfo.mk AddrMode.rel 2 true,  -- 0xB0 BCS
   OpcodeInfo.mk AddrMode.izy 5 true,  -- 0xB1 LDA
   OpcodeInfo.mk AddrMode.imp 0 false,  -- 0xB2 (unassigned, zero-initialized)
   OpcodeInfo.mk AddrMode.izy 5 true,  -- 0xB3 *LAX
   OpcodeInfo.mk AddrMode.zpx 4 false,  -- 0xB4 LDY
   OpcodeInfo.mk AddrMode.zpx 4 false,  -- 0xB5 LDA
   OpcodeInfo.mk AddrMode.zpy 4 false,  -- 0xB6 LDX
   OpcodeInfo.mk AddrMode.zpy 4 false,  -- 0xB7 *LAX
   OpcodeInfo.mk AddrMode.imp 2 false,  -- 0xB8 CLV
   OpcodeInfo.mk AddrMode.aby 4 true,  -- 0xB9 LDA
   OpcodeInfo.mk AddrMode.imp 2 false,  -- 0xBA TSX
   OpcodeInfo.mk AddrMode.imp 0 false,  -- 0xBB (unassigned, zero-initialized)
   OpcodeInfo.mk AddrMode.abx 4 true,  -- 0xBC LDY
   OpcodeInfo.mk AddrMode.abx 4 true,  -- 0xBD LDA
   OpcodeInfo.mk AddrMode.aby 4 true,  -- 0xBE LDX
   OpcodeInfo.mk AddrMode.aby 4 true,  -- 0xBF *LAX
   OpcodeInfo.mk AddrMode.imm 2 false,  -- 0xC0 CPY
   OpcodeInfo.mk AddrMode.izx 6 false,  -- 0xC1 CMP
   OpcodeInfo.mk AddrMode.imm 2 false,  -- 0xC2 *NOP
   OpcodeInfo.mk AddrMode.izx 8 false,  -- 0xC3 *DCP
   OpcodeInfo.mk AddrMode.zp 3 false,  -- 0xC4 CPY
   OpcodeInfo.mk AddrMode.zp 3 false,  -- 0xC5 CMP
   OpcodeInfo.mk AddrMode.zp 5 false,  -- 0xC6 DEC
   OpcodeInfo.mk AddrMode.zp 5 false,  -- 0xC7 *DCP
   OpcodeInfo.mk AddrMode.imp 2 false,  -- 0xC8 INY
   OpcodeInfo.mk AddrMode.imm 2 false,  -- 0xC9 CMP
   OpcodeInfo.mk AddrMode.imp 2 false,  -- 0xCA DEX
   OpcodeInfo.mk AddrMode.imm 2 false,  -- 0xCB *AXS
   OpcodeInfo.mk AddrMode.abs 4 false,  -- 0xCC CPY
   OpcodeInfo.mk AddrMode.abs 4 false,  -- 0xCD CMP
   OpcodeInfo.mk AddrMode.abs 6 false,  -- 0xCE DEC
   OpcodeInfo.mk AddrMode.abs 6 false,  -- 0xCF *DCP
   OpcodeInfo.mk AddrMode.rel 2 true,  -- 0xD0 BNE
   OpcodeInfo.mk AddrMode.izy 5 true,  -- 0xD1 CMP
   OpcodeInfo.mk AddrMode.imp 0 false,  -- 0xD2 (unassigned, zero-initialized)
   OpcodeInfo.mk AddrMode.izy 8 false,  -- 0xD3 *DCP
   OpcodeInfo.mk AddrMode.zpx 4 false,  -- 0xD4 *NOP
   OpcodeInfo.mk AddrMode.zpx 4 false,  -- 0xD5 CMP
   OpcodeInfo.mk AddrMode.zpx 6 false,  -- 0xD6 DEC
   OpcodeInfo.mk AddrMode.zpx 6 false,  -- 0xD7 *DCP
   OpcodeInfo.mk AddrMode.imp 2 false,  -- 0xD8 CLD
   OpcodeInfo.mk AddrMode.aby 4 true,  -- 0xD9 CMP
   OpcodeInfo.mk AddrMode.imp 2 false,  -- 0xDA *NOP
   OpcodeInfo.mk AddrMode.aby 7 false,  -- 0xDB *DCP
   OpcodeInfo.mk AddrMode.abx 4 true,  -- 0xDC *NOP
   OpcodeInfo.mk AddrMode.abx 4 true,  -- 0xDD CMP
   OpcodeInfo.mk AddrMode.abx 7 false,  -- 0xDE DEC
   OpcodeInfo.mk AddrMode.abx 7 false,  -- 0xDF *DCP
   OpcodeInfo.mk AddrMode.imm 2 false,  -- 0xE0 CPX
   OpcodeInfo.mk AddrMode.izx 6 false,  -- 0xE1 SBC
   OpcodeInfo.mk AddrMode.imm 2 false,  -- 0xE2 *NOP
   OpcodeInfo.mk AddrMode.izx 8 false,  -- 0xE3 *ISB
   OpcodeInfo.mk AddrMode.zp 3 false,  -- 0xE4 CPX
   OpcodeInfo.mk AddrMode.zp 3 false,  -- 0xE5 SBC
   OpcodeInfo.mk AddrMode.zp 5 false,  -- 0xE6 INC
   OpcodeInfo.mk AddrMode.zp 5 false,  -- 0xE7 *ISB
   OpcodeInfo.mk AddrMode.imp 2 false,  -- 0xE8 INX
   OpcodeInfo.mk AddrMode.imm 2 false,  -- 0xE9 SBC
   OpcodeInfo.mk AddrMode.imp 2 false,  -- 0xEA NOP
   OpcodeInfo.mk AddrMode.imm 2 false,  -- 0xEB *SBC
   OpcodeInfo.mk AddrMode.abs 4 false,  -- 0xEC CPX
   OpcodeInfo.mk AddrMode.abs 4 false,  -- 0xED SBC
   OpcodeInfo.mk AddrMode.abs 6 false,  -- 0xEE INC
   OpcodeInfo.mk AddrMode.abs 6 false,  -- 0xEF *ISB
   OpcodeInfo.mk AddrMode.rel 2 true,  -- 0xF0 BEQ
   OpcodeInfo.mk AddrMode.izy 5 true,  -- 0xF1 SBC
   OpcodeInfo.mk AddrMode.imp 0 false,  -- 0xF2 (unassigned, zero-initialized)
   OpcodeInfo.mk AddrMode.izy 8 false,  -- 0xF3 *ISB
   OpcodeInfo.mk AddrMode.zpx 4 false,  -- 0xF4 *NOP
   OpcodeInfo.mk AddrMode.zpx 4 false,  -- 0xF5 SBC
   OpcodeInfo.mk AddrMode.zpx 6 false,  -- 0xF6 INC
   OpcodeInfo.mk AddrMode.zpx 6 false,  -- 0xF7 *ISB
   OpcodeInfo.mk AddrMode.imp 2 false,  -- 0xF8 SED
   OpcodeInfo.mk AddrMode.aby 4 true,  -- 0xF9 SBC
   OpcodeInfo.mk AddrMode.imp 2 false,  -- 0xFA *NOP
   OpcodeInfo.mk AddrMode.aby 7 false,  -- 0xFB *ISB
   OpcodeInfo.mk AddrMode.abx 4 true,  -- 0xFC *NOP
   OpcodeInfo.mk AddrMode.abx 4 true,  -- 0xFD SBC
   OpcodeInfo.mk AddrMode.abx 7 false,  -- 0xFE INC
   OpcodeInfo.mk AddrMode.abx 7 false  -- 0xFF *ISB
  ]

/-- `opcode_table[opcode]` of src/cpu/cpu.c. -/
def opcode_table (opcode : Nat) : OpcodeInfo :=
  opcode_table_entries.getD opcode (OpcodeInfo.mk AddrMode.imp 0 false)

/-- One-cycle page-cross penalty: `if (info->page_penalty && ar.page_crossed)
extra_cycles = 1` of src/cpu/cpu.c. -/
def page_extra (info : OpcodeInfo) (ar : AddrResult) : Nat :=
  if info.page_penalty && ar.page_crossed then 1 else 0

/-- The `switch (opcode)` body of `cpu_step` in src/cpu/cpu.c: execute one
decoded instruction, returning the earned extra cycles together with the
machine.  Opcodes with no `case` fall through the C `default` and do
nothing. -/
def cpu_exec (n : Nes) (opcode : Nat) (info : OpcodeInfo) (ar : AddrResult) :
    Nat × Nes :=
  if opcode = 0x00 then (0, op_brk n)
  else if opcode = 0x01 ∨ opcode = 0x05 ∨ opcode = 0x09 ∨ opcode = 0x0D ∨ opcode = 0x11 ∨ opcode = 0x15 ∨ opcode = 0x19 ∨ opcode = 0x1D then
      let (v, n) := bus_read n ar.addr
      (page_extra info ar, { n with cpu := op_ora n.cpu v })
  else if opcode = 0x06 ∨ opcode = 0x0E ∨ opcode = 0x16 ∨ opcode = 0x1E then
      let (v, n) := bus_read n ar.addr
      let (c, v2) := op_asl n.cpu v
      (0, bus_write { n with cpu := c } ar.addr v2)
  else if opcode = 0x0A then
      let (c, v) := op_asl n.cpu n.cpu.A
      (0, { n with cpu := { c with A := v } })
  else if opcode = 0x08 then (0, op_php n)
  else if opcode = 0x10 then
      let (e, c) := op_branch n.cpu (!get_flag n.cpu FLAG_N) ar.addr ar.page_crossed
      (e, { n with cpu := c })
  else if opcode = 0x18 then (0, { n with cpu := op_clc n.cpu })
  else if opcode = 0x20 then (0, op_jsr n ar.addr)
  else if opcode = 0x21 ∨ opcode = 0x25 ∨ opcode = 0x29 ∨ opcode = 0x2D ∨ opcode = 0x31 ∨ opcode = 0x35 ∨ opcode = 0x39 ∨ opcode = 0x3D then
      let (v, n) := bus_read n ar.addr
      (page_extra info ar, { n with cpu := op_and n.cpu v })
  else if opcode = 0x24 ∨ opcode = 0x2C then
      let (v, n) := bus_read n ar.addr
      (0, { n with cpu := op_bit n.cpu v })
  else if opcode = 0x26 ∨ opcode = 0x2E ∨ opcode = 0x36 ∨ opcode = 0x3E then
      let (v, n) := bus_read n ar.addr
      let (c, v2) := op_rol n.cpu v
      (0, bus_write { n with cpu := c } ar.addr v2)
  else if opcode = 0x2A then
      let (c, v) := op_rol n.cpu n.cpu.A
      (0, { n with cpu := { c with A := v } })
  else if opcode = 0x28 then (0, op_plp n)
  else if opcode = 0x30 then
      let (e, c) := op_branch n.cpu (get_flag n.cpu FLAG_N) ar.addr ar.page_crossed
      (e, { n with cpu := c })
  else if opcode = 0x38 then (0, { n with cpu := op_sec n.cpu })
  else if opcode = 0x40 then (0, op_rti n)
  else if opcode = 0x41 ∨ opcode = 0x45 ∨ opcode = 0x49 ∨ opcode = 0x4D ∨ opcode = 0x51 ∨ opcode = 0x55 ∨ opcode = 0x59 ∨ opcode = 0x5D then
      let (v, n) := bus_read n ar.addr
      (page_extra info ar, { n with cpu := op_eor n.cpu v })
  else if opcode = 0x46 ∨ opcode = 0x4E ∨ opcode = 0x56 ∨ opcode = 0x5E then
      let (v, n) := bus_read n ar.addr
      let (c, v2) := op_lsr n.cpu v
      (0, bus_write { n with cpu := c } ar.addr v2)
  else if opcode = 0x4A then
      let (c, v) := op_lsr n.cpu n.cpu.A
      (0, { n with cpu := { c with A := v } })
  else if opcode = 0x48 then (0, op_pha n)
  else if opcode = 0x4C ∨ opcode = 0x6C then (0, { n with cpu := op_jmp n.cpu ar.addr })
  else if opcode = 0x50 then
      let (e, c) := op_branch n.cpu (!get_flag n.cpu FLAG_V) ar.addr ar.page_crossed
      (e, { n with cpu := c })
  else if opcode = 0x58 then (0, { n with cpu := op_cli n.cpu })
  else if opcode = 0x60 then (0, op_rts n)
  else if opcode = 0x61 ∨ opcode = 0x65 ∨ opcode = 0x69 ∨ opcode = 0x6D ∨ opcode = 0x71 ∨ opcode = 0x75 ∨ opcode = 0x79 ∨ opcode = 0x7D then
      let (v, n) := bus_read n ar.addr
      (page_extra info ar, { n with cpu := op_adc n.cpu v })
  else if opcode = 0x66 ∨ opcode = 0x6E ∨ opcode = 0x76 ∨ opcode = 0x7E then
      let (v, n) := bus_read n ar.addr
      let (c, v2) := op_ror n.cpu v
      (0, bus_write { n with cpu := c } ar.addr v2)
  else if opcode = 0x6A then
      let (c, v) := op_ror n.cpu n.cpu.A
      (0, { n with cpu := { c with A := v } })
  else if opcode = 0x68 then (0, op_pla n)
  else if opcode = 0x70 then
      let (e, c) := op_branch n.cpu (get_flag n.cpu FLAG_V) ar.addr ar.page_crossed
      (e, { n with cpu := c })
  else if opcode = 0x78 then (0, { n with cpu := op_sei n.cpu })
  else if opcode = 0x81 ∨ opcode = 0x85 ∨ opcode = 0x8D ∨ opcode = 0x91 ∨ opcode = 0x95 ∨ opcode = 0x99 ∨ opcode = 0x9D then (0, op_sta n ar.addr)
  else if opcode = 0x84 ∨ opcode = 0x8C ∨ opcode = 0x94 then (0, op_sty n ar.addr)
  else if opcode = 0x86 ∨ opcode = 0x8E ∨ opcode = 0x96 then (0, op_stx n ar.addr)
  else if opcode = 0x88 then (0, { n with cpu := op_dey n.cpu })
  else if opcode = 0x8A then (0, { n with cpu := op_txa n.cpu })
  else if opcode = 0x90 then
      let (e, c) := op_branch n.cpu (!get_flag n.cpu FLAG_C) ar.addr ar.page_crossed
      (e, { n with cpu := c })
  else if opcode = 0x98 then (0, { n with cpu := op_tya n.cpu })
  else if opcode = 0x9A then (0, { n with cpu := op_txs n.cpu })
  else if opcode = 0xA0 ∨ opcode = 0xA4 ∨ opcode = 0xAC ∨ opcode = 0xB4 ∨ opcode = 0xBC then
      (page_extra info ar, op_ldy n ar.addr)
  else if opcode = 0xA1 ∨ opcode = 0xA5 ∨ opcode = 0xA9 ∨ opcode = 0xAD ∨ opcode = 0xB1 ∨ opcode = 0xB5 ∨ opcode = 0xB9 ∨ opcode = 0xBD then
      (page_extra info ar, op_lda n ar.addr)
  else if opcode = 0xA2 ∨ opcode = 0xA6 ∨ opcode = 0xAE ∨ opcode = 0xB6 ∨ opcode = 0xBE then
      (page_extra info ar, op_ldx n ar.addr)
  else if opcode = 0xA8 then (0, { n with cpu := op_tay n.cpu })
  else if opcode = 0xAA then (0, { n with cpu := op_tax n.cpu })
  else if opcode = 0xB0 then
      let (e, c) := op_branch n.cpu (get_flag n.cpu FLAG_C) ar.addr ar.page_crossed
      (e, { n with cpu := c })
  else if opcode = 0xB8 then (0, { n with cpu := op_clv n.cpu })
  else if opcode = 0xBA then (0, { n with cpu := op_tsx n.cpu })
  else if opcode = 0xC0 ∨ opcode = 0xC4 ∨ opcode = 0xCC then
      let (v, n) := bus_read n ar.addr
      (0, { n with cpu := op_cpy n.cpu v })
  else if opcode = 0xC1 ∨ opcode = 0xC5 ∨ opcode = 0xC9 ∨ opcode = 0xCD ∨ opcode = 0xD1 ∨ opcode = 0xD5 ∨ opcode = 0xD9 ∨ opcode = 0xDD then
      let (v, n) := bus_read n ar.addr
      (page_extra info ar, { n with cpu := op_cmp n.cpu v })
  else if opcode = 0xC6 ∨ opcode = 0xCE ∨ opcode = 0xD6 ∨ opcode = 0xDE then
      let (v, n) := bus_read n ar.addr
      let (c, v2) := op_dec n.cpu v
      (0, bus_write { n with cpu := c } ar.addr v2)
  else if opcode = 0xC8 then (0, { n with cpu := op_iny n.cpu })
  else if opcode = 0xCA then (0, { n with cpu := op_dex n.cpu })
  else if opcode = 0xD0 then
      let (e, c) := op_branch n.cpu (!get_flag n.cpu FLAG_Z) ar.addr ar.page_crossed
      (e, { n with cpu := c })
  else if opcode = 0xD8 then (0, { n with cpu := op_cld n.cpu })
  else if opcode = 0xE0 ∨ opcode = 0xE4 ∨ opcode = 0xEC then
      let (v, n) := bus_read n ar.addr
      (0, { n with cpu := op_cpx n.cpu v })
  else if opcode = 0xE1 ∨ opcode = 0xE5 ∨ opcode = 0xE9 ∨ opcode = 0xED ∨ opcode = 0xF1 ∨ opcode = 0xF5 ∨ opcode = 0xF9 ∨ opcode = 0xFD ∨ opcode = 0xEB then
      let (v, n) := bus_read n ar.addr
      (page_extra info ar, { n with cpu := op_sbc n.cpu v })
  else if opcode = 0xE6 ∨ opcode = 0xEE ∨ opcode = 0xF6 ∨ opcode = 0xFE then
      let (v, n) := bus_read n ar.addr
      let (c, v2) := op_inc n.cpu v
      (0, bus_write { n with cpu := c } ar.addr v2)
  else if opcode = 0xE8 then (0, { n with cpu := op_inx n.cpu })
  else if opcode = 0xEA then (0, n)
  else if opcode = 0xF0 then
      let (e, c) := op_branch n.cpu (get_flag n.cpu FLAG_Z) ar.addr ar.page_crossed
      (e, { n with cpu := c })
  else if opcode = 0xF8 then (0, { n with cpu := op_sed n.cpu })
  else if opcode = 0x04 ∨ opcode = 0x0C ∨ opcode = 0x14 ∨ opcode = 0x1A ∨ opcode = 0x1C ∨ opcode = 0x34 ∨ opcode = 0x3A ∨ opcode = 0x3C ∨ opcode = 0x44 ∨ opcode = 0x54 ∨ opcode = 0x5A ∨ opcode = 0x5C ∨ opcode = 0x64 ∨ opcode = 0x74 ∨ opcode = 0x7A ∨ opcode = 0x7C ∨ opcode = 0x80 ∨ opcode = 0x82 ∨ opcode = 0x89 ∨ opcode = 0xC2 ∨ opcode = 0xD4 ∨ opcode = 0xDA ∨ opcode = 0xDC ∨ opcode = 0xE2 ∨ opcode = 0xF4 ∨ opcode = 0xFA ∨ opcode = 0xFC then
      (page_extra info ar, n)
  else if opcode = 0xA3 ∨ opcode = 0xA7 ∨ opcode = 0xAF ∨ opcode = 0xB3 ∨ opcode = 0xB7 ∨ opcode = 0xBF then
      let (v, n) := bus_read n ar.addr
      let c := { n.cpu with A := v, X := v }
      (page_extra info ar, { n with cpu := set_ZN c c.A })
  else if opcode = 0x83 ∨ opcode = 0x87 ∨ opcode = 0x8F ∨ opcode = 0x97 then
      (0, bus_write n ar.addr (n.cpu.A &&& n.cpu.X))
  else if opcode = 0xC3 ∨ opcode = 0xC7 ∨ opcode = 0xCF ∨ opcode = 0xD3 ∨ opcode = 0xD7 ∨ opcode = 0xDB ∨ opcode = 0xDF then
      let (v, n) := bus_read n ar.addr
      let (c, v2) := op_dec n.cpu v
      let n := bus_write { n with cpu := c } ar.addr v2
      (0, { n with cpu := op_cmp n.cpu v2 })
  else if opcode = 0xE3 ∨ opcode = 0xE7 ∨ opcode = 0xEF ∨ opcode = 0xF3 ∨ opcode = 0xF7 ∨ opcode = 0xFB ∨ opcode = 0xFF then
      let (v, n) := bus_read n ar.addr
      let (c, v2) := op_inc n.cpu v
      let n := bus_write { n with cpu := c } ar.addr v2
      (0, { n with cpu := op_sbc n.cpu v2 })
  else if opcode = 0x03 ∨ opcode = 0x07 ∨ opcode = 0x0F ∨ opcode = 0x13 ∨ opcode = 0x17 ∨ opcode = 0x1B ∨ opcode = 0x1F then
      let (v, n) := bus_read n ar.addr
      let (c, v2) := op_asl n.cpu v
      let n := bus_write { n with cpu := c } ar.addr v2
      (0, { n with cpu := op_ora n.cpu v2 })
  else if opcode = 0x23 ∨ opcode = 0x27 ∨ opcode = 0x2F ∨ opcode = 0x33 ∨ opcode = 0x37 ∨ opcode = 0x3B ∨ opcode = 0x3F then
      let (v, n) := bus_read n ar.addr
      let (c, v2) := op_rol n.cpu v
      let n := bus_write { n with cpu := c } ar.addr v2
      (0, { n with cpu := op_and n.cpu v2 })
  else if opcode = 0x43 ∨ opcode = 0x47 ∨ opcode = 0x4F ∨ opcode = 0x53 ∨ opcode = 0x57 ∨ opcode = 0x5B ∨ opcode = 0x5F then
      let (v, n) := bus_read n ar.addr
      let (c, v2) := op_lsr n.cpu v
      let n := bus_write { n with cpu := c } ar.addr v2
      (0, { n with cpu := op_eor n.cpu v2 })
  else if opcode = 0x63 ∨ opcode = 0x67 ∨ opcode = 0x6F ∨ opcode = 0x73 ∨ opcode = 0x77 ∨ opcode = 0x7B ∨ opcode = 0x7F then
      let (v, n) := bus_read n ar.addr
      let (c, v2) := op_ror n.cpu v
      let n := bus_write { n with cpu := c } ar.addr v2
      (0, { n with cpu := op_adc n.cpu v2 })
  else if opcode = 0x0B ∨ opcode = 0x2B then
      let (v, n) := bus_read n ar.addr
      let c := op_and n.cpu v
      (0, { n with cpu := set_flag c FLAG_C (c.A &&& 0x80 != 0) })
  else if opcode = 0x4B then
      let (v, n) := bus_read n ar.addr
      let c := op_and n.cpu v
      let (c, v2) := op_lsr c c.A
      (0, { n with cpu := { c with A := v2 } })
  else if opcode = 0x6B then
      let (v, n) := bus_read n ar.addr
      let c := op_and n.cpu v
      let (c, v2) := op_ror c c.A
      let c := { c with A := v2 }
      let c := set_flag c FLAG_C (c.A &&& 0x40 != 0)
      let c := set_flag c FLAG_V (((c.A &&& 0x40) ^^^ ((c.A &&& 0x20) <<< 1)) != 0)
      (0, { n with cpu := c })
  else if opcode = 0xCB then
      let (v, n) := bus_read n ar.addr
      let result := ((n.cpu.A &&& n.cpu.X) + 256 - v) % 256
      let c := set_flag n.cpu FLAG_C ((n.cpu.A &&& n.cpu.X) >= v)
      let c := { c with X := result }
      (0, { n with cpu := set_ZN c c.X })
  else (0, n)

/-- `cpu_step` of src/cpu/cpu.c: fetch the opcode (post-incrementing PC),
decode through the table, resolve the address, execute, and account
cycles. -/
def cpu_step (n : Nes) : Nat × Nes :=
  let (opcode, n) := bus_read n n.cpu.PC
  let n := { n with cpu := { n.cpu with PC := (n.cpu.PC + 1) % 65536 } }
  let info := opcode_table opcode
  let (ar, n) := resolve_addr n info.mode
  let (extra_cycles, n) := cpu_exec n opcode info ar
  let cycles := info.cycles + extra_cycles
  (cycles, { n with cpu := { n.cpu with cycles := n.cpu.cycles + cycles } })

/-- `cpu_init` of src/cpu/cpu.c (the bus pointer lives in `Nes`). -/
def cpu_init : CPU :=
  { A := 0, X := 0, Y := 0, P := FLAG_U ||| FLAG_I, S := 0xFD, PC := 0,
    cycles := 0, nmi_pending := false, irq_pending := false }

/-- `cpu_reset` of src/cpu/cpu.c. -/
def cpu_reset (n : Nes) : Nes :=
  let n := { n with cpu := { n.cpu with
      A := 0, X := 0, Y := 0, P := FLAG_U ||| FLAG_I, S := 0xFD } }
  let (v, n) := read16 n 0xFFFC
  { n with cpu := { n.cpu with PC := v, cycles := 7 } }

/-- `cpu_nmi` of src/cpu/cpu.c: push PC and P (Unused set, Break clear),
set IRQ-disable, load the `$FFFA` vector, add 7 cycles. -/
def cpu_nmi (n : Nes) : Nes :=
  let n := push16 n n.cpu.PC
  let n := push8 n ((n.cpu.P ||| FLAG_U) &&& (255 ^^^ FLAG_B))
  let n := { n with cpu := set_flag n.cpu FLAG_I true }
  let (v, n) := read16 n 0xFFFA
  { n with cpu := { n.cpu with PC := v, cycles := n.cpu.cycles + 7 } }

/-- `cpu_irq` of src/cpu/cpu.c: a no-op while the IRQ-disable flag is set,
otherwise the NMI sequence with the `$FFFE` vector. -/
def cpu_irq (n : Nes) : Nes :=
  if get_flag n.cpu FLAG_I then n
  else
    let n := push16 n n.cpu.PC
    let n := push8 n ((n.cpu.P ||| FLAG_U) &&& (255 ^^^ FLAG_B))
    let n := { n with cpu := set_flag n.cpu FLAG_I true }
    let (v, n) := read16 n 0xFFFE
    { n with cpu := { n.cpu with PC := v, cycles := n.cpu.cycles + 7 } }

/-- The call `ppu_tick(&nes->ppu)` viewed on the whole machine (the PPU
reaches only itself and its cartridge). -/
def nes_ppu_tick (n : Nes) : Nes :=
  let m := ppu_tick ⟨n.ppu, n.cart⟩
  { n with ppu := m.ppu, cart := m.cart }

/-- The call `apu_tick(&nes->apu)` viewed on the whole machine. -/
def nes_apu_tick (n : Nes) : Nes :=
  { n with apu := apu_tick n.apu }

/-- `bus_tick` of src/bus/bus.c: advance the PPU by `3 * cpu_cycles` dots
and the APU by `cpu_cycles` ticks; then, if the mapper has an
`irq_pending` hook (MMC3) and it reports a pending line, deliver
`cpu_irq` and acknowledge through the mapper's `irq_clear` hook. -/
def bus_tick (n : Nes) (cpu_cycles : Nat) : Nes :=
  let n := nes_ppu_tick^[cpu_cycles * 3] n
  let n := nes_apu_tick^[cpu_cycles] n
  if mapper_irq_pending n.cart.mapper then
    let n := cpu_irq n
    { n with cart := mapper_irq_clear n.cart }
  else n

/-- One iteration of the 256-byte OAM-DMA copy loop in `run_frame` of
src/main.c: `val = bus_read(&nes->bus, start_addr + i);
ppu_write_register(&nes->ppu, 0x2004, val)`. -/
def dma_copy_iter (start_addr : Nat) (n : Nes) (i : Nat) : Nes :=
  let (val, n) := bus_read n (start_addr + i)
  let m := ppu_write_register ⟨n.ppu, n.cart⟩ 0x2004 val
  { n with ppu := m.ppu, cart := m.cart }

/-- One iteration of the `513 * 3` stall loop in `run_frame` of src/main.c:
a PPU tick, an APU tick on every third iteration, and immediate delivery of
any pending NMI via `cpu_nmi` (the `nes->nmi_count` debug counter is not
modelled). -/
def dma_stall_iter (n : Nes) (i : Nat) : Nes :=
  let n := nes_ppu_tick n
  let n := if i % 3 = 0 then nes_apu_tick n else n
  if n.ppu.nmi_pending then
    let n := { n with ppu := { n.ppu with nmi_pending := false } }
    cpu_nmi n
  else n

/-- The OAM-DMA block of `run_frame` in src/main.c (executed when
`nes->bus.dma_pending` is observed): clear the pending flag, copy 256 bytes
from `(dma_page << 8) + 0..255` through the OAM-DATA register, then run the
`513 * 3`-iteration stall loop. -/
def run_dma (n : Nes) : Nes :=
  let n := { n with bus := { n.bus with dma_pending := false } }
  let start_addr := (n.bus.dma_page <<< 8) % 65536
  let n := (List.range 256).foldl (dma_copy_iter start_addr) n
  (List.range (513 * 3)).foldl dma_stall_iter n

/-- The `if (nes->bus.dma_pending)` head of the frame loop in `run_frame`
of src/main.c. -/
def dma_step (n : Nes) : Nes :=
  if n.bus.dma_pending then run_dma n else n

/-! ## Concrete machine states used by the witnesses and counterexamples -/

/-- The candidate count named by claim C1: how many of the 64 OAM entries
have a Y range covering the current scanline for the current sprite height
(the very condition `row >= 0 && row < sprite_height` of the scan loop). -/
def sprite_match_count (p : PPU) : Nat :=
  let h : Int := if p.ctrl &&& PPU_CTRL_SPRITE_SIZE ≠ 0 then 16 else 8
  ((List.range 64).filter fun i =>
    decide (0 ≤ p.scanline - p.oam (i * 4) ∧ p.scanline - p.oam (i * 4) < h)).length

/-- A PPU on visible scanline 12 whose 64 OAM entries all have Y = 10, so
every sprite covers the scanline (8-pixel height, `ctrl = 0`). -/
def ppu_nine_sprites : PPU :=
  { ppu_init with scanline := 12, oam := fun i => if i % 4 = 0 then 10 else 0 }

/-- A pulse channel with sweep negate requested: shift 2, period load
`$100`, sweep divider at 0 and enabled, so the next half-frame sweep tick
commits the target period. -/
def sweep_pulse : PulseChannel :=
  { enabled := true, duty_mode := 0, volume := 0, constant_volume := false,
    envelope_start := false, envelope_loop := true, envelope_period := 0,
    envelope_value := 0, envelope_counter := 1, sweep_enabled := true,
    sweep_period := 3, sweep_negate := true, sweep_shift := 2,
    sweep_reload := false, sweep_counter := 0, timer := 5,
    timer_load := 0x100, length_counter := 10, duty_sequence_step := 0 }

/-- An APU about to perform a half-frame tick (`frame_count = 0` hits the
7457-cycle cadence and the static `step` advances 1 → 2) with both pulse
channels configured as `sweep_pulse`. -/
def apu_sweep_poised : APU :=
  { apu_init with pulse1 := sweep_pulse, pulse2 := sweep_pulse, frame_step := 1 }

/-- A pulse channel violating the claimed `timer >= 8 contributes` rule:
period exactly 8, nonzero length, duty gate high, constant volume 5. -/
def pulse_ce : PulseChannel :=
  { enabled := true, duty_mode := 0, volume := 5, constant_volume := true,
    envelope_start := false, envelope_loop := false, envelope_period := 0,
    envelope_value := 0, envelope_counter := 0, sweep_enabled := false,
    sweep_period := 0, sweep_negate := false, sweep_shift := 0,
    sweep_reload := false, sweep_counter := 0, timer := 0,
    timer_load := 8, length_counter := 1, duty_sequence_step := 1 }

/-- `pulse_ce` with period 9: the nearest state the amended claim covers. -/
def pulse_w : PulseChannel :=
  { pulse_ce with timer_load := 9 }

/-- An all-zero MMC3 state with a pending IRQ line. -/
def mmc3_pending : MMC3State :=
  { bank_select := 0, bank_data := fun _ => 0, prg_mode := 0, chr_mode := 0,
    irq_latch := 0, irq_counter := 0, irq_enabled := true, irq_pending := true,
    irq_reload := false, mirroring := 0, prg_ram_protect := 0,
    prev_a12_high := false, last_a12_rise_cycle := 0, last_a12_high_cycle := 0 }

/-- An NROM cartridge with 16 KiB of zeroed PRG and CHR-RAM. -/
def cart0 : Cart :=
  { prg_rom := fun _ => 0, prg_rom_size := 16384, chr_rom := none,
    chr_rom_size := 0, chr_ram := some (fun _ => 0), prg_ram := fun _ => 0,
    mirroring := 0, mapper := .nrom }

/-- The bus right after `bus_init`. -/
def bus0 : Bus :=
  { ram := fun _ => 0, controller0 := 0, controller1 := 0,
    controller_state0 := 0, controller_state1 := 0, controller_strobe := 0,
    open_bus := 0xFF, dma_pending := false, dma_page := 0, dma_cycles := 0 }

/-- A freshly initialized machine over `cart0`. -/
def nes0 : Nes :=
  { cpu := cpu_init, bus := bus0, ppu := ppu_init, apu := apu_init, cart := cart0 }

/-- A machine with a latched controller-1 state of `0b10110100`, strobe
low (the spec's controller-shift scenario). -/
def nes_c6 : Nes :=
  { nes0 with bus := { bus0 with controller_state0 := 0xB4 } }

/-- A machine whose RAM holds a 16-bit pointer split across a page
boundary: `$02FF = $34` and `$0200 = $12`. -/
def nes_c7 : Nes :=
  { nes0 with
    bus := { bus0 with
             ram := fun j =>
               if j = 0x02FF then 0x34 else if j = 0x0200 then 0x12 else 0 } }

/-- A machine with a pending OAM-DMA from page `$02` observed while the
CPU cycle counter is odd (7, the post-reset value). -/
def nes_c4 : Nes :=
  { nes0 with
    cpu := { cpu_init with cycles := 7 },
    bus := { bus0 with dma_pending := true, dma_page := 0x02 } }

/-- A machine with a pending OAM-DMA from page `$03`, OAM address `$10`,
and recognizable RAM contents on the DMA page. -/
def nes_c10 : Nes :=
  { nes0 with
    bus := { bus0 with
             dma_pending := true,
             dma_page := 0x03,
             ram := fun j => (j + 7) % 256 },
    ppu := { ppu_init with oam_addr := 0x10 } }

/-- A machine whose MMC3 mapper has a pending IRQ while the CPU's
IRQ-disable flag is set (the post-init P has FLAG_I). -/
def nes_c9 : Nes :=
  { nes0 with cart := { cart0 with mapper := .mmc3 mmc3_pending } }

/-- The state evolution of one CPU read of `$4016` (the value is returned,
the machine shifts). -/
def controller1_read_step (n : Nes) : Nes := (bus_read n 0x4016).2

/-- The controller shift-register update a strobe-low read performs:
shift right, fill the vacated top bit with 1 (stored into the `uint8_t`
array slot). -/
def shift_reg_step (s : Nat) : Nat := ((s >>> 1) ||| 0x80) % 256

/-! ## Helper lemmas: sprite evaluation -/

theorem sprite_eval_step_status (h : Int) (p : PPU) (i : Nat) :
    (sprite_eval_step h p i).status = p.status := by
  unfold sprite_eval_step
  dsimp only
  split_ifs <;> rfl

theorem sprite_eval_step_oam (h : Int) (p : PPU) (i : Nat) :
    (sprite_eval_step h p i).oam = p.oam := by
  unfold sprite_eval_step
  dsimp only
  split_ifs <;> rfl

theorem sprite_eval_step_oam_addr (h : Int) (p : PPU) (i : Nat) :
    (sprite_eval_step h p i).oam_addr = p.oam_addr := by
  unfold sprite_eval_step
  dsimp only
  split_ifs <;> rfl

theorem sprite_eval_step_count (h : Int) (p : PPU) (i : Nat)
    (hp : p.sprite_count ≤ 8) : (sprite_eval_step h p i).sprite_count ≤ 8 := by
  unfold sprite_eval_step
  dsimp only
  split_ifs <;> (try dsimp only) <;> omega

theorem foldl_sprite_eval_status (h : Int) (l : List Nat) :
    ∀ p : PPU, ((l.foldl (sprite_eval_step h) p).status = p.status) := by
  induction l with
  | nil => intro p; rfl
  | cons a t ih =>
      intro p
      rw [List.foldl_cons, ih, sprite_eval_step_status]

theorem foldl_sprite_eval_oam (h : Int) (l : List Nat) :
    ∀ p : PPU, ((l.foldl (sprite_eval_step h) p).oam = p.oam) := by
  induction l with
  | nil => intro p; rfl
  | cons a t ih =>
      intro p
      rw [List.foldl_cons, ih, sprite_eval_step_oam]

theorem foldl_sprite_eval_oam_addr (h : Int) (l : List Nat) :
    ∀ p : PPU, ((l.foldl (sprite_eval_step h) p).oam_addr = p.oam_addr) := by
  induction l with
  | nil => intro p; rfl
  | cons a t ih =>
      intro p
      rw [List.foldl_cons, ih, sprite_eval_step_oam_addr]

theorem foldl_sprite_eval_count (h : Int) (l : List Nat) :
    ∀ p : PPU, p.sprite_count ≤ 8 → (l.foldl (sprite_eval_step h) p).sprite_count ≤ 8 := by
  induction l with
  | nil => intro p hp; exact hp
  | cons a t ih =>
      intro p hp
      rw [List.foldl_cons]
      exact ih _ (sprite_eval_step_count h p a hp)

theorem ppu_evaluate_sprites_status (p : PPU) :
    (ppu_evaluate_sprites p).status = p.status := by
  unfold ppu_evaluate_sprites
  dsimp only
  rw [foldl_sprite_eval_status]

theorem ppu_evaluate_sprites_oam (p : PPU) :
    (ppu_evaluate_sprites p).oam = p.oam := by
  unfold ppu_evaluate_sprites
  dsimp only
  rw [foldl_sprite_eval_oam]

theorem ppu_evaluate_sprites_oam_addr (p : PPU) :
    (ppu_evaluate_sprites p).oam_addr = p.oam_addr := by
  unfold ppu_evaluate_sprites
  dsimp only
  rw [foldl_sprite_eval_oam_addr]

theorem ppu_evaluate_sprites_count (p : PPU) :
    (ppu_evaluate_sprites p).sprite_count ≤ 8 := by
  unfold ppu_evaluate_sprites
  dsimp only
  exact foldl_sprite_eval_count _ _ _ (by simp)

/-! ## Claim C1 -/

/-- C1 (as stated) is false on the code: `ppu_evaluate_sprites` never sets
the sprite-overflow status bit.  Here a scanline is covered by all 64 OAM
entries (64 > 8 candidates), yet after evaluation the overflow bit of the
status register is still clear. -/
theorem C1_counterexample :
    sprite_match_count ppu_nine_sprites = 64 ∧
    8 < sprite_match_count ppu_nine_sprites ∧
    (ppu_evaluate_sprites ppu_nine_sprites).status &&& PPU_STATUS_OVERFLOW = 0 := by
  refine ⟨by decide, by decide, ?_⟩
  rw [ppu_evaluate_sprites_status]
  decide

/-- C1 amended: during sprite evaluation the PPU selects at most eight
matching OAM entries and leaves the status register — in particular the
sprite-overflow flag — completely unchanged, no matter how many candidates
cover the scanline. -/
theorem C1_sprite_eval_no_overflow (p : PPU) :
    (ppu_evaluate_sprites p).status = p.status ∧
    (ppu_evaluate_sprites p).sprite_count ≤ 8 :=
  ⟨ppu_evaluate_sprites_status p, ppu_evaluate_sprites_count p⟩

/-! ## Claim C2 -/

/-- C2: the claim (and the header note of src/apu/apu.h) assign the
ones'-complement negate to pulse channel 1, but `apu_tick` passes
`channel = 0` for `pulse1` and `1` for `pulse2`, and `tick_sweep` applies
the extra decrement only when `channel == 1`.  With `timer_load = 0x100`,
`shift = 2`, negate requested: pulse 1 commits `0x100 - 0x40 = 0xC0`
(twos'-complement) while pulse 2 commits `0x100 - 0x40 - 1 = 0xBF`
(ones'-complement) — exactly swapped relative to the claim. -/
theorem C2_sweep_channels_swapped :
    (tick_sweep sweep_pulse 0).timer_load = 0xC0 ∧
    (tick_sweep sweep_pulse 1).timer_load = 0xBF ∧
    (apu_tick apu_sweep_poised).pulse1.timer_load = 0xC0 ∧
    (apu_tick apu_sweep_poised).pulse2.timer_load = 0xBF := by
  decide

/-! ## Claim C5 -/

/-- C5 (as stated) is false on the code: a pulse channel with timer period
exactly 8, nonzero length, duty gate high and constant volume 5 is silenced
(`apu_get_sample` requires `timer_load > 8`, not `>= 8`). -/
theorem C5_counterexample :
    pulse_ce.length_counter > 0 ∧ pulse_ce.timer_load = 8 ∧
    duty_cycles pulse_ce.duty_mode pulse_ce.duty_sequence_step ≠ 0 ∧
    pulse_ce.constant_volume = true ∧ pulse_ce.volume = 5 ∧
    pulse_out pulse_ce = 0 := by
  decide

/-- C5 amended: a timer period of 8 or below silences a pulse channel, and
a pulse channel with nonzero length counter, timer period strictly greater
than 8 and duty gate high contributes its gated output (constant volume or
envelope value, in 0..15) to the mixer. -/
theorem C5_pulse_gate (p : PulseChannel)
    (hv : p.volume < 16) (he : p.envelope_value < 16) :
    (p.timer_load ≤ 8 → pulse_out p = 0) ∧
    (p.length_counter > 0 → p.timer_load > 8 →
      duty_cycles p.duty_mode p.duty_sequence_step ≠ 0 →
      pulse_out p = (if p.constant_volume then p.volume else p.envelope_value) ∧
      pulse_out p < 16) := by
  unfold pulse_out
  constructor
  · intro h
    split_ifs <;> first | rfl | omega
  · intro h1 h2 h3
    split_ifs <;> simp_all

/-- Witness for `C5_pulse_gate` at the concrete channel `pulse_w`
(period 9, length 1, gate high, constant volume 5). -/
theorem C5_pulse_gate_witness :
    (pulse_w.timer_load ≤ 8 → pulse_out pulse_w = 0) ∧
    (pulse_w.length_counter > 0 → pulse_w.timer_load > 8 →
      duty_cycles pulse_w.duty_mode pulse_w.duty_sequence_step ≠ 0 →
      pulse_out pulse_w =
        (if pulse_w.constant_volume then pulse_w.volume else pulse_w.envelope_value) ∧
      pulse_out pulse_w < 16) :=
  C5_pulse_gate pulse_w (by decide) (by decide)

/-! ## Helper lemmas: APU frame counter -/

theorem apu_tick_frame_irq (a : APU) : (apu_tick a).frame_irq = a.frame_irq := by
  unfold apu_tick
  dsimp only
  split_ifs <;> rfl

theorem apu_tick_frame_counter_mode (a : APU) :
    (apu_tick a).frame_counter_mode = a.frame_counter_mode := by
  unfold apu_tick
  dsimp only
  split_ifs <;> rfl

theorem apu_tick_irq_inhibit (a : APU) : (apu_tick a).irq_inhibit = a.irq_inhibit := by
  unfold apu_tick
  dsimp only
  split_ifs <;> rfl

theorem apu_tick_frame_count (a : APU) : (apu_tick a).frame_count = a.frame_count + 1 := by
  unfold apu_tick
  dsimp only
  split_ifs <;> rfl

theorem apu_tick_iter_frame_irq (k : Nat) (a : APU) :
    (apu_tick^[k] a).frame_irq = a.frame_irq := by
  induction k generalizing a with
  | zero => rfl
  | succ k ih => rw [Function.iterate_succ_apply, ih, apu_tick_frame_irq]

theorem apu_tick_iter_mode (k : Nat) (a : APU) :
    (apu_tick^[k] a).frame_counter_mode = a.frame_counter_mode := by
  induction k generalizing a with
  | zero => rfl
  | succ k ih => rw [Function.iterate_succ_apply, ih, apu_tick_frame_counter_mode]

theorem apu_tick_iter_inhibit (k : Nat) (a : APU) :
    (apu_tick^[k] a).irq_inhibit = a.irq_inhibit := by
  induction k generalizing a with
  | zero => rfl
  | succ k ih => rw [Function.iterate_succ_apply, ih, apu_tick_irq_inhibit]

/-! ## Claim C3 -/

/-- C3: the claim is right about the intent and about the `$4015` read
(which reports the frame-IRQ flag in bit 6 and clears it — last conjunct),
but the code never raises the flag: `apu_tick` preserves `frame_irq`
verbatim (first conjunct), so after a complete four-step sequence from
`apu_init` (22372 ticks, the last tick of the sequence landing at
`frame_count = 22371 = 3 * 7457`) in four-step mode with IRQ-inhibit
clear, the flag is still false (middle conjuncts) — the raise the claim
describes is missing from `apu_tick`. -/
theorem C3_frame_irq_never_raised :
    (∀ a : APU, (apu_tick a).frame_irq = a.frame_irq) ∧
    (apu_tick^[22372] apu_init).frame_counter_mode = 0 ∧
    (apu_tick^[22372] apu_init).irq_inhibit = false ∧
    (apu_tick^[22372] apu_init).frame_irq = false ∧
    (∀ a : APU, ((apu_read a 0x4015).1 &&& 0x40 = if a.frame_irq then 0x40 else 0) ∧
                (apu_read a 0x4015).2.frame_irq = false) := by
  refine ⟨apu_tick_frame_irq, ?_, ?_, ?_, ?_⟩
  · rw [apu_tick_iter_mode]; rfl
  · rw [apu_tick_iter_inhibit]; rfl
  · rw [apu_tick_iter_frame_irq]; rfl
  · intro a
    constructor
    · unfold apu_read
      dsimp only
      rw [if_pos rfl]
      dsimp only
      split_ifs <;> decide
    · rfl

/-! ## Helper lemmas: controller reads -/

theorem and_one_and_one (x : Nat) : (x &&& 1) &&& 1 = x &&& 1 := by
  rw [Nat.and_assoc, Nat.and_self]

theorem bus_read_4016_strobe1 (n : Nes) (hs : n.bus.controller_strobe ≠ 0) :
    bus_read n 0x4016 = (((n.bus.controller0 &&& 1) ||| 0x40), n) := by
  unfold bus_read
  norm_num [hs, and_one_and_one]

theorem bus_read_4017_strobe1 (n : Nes) (hs : n.bus.controller_strobe ≠ 0) :
    bus_read n 0x4017 = (((n.bus.controller1 &&& 1) ||| 0x40), n) := by
  unfold bus_read
  norm_num [hs, and_one_and_one]

theorem bus_read_4016_strobe0 (n : Nes) (hs : n.bus.controller_strobe = 0) :
    bus_read n 0x4016 =
      (((n.bus.controller_state0 &&& 1) ||| 0x40),
       { n with bus := { n.bus with
           controller_state0 := shift_reg_step n.bus.controller_state0 } }) := by
  unfold bus_read shift_reg_step
  norm_num [hs, and_one_and_one]

theorem bus_read_4017_strobe0 (n : Nes) (hs : n.bus.controller_strobe = 0) :
    bus_read n 0x4017 =
      (((n.bus.controller_state1 &&& 1) ||| 0x40),
       { n with bus := { n.bus with
           controller_state1 := shift_reg_step n.bus.controller_state1 } }) := by
  unfold bus_read shift_reg_step
  norm_num [hs, and_one_and_one]

theorem controller1_read_step_iter (j : Nat) :
    ∀ n : Nes, n.bus.controller_strobe = 0 →
      (controller1_read_step^[j] n).bus.controller_strobe = 0 ∧
      (controller1_read_step^[j] n).bus.controller_state0 =
        shift_reg_step^[j] n.bus.controller_state0 := by
  induction j with
  | zero => exact fun n hs => ⟨hs, rfl⟩
  | succ j ih =>
      intro n hs
      rw [Function.iterate_succ_apply, Function.iterate_succ_apply]
      have hstep : controller1_read_step n =
          { n with bus := { n.bus with
              controller_state0 := shift_reg_step n.bus.controller_state0 } } := by
        unfold controller1_read_step
        rw [bus_read_4016_strobe0 n hs]
      rw [hstep]
      exact ih _ hs

set_option maxRecDepth 4000 in
theorem shift_reg_step_eight : ∀ s, s < 256 → shift_reg_step^[8] s = 255 := by
  decide

theorem shift_reg_step_iter_255 (k : Nat) : shift_reg_step^[k] 255 = 255 := by
  induction k with
  | zero => rfl
  | succ k ih => rw [Function.iterate_succ_apply, show shift_reg_step 255 = 255 from rfl, ih]

/-! ## Claim C6 -/

/-- C6: a CPU read of `$4016`/`$4017` with strobe high returns bit 0 of the
input latch OR `0x40` and leaves the machine unchanged; with strobe low it
returns the shift register's LSB OR `0x40` and shifts the register right,
filling the top bit with 1; consequently, after eight post-latch reads
without a re-latch every further read of `$4016` returns exactly `0x41`. -/
theorem C6_controller_shift_read (n : Nes) :
    (n.bus.controller_strobe ≠ 0 →
      bus_read n 0x4016 = (((n.bus.controller0 &&& 1) ||| 0x40), n) ∧
      bus_read n 0x4017 = (((n.bus.controller1 &&& 1) ||| 0x40), n)) ∧
    (n.bus.controller_strobe = 0 →
      bus_read n 0x4016 =
        (((n.bus.controller_state0 &&& 1) ||| 0x40),
         { n with bus := { n.bus with
             controller_state0 := shift_reg_step n.bus.controller_state0 } }) ∧
      bus_read n 0x4017 =
        (((n.bus.controller_state1 &&& 1) ||| 0x40),
         { n with bus := { n.bus with
             controller_state1 := shift_reg_step n.bus.controller_state1 } })) ∧
    (n.bus.controller_strobe = 0 → n.bus.controller_state0 < 256 →
      ∀ k, (bus_read (controller1_read_step^[8 + k] n) 0x4016).1 = 0x41) := by
  refine ⟨fun hs => ⟨bus_read_4016_strobe1 n hs, bus_read_4017_strobe1 n hs⟩,
          fun hs => ⟨bus_read_4016_strobe0 n hs, bus_read_4017_strobe0 n hs⟩,
          fun hs hlt k => ?_⟩
  have h8 := controller1_read_step_iter (8 + k) n hs
  rw [bus_read_4016_strobe0 _ h8.1]
  rw [h8.2, Nat.add_comm 8 k, Function.iterate_add_apply,
      shift_reg_step_eight _ hlt, shift_reg_step_iter_255]
  dsimp only
  decide

set_option maxRecDepth 4000 in
/-- Witness for `C6_controller_shift_read`: the machine `nes_c6` (latched
state `0xB4`, strobe low); the ninth read returns `0x41`. -/
theorem C6_controller_shift_read_witness :
    nes_c6.bus.controller_strobe = 0 ∧ nes_c6.bus.controller_state0 < 256 ∧
    (bus_read (controller1_read_step^[8 + 0] nes_c6) 0x4016).1 = 0x41 :=
  ⟨by decide, by decide,
   (C6_controller_shift_read nes_c6).2.2 (by decide) (by decide) 0⟩

/-! ## Claim C7 -/

set_option maxRecDepth 8000 in
/-- C7: `read16_jmp_bug` with a pointer whose low byte is `$FF` fetches the
high byte from offset 0 of the pointer's own page (`(ptr / 256) * 256`),
not from `ptr + 1`; `addr_ind` (the JMP-indirect mode) resolves its target
through exactly this function. -/
theorem C7_jmp_indirect_bug (n : Nes) (ptr : Nat)
    (h1 : ptr < 65536) (h2 : ptr % 256 = 0xFF) :
    read16_jmp_bug n ptr =
      ((bus_read (bus_read n ptr).2 ((ptr / 256) * 256)).1 <<< 8 |||
        (bus_read n ptr).1,
       (bus_read (bus_read n ptr).2 ((ptr / 256) * 256)).2) := by
  have hq : ptr = 256 * (ptr / 256) + 255 := by omega
  have hlt : ptr / 256 < 256 := by omega
  have key : ∀ q, q < 256 →
      ((256 * q + 255) &&& 0xFF00) ||| ((256 * q + 255 + 1) &&& 0x00FF) = q * 256 := by
    decide
  have key2 : (ptr &&& 0xFF00) ||| ((ptr + 1) &&& 0x00FF) = (ptr / 256) * 256 := by
    conv_lhs => rw [hq]
    exact key _ hlt
  unfold read16_jmp_bug
  dsimp only
  rw [Nat.mod_eq_of_lt h1, key2]

/-- Witness for `C7_jmp_indirect_bug` at pointer `$02FF` on `nes_c7`. -/
theorem C7_jmp_indirect_bug_witness :
    0x02FF % 256 = 0xFF ∧
    read16_jmp_bug nes_c7 0x02FF =
      ((bus_read (bus_read nes_c7 0x02FF).2 ((0x02FF / 256) * 256)).1 <<< 8 |||
        (bus_read nes_c7 0x02FF).1,
       (bus_read (bus_read nes_c7 0x02FF).2 ((0x02FF / 256) * 256)).2) :=
  ⟨by decide, C7_jmp_indirect_bug nes_c7 0x02FF (by decide) (by decide)⟩

/-! ## Helper lemmas: bus_tick and the mapper IRQ line -/

theorem nes_ppu_tick_cpu (n : Nes) : (nes_ppu_tick n).cpu = n.cpu := rfl

theorem nes_apu_tick_cpu (n : Nes) : (nes_apu_tick n).cpu = n.cpu := rfl

theorem nes_ppu_tick_iter_cpu (k : Nat) (n : Nes) :
    (nes_ppu_tick^[k] n).cpu = n.cpu := by
  induction k generalizing n with
  | zero => rfl
  | succ k ih => rw [Function.iterate_succ_apply, ih, nes_ppu_tick_cpu]

theorem nes_apu_tick_iter_cpu (k : Nat) (n : Nes) :
    (nes_apu_tick^[k] n).cpu = n.cpu := by
  induction k generalizing n with
  | zero => rfl
  | succ k ih => rw [Function.iterate_succ_apply, ih, nes_apu_tick_cpu]

theorem cpu_irq_inhibited (n : Nes) (h : get_flag n.cpu FLAG_I = true) :
    cpu_irq n = n := by
  unfold cpu_irq
  rw [if_pos h]

theorem mapper_irq_clear_pending (c : Cart) :
    mapper_irq_pending (mapper_irq_clear c).mapper = false := by
  cases hm : c.mapper <;> simp [mapper_irq_clear, mapper_irq_pending, hm]

/-! ## Claim C9 -/

/-- C9: after any `bus_tick`, the mapper's IRQ-pending line is clear — a
pending line observed after the PPU/APU ticks is acknowledged via the
mapper's `irq_clear` hook before `bus_tick` returns (NROM has no hooks and
its line is never pending); and when the CPU's IRQ-disable flag is set at
that moment, `cpu_irq` returns immediately, so the interrupt is discarded
without any change to the CPU state (nothing is held pending for later). -/
theorem C9_bus_tick_mapper_irq (n : Nes) (k : Nat) :
    mapper_irq_pending (bus_tick n k).cart.mapper = false ∧
    (get_flag n.cpu FLAG_I = true → (bus_tick n k).cpu = n.cpu) := by
  unfold bus_tick
  dsimp only
  constructor
  · by_cases hp :
        mapper_irq_pending (nes_apu_tick^[k] (nes_ppu_tick^[k * 3] n)).cart.mapper = true
    · rw [if_pos hp]
      exact mapper_irq_clear_pending _
    · rw [if_neg hp]
      exact Bool.not_eq_true _ ▸ (Bool.eq_false_iff.mpr hp)
  · intro h
    have hcpu : (nes_apu_tick^[k] (nes_ppu_tick^[k * 3] n)).cpu = n.cpu := by
      rw [nes_apu_tick_iter_cpu, nes_ppu_tick_iter_cpu]
    by_cases hp :
        mapper_irq_pending (nes_apu_tick^[k] (nes_ppu_tick^[k * 3] n)).cart.mapper = true
    · rw [if_pos hp]
      have hI : get_flag (nes_apu_tick^[k] (nes_ppu_tick^[k * 3] n)).cpu FLAG_I = true := by
        rw [hcpu]; exact h
      rw [cpu_irq_inhibited _ hI]
      exact hcpu
    · rw [if_neg hp]
      exact hcpu

/-- Witness for `C9_bus_tick_mapper_irq`: `nes_c9` has an MMC3 line pending
and the CPU's I flag set (post-init `P = $24`); one `bus_tick` with zero
cycles clears the line and leaves the CPU untouched. -/
theorem C9_bus_tick_mapper_irq_witness :
    mapper_irq_pending nes_c9.cart.mapper = true ∧
    get_flag nes_c9.cpu FLAG_I = true ∧
    mapper_irq_pending (bus_tick nes_c9 0).cart.mapper = false ∧
    (bus_tick nes_c9 0).cpu = nes_c9.cpu :=
  ⟨by decide, by decide, (C9_bus_tick_mapper_irq nes_c9 0).1,
   (C9_bus_tick_mapper_irq nes_c9 0).2 (by decide)⟩

/-! ## Bus-window characterization lemmas (for the OAM-DMA proofs) -/

theorem bus_read_ram (n : Nes) (a : Nat) (h : a < 0x2000) :
    bus_read n a = (n.bus.ram (a &&& 0x07FF) % 256, n) := by
  unfold bus_read
  dsimp only
  rw [Nat.mod_eq_of_lt (show a < 65536 by omega), if_pos h]

theorem bus_read_high (n : Nes) (a : Nat) (h1 : 0x4020 ≤ a) (h2 : a < 65536) :
    bus_read n a = (cartridge_cpu_read n.cart a, n) := by
  unfold bus_read
  dsimp only
  rw [Nat.mod_eq_of_lt h2, if_neg (by omega), if_neg (by omega), if_neg (by omega)]

theorem bus_write_ram (n : Nes) (a v : Nat) (h : a < 0x2000) :
    bus_write n a v = { n with bus := { n.bus with
        ram := fun j => if j = (a &&& 0x07FF) then v % 256 else n.bus.ram j } } := by
  unfold bus_write
  dsimp only
  rw [Nat.mod_eq_of_lt (show a < 65536 by omega), if_pos h]

theorem stack_addr_lt (s : Nat) : 0x0100 ||| (s % 256) < 0x2000 := by
  have h : (0x0100 : Nat) ||| (s % 256) < 2 ^ 13 :=
    Nat.or_lt_two_pow (by norm_num) (by omega)
  simpa using h

theorem push8_spec (n : Nes) (v : Nat) :
    push8 n v = { n with
      bus := { n.bus with ram := fun j =>
          if j = ((0x0100 ||| (n.cpu.S % 256)) &&& 0x07FF) then v % 256 else n.bus.ram j },
      cpu := { n.cpu with S := (n.cpu.S + 255) % 256 } } := by
  unfold push8
  rw [bus_write_ram n (0x0100 ||| (n.cpu.S % 256)) v (stack_addr_lt _)]

theorem pop8_spec (n : Nes) :
    pop8 n =
      (n.bus.ram ((0x0100 ||| ((n.cpu.S + 1) % 256 % 256)) &&& 0x07FF) % 256,
       { n with cpu := { n.cpu with S := (n.cpu.S + 1) % 256 } }) := by
  unfold pop8
  dsimp only
  rw [bus_read_ram _ _ (stack_addr_lt _)]

theorem read16_high (n : Nes) (a : Nat) (h1 : 0x4020 ≤ a) (h2 : a + 1 < 65536) :
    read16 n a =
      ((cartridge_cpu_read n.cart (a + 1) <<< 8) ||| cartridge_cpu_read n.cart a,
       n) := by
  unfold read16
  dsimp only
  rw [bus_read_high n a h1 (by omega)]
  dsimp only
  rw [bus_read_high n (a + 1) (by omega) h2]

theorem cpu_nmi_ppu (n : Nes) : (cpu_nmi n).ppu = n.ppu := by
  unfold cpu_nmi push16
  try dsimp only
  simp only [push8_spec]
  try dsimp only
  rw [read16_high _ 0xFFFA (by norm_num) (by norm_num)]

theorem cpu_nmi_apu (n : Nes) : (cpu_nmi n).apu = n.apu := by
  unfold cpu_nmi push16
  try dsimp only
  simp only [push8_spec]
  try dsimp only
  rw [read16_high _ 0xFFFA (by norm_num) (by norm_num)]

theorem cpu_nmi_cart (n : Nes) : (cpu_nmi n).cart = n.cart := by
  unfold cpu_nmi push16
  try dsimp only
  simp only [push8_spec]
  try dsimp only
  rw [read16_high _ 0xFFFA (by norm_num) (by norm_num)]

theorem cpu_nmi_dma_pending (n : Nes) :
    (cpu_nmi n).bus.dma_pending = n.bus.dma_pending := by
  unfold cpu_nmi push16
  try dsimp only
  simp only [push8_spec]
  try dsimp only
  rw [read16_high _ 0xFFFA (by norm_num) (by norm_num)]

theorem cpu_nmi_dma_page (n : Nes) :
    (cpu_nmi n).bus.dma_page = n.bus.dma_page := by
  unfold cpu_nmi push16
  try dsimp only
  simp only [push8_spec]
  try dsimp only
  rw [read16_high _ 0xFFFA (by norm_num) (by norm_num)]

/-! ## PPU helpers leave OAM and the OAM address untouched -/

theorem ppu_read_state_ppu (m : PpuC) (a : Nat) : ((ppu_read m a).2).ppu = m.ppu := by
  unfold ppu_read
  dsimp only
  split_ifs <;> rfl

theorem ppu_increment_x_oam (p : PPU) : (ppu_increment_x p).oam = p.oam := by
  unfold ppu_increment_x
  split_ifs <;> rfl

theorem ppu_increment_x_oam_addr (p : PPU) :
    (ppu_increment_x p).oam_addr = p.oam_addr := by
  unfold ppu_increment_x
  split_ifs <;> rfl

theorem ppu_increment_y_oam (p : PPU) : (ppu_increment_y p).oam = p.oam := by
  unfold ppu_increment_y
  dsimp only
  split_ifs <;> rfl

theorem ppu_increment_y_oam_addr (p : PPU) :
    (ppu_increment_y p).oam_addr = p.oam_addr := by
  unfold ppu_increment_y
  dsimp only
  split_ifs <;> rfl

theorem ppu_copy_x_oam (p : PPU) : (ppu_copy_x p).oam = p.oam := rfl

theorem ppu_copy_x_oam_addr (p : PPU) : (ppu_copy_x p).oam_addr = p.oam_addr := rfl

theorem ppu_copy_y_oam (p : PPU) : (ppu_copy_y p).oam = p.oam := rfl

theorem ppu_copy_y_oam_addr (p : PPU) : (ppu_copy_y p).oam_addr = p.oam_addr := rfl

theorem ppu_load_shifters_oam (p : PPU) : (ppu_load_shifters p).oam = p.oam := rfl

theorem ppu_load_shifters_oam_addr (p : PPU) :
    (ppu_load_shifters p).oam_addr = p.oam_addr := rfl

theorem ppu_shift_shifters_oam (p : PPU) : (ppu_shift_shifters p).oam = p.oam := by
  unfold ppu_shift_shifters
  split_ifs <;> rfl

theorem ppu_shift_shifters_oam_addr (p : PPU) :
    (ppu_shift_shifters p).oam_addr = p.oam_addr := by
  unfold ppu_shift_shifters
  split_ifs <;> rfl

theorem ppu_fetch_nt_byte_oam (m : PpuC) :
    (ppu_fetch_nt_byte m).ppu.oam = m.ppu.oam := by
  unfold ppu_fetch_nt_byte
  dsimp only
  simp [ppu_read_state_ppu]

theorem ppu_fetch_nt_byte_oam_addr (m : PpuC) :
    (ppu_fetch_nt_byte m).ppu.oam_addr = m.ppu.oam_addr := by
  unfold ppu_fetch_nt_byte
  dsimp only
  simp [ppu_read_state_ppu]

theorem ppu_fetch_at_byte_oam (m : PpuC) :
    (ppu_fetch_at_byte m).ppu.oam = m.ppu.oam := by
  unfold ppu_fetch_at_byte
  dsimp only
  simp [ppu_read_state_ppu]

theorem ppu_fetch_at_byte_oam_addr (m : PpuC) :
    (ppu_fetch_at_byte m).ppu.oam_addr = m.ppu.oam_addr := by
  unfold ppu_fetch_at_byte
  dsimp only
  simp [ppu_read_state_ppu]

theorem ppu_fetch_bg_lo_oam (m : PpuC) :
    (ppu_fetch_bg_lo m).ppu.oam = m.ppu.oam := by
  unfold ppu_fetch_bg_lo
  dsimp only
  simp [ppu_read_state_ppu]

theorem ppu_fetch_bg_lo_oam_addr (m : PpuC) :
    (ppu_fetch_bg_lo m).ppu.oam_addr = m.ppu.oam_addr := by
  unfold ppu_fetch_bg_lo
  dsimp only
  simp [ppu_read_state_ppu]

theorem ppu_fetch_bg_hi_oam (m : PpuC) :
    (ppu_fetch_bg_hi m).ppu.oam = m.ppu.oam := by
  unfold ppu_fetch_bg_hi
  dsimp only
  simp [ppu_read_state_ppu]

theorem ppu_fetch_bg_hi_oam_addr (m : PpuC) :
    (ppu_fetch_bg_hi m).ppu.oam_addr = m.ppu.oam_addr := by
  unfold ppu_fetch_bg_hi
  dsimp only
  simp [ppu_read_state_ppu]

set_option maxHeartbeats 1000000 in
theorem ppu_fetch_sprite_info_oam (m : PpuC) (s : Nat) :
    (ppu_fetch_sprite_info m s).ppu.oam = m.ppu.oam := by
  unfold ppu_fetch_sprite_info
  dsimp only
  simp only [apply_ite (fun s : PpuC => s.ppu.oam), ppu_read_state_ppu, ite_self]

set_option maxHeartbeats 1000000 in
theorem ppu_fetch_sprite_info_oam_addr (m : PpuC) (s : Nat) :
    (ppu_fetch_sprite_info m s).ppu.oam_addr = m.ppu.oam_addr := by
  unfold ppu_fetch_sprite_info
  dsimp only
  simp only [apply_ite (fun s : PpuC => s.ppu.oam_addr), ppu_read_state_ppu, ite_self]

set_option maxHeartbeats 1000000 in
theorem ppu_render_pixel_oam (m : PpuC) :
    (ppu_render_pixel m).ppu.oam = m.ppu.oam := by
  unfold ppu_render_pixel
  dsimp only
  simp only [apply_ite (fun t : Nat × Nat × PpuC => t.2.2),
    apply_ite (fun s : PpuC => s.ppu.oam), ppu_read_state_ppu, ite_self]

set_option maxHeartbeats 1000000 in
theorem ppu_render_pixel_oam_addr (m : PpuC) :
    (ppu_render_pixel m).ppu.oam_addr = m.ppu.oam_addr := by
  unfold ppu_render_pixel
  dsimp only
  simp only [apply_ite (fun t : Nat × Nat × PpuC => t.2.2),
    apply_ite (fun s : PpuC => s.ppu.oam_addr), ppu_read_state_ppu, ite_self]

set_option maxHeartbeats 4000000 in
theorem ppu_tick_oam (m : PpuC) : (ppu_tick m).ppu.oam = m.ppu.oam := by
  unfold ppu_tick
  dsimp only
  simp only [apply_ite (fun s : PpuC => s.ppu.oam), apply_ite (fun p : PPU => p.oam),
    ppu_render_pixel_oam, ppu_fetch_nt_byte_oam, ppu_fetch_at_byte_oam,
    ppu_fetch_bg_lo_oam, ppu_fetch_bg_hi_oam, ppu_fetch_sprite_info_oam,
    ppu_increment_x_oam, ppu_increment_y_oam, ppu_copy_x_oam, ppu_copy_y_oam,
    ppu_load_shifters_oam, ppu_shift_shifters_oam, ppu_evaluate_sprites_oam,
    ite_self]

set_option maxHeartbeats 4000000 in
theorem ppu_tick_oam_addr (m : PpuC) :
    (ppu_tick m).ppu.oam_addr = m.ppu.oam_addr := by
  unfold ppu_tick
  dsimp only
  simp only [apply_ite (fun s : PpuC => s.ppu.oam_addr),
    apply_ite (fun p : PPU => p.oam_addr), ppu_render_pixel_oam_addr,
    ppu_fetch_nt_byte_oam_addr, ppu_fetch_at_byte_oam_addr, ppu_fetch_bg_lo_oam_addr,
    ppu_fetch_bg_hi_oam_addr, ppu_fetch_sprite_info_oam_addr,
    ppu_increment_x_oam_addr, ppu_increment_y_oam_addr, ppu_copy_x_oam_addr,
    ppu_copy_y_oam_addr, ppu_load_shifters_oam_addr, ppu_shift_shifters_oam_addr,
    ppu_evaluate_sprites_oam_addr, ite_self]

/-! ## The DMA stall loop: per-iteration effects and fold invariants -/

theorem nes_ppu_tick_apu (n : Nes) : (nes_ppu_tick n).apu = n.apu := rfl

theorem nes_ppu_tick_bus (n : Nes) : (nes_ppu_tick n).bus = n.bus := rfl

theorem nes_apu_tick_bus (n : Nes) : (nes_apu_tick n).bus = n.bus := rfl

theorem nes_apu_tick_ppu (n : Nes) : (nes_apu_tick n).ppu = n.ppu := rfl

theorem nes_ppu_tick_oam (n : Nes) : (nes_ppu_tick n).ppu.oam = n.ppu.oam := by
  unfold nes_ppu_tick
  dsimp only
  rw [ppu_tick_oam]

theorem nes_ppu_tick_oam_addr (n : Nes) :
    (nes_ppu_tick n).ppu.oam_addr = n.ppu.oam_addr := by
  unfold nes_ppu_tick
  dsimp only
  rw [ppu_tick_oam_addr]

theorem dma_stall_iter_frame_count (n : Nes) (i : Nat) :
    (dma_stall_iter n i).apu.frame_count
      = n.apu.frame_count + (if i % 3 = 0 then 1 else 0) := by
  unfold dma_stall_iter
  dsimp only
  split_ifs <;>
    simp [cpu_nmi_apu, nes_apu_tick, nes_ppu_tick, apu_tick_frame_count]

theorem dma_stall_iter_nmi (n : Nes) (i : Nat) :
    (dma_stall_iter n i).ppu.nmi_pending = false := by
  unfold dma_stall_iter
  dsimp only
  split_ifs <;> first
    | simp [cpu_nmi_ppu]
    | (rename_i hh
       simp only [Bool.not_eq_true] at hh
       exact hh)

theorem dma_stall_iter_dma_pending (n : Nes) (i : Nat) :
    (dma_stall_iter n i).bus.dma_pending = n.bus.dma_pending := by
  unfold dma_stall_iter
  dsimp only
  split_ifs <;> simp [cpu_nmi_dma_pending, nes_apu_tick, nes_ppu_tick]

theorem dma_stall_iter_oam (n : Nes) (i : Nat) :
    (dma_stall_iter n i).ppu.oam = n.ppu.oam := by
  unfold dma_stall_iter
  dsimp only
  split_ifs <;>
    simp [cpu_nmi_ppu, nes_apu_tick, nes_ppu_tick, ppu_tick_oam]

theorem dma_stall_iter_oam_addr (n : Nes) (i : Nat) :
    (dma_stall_iter n i).ppu.oam_addr = n.ppu.oam_addr := by
  unfold dma_stall_iter
  dsimp only
  split_ifs <;>
    simp [cpu_nmi_ppu, nes_apu_tick, nes_ppu_tick, ppu_tick_oam_addr]

theorem foldl_stall_oam (l : List Nat) : ∀ (n : Nes),
    ((l.foldl dma_stall_iter n)).ppu.oam = n.ppu.oam := by
  induction l with
  | nil => intro n; rfl
  | cons a t ih =>
      intro n
      rw [List.foldl_cons, ih, dma_stall_iter_oam]

theorem foldl_stall_oam_addr (l : List Nat) : ∀ (n : Nes),
    ((l.foldl dma_stall_iter n)).ppu.oam_addr = n.ppu.oam_addr := by
  induction l with
  | nil => intro n; rfl
  | cons a t ih =>
      intro n
      rw [List.foldl_cons, ih, dma_stall_iter_oam_addr]

theorem foldl_stall_dma_pending (l : List Nat) : ∀ (n : Nes),
    ((l.foldl dma_stall_iter n)).bus.dma_pending = n.bus.dma_pending := by
  induction l with
  | nil => intro n; rfl
  | cons a t ih =>
      intro n
      rw [List.foldl_cons, ih, dma_stall_iter_dma_pending]

theorem foldl_stall_nmi (l : List Nat) : ∀ (a : Nat) (n : Nes),
    (((a :: l).foldl dma_stall_iter n)).ppu.nmi_pending = false := by
  induction l with
  | nil => intro a n; exact dma_stall_iter_nmi n a
  | cons b t ih =>
      intro a n
      rw [List.foldl_cons]
      exact ih b (dma_stall_iter n a)

theorem foldl_stall_frame_count : ∀ (t s : Nat) (n : Nes), s % 3 = 0 →
    ((List.range' s (3 * t)).foldl dma_stall_iter n).apu.frame_count
      = n.apu.frame_count + t := by
  intro t
  induction t with
  | zero => intro s n hs; simp
  | succ k ih =>
      intro s n hs
      have hr3 : List.range' s 3 = [s, s + 1, s + 2] := rfl
      rw [show 3 * (k + 1) = 3 * k + 3 by ring, ← List.range'_append_1 s 3 (3 * k),
          List.foldl_append, hr3]
      rw [ih (s + 3) _ (by omega)]
      dsimp only [List.foldl]
      rw [dma_stall_iter_frame_count, dma_stall_iter_frame_count,
          dma_stall_iter_frame_count]
      split_ifs <;> omega

/-! ## The DMA copy loop: per-iteration effect and fold invariants -/

theorem ppu_write_register_2004 (m : PpuC) (v : Nat) :
    ppu_write_register m 0x2004 v =
      { m with ppu := { m.ppu with
          oam := fun j => if j = m.ppu.oam_addr then v % 256 else m.ppu.oam j,
          oam_addr := (m.ppu.oam_addr + 1) % 256 } } := by
  unfold ppu_write_register
  dsimp only
  rw [show (0x2004 : Nat) &&& 0x07 = 4 by decide]
  norm_num

theorem dma_copy_iter_spec (sa : Nat) (n : Nes) (i : Nat) (h : sa + i < 0x2000) :
    dma_copy_iter sa n i =
      { n with ppu := { n.ppu with
          oam := fun j =>
            if j = n.ppu.oam_addr then n.bus.ram ((sa + i) &&& 0x07FF) % 256 % 256
            else n.ppu.oam j,
          oam_addr := (n.ppu.oam_addr + 1) % 256 } } := by
  unfold dma_copy_iter
  rw [bus_read_ram n (sa + i) h]
  dsimp only
  rw [ppu_write_register_2004]

theorem foldl_copy_apu (sa : Nat) (l : List Nat) : ∀ (n : Nes),
    (∀ i, i ∈ l → sa + i < 0x2000) →
    ((l.foldl (dma_copy_iter sa) n)).apu = n.apu := by
  induction l with
  | nil => intro n _; rfl
  | cons a t ih =>
      intro n h
      rw [List.foldl_cons, dma_copy_iter_spec sa n a (h a (List.mem_cons_self a t)),
          ih _ (fun i hi => h i (List.mem_cons_of_mem a hi))]

theorem foldl_copy_bus (sa : Nat) (l : List Nat) : ∀ (n : Nes),
    (∀ i, i ∈ l → sa + i < 0x2000) →
    ((l.foldl (dma_copy_iter sa) n)).bus = n.bus := by
  induction l with
  | nil => intro n _; rfl
  | cons a t ih =>
      intro n h
      rw [List.foldl_cons, dma_copy_iter_spec sa n a (h a (List.mem_cons_self a t)),
          ih _ (fun i hi => h i (List.mem_cons_of_mem a hi))]

theorem foldl_copy_oam (sa a0 : Nat) (_ha0 : a0 < 256) : ∀ (k j : Nat) (n : Nes),
    j + k ≤ 256 → (∀ t, t < 256 → sa + t < 0x2000) →
    n.ppu.oam_addr = (a0 + j) % 256 →
    (∀ i, i < 256 →
      ((List.range' j k).foldl (dma_copy_iter sa) n).ppu.oam ((a0 + i) % 256) =
        if j ≤ i ∧ i < j + k then n.bus.ram ((sa + i) &&& 0x07FF) % 256
        else n.ppu.oam ((a0 + i) % 256)) ∧
    ((List.range' j k).foldl (dma_copy_iter sa) n).ppu.oam_addr
      = (a0 + j + k) % 256 := by
  intro k
  induction k with
  | zero =>
      intro j n hjk hlt hoam
      refine ⟨fun i hi => ?_, ?_⟩
      · rw [if_neg (by omega)]
        rfl
      · rw [show List.range' j 0 = [] from rfl]
        dsimp only [List.foldl]
        omega
  | succ k ih =>
      intro j n hjk hlt hoam
      obtain ⟨ih1, ih2⟩ := ih (j + 1) (dma_copy_iter sa n j) (by omega) hlt
        (by rw [dma_copy_iter_spec sa n j (hlt j (by omega))]
            dsimp only
            omega)
      rw [List.range'_succ, List.foldl_cons]
      refine ⟨fun i hi => ?_, ?_⟩
      · rw [ih1 i hi, dma_copy_iter_spec sa n j (hlt j (by omega))]
        dsimp only
        rw [hoam]
        split_ifs <;> first
          | rfl
          | omega
          | (rename_i hij
             have hij2 : i = j := by omega
             subst hij2
             omega)
      · rw [ih2]
        omega


/-! ## run_dma: observable effects of one OAM-DMA -/

theorem run_dma_frame_count (n : Nes) (hp : n.bus.dma_page < 0x20) :
    (run_dma n).apu.frame_count = n.apu.frame_count + 513 := by
  simp only [run_dma]
  have hsa : (n.bus.dma_page <<< 8) % 65536 = n.bus.dma_page * 256 := by
    rw [Nat.shiftLeft_eq]
    norm_num
    omega
  rw [hsa]
  rw [show List.range 1539 = List.range' 0 (3 * 513) by rw [List.range_eq_range']]
  rw [foldl_stall_frame_count 513 0 _ (by norm_num)]
  rw [foldl_copy_apu (n.bus.dma_page * 256) (List.range 256) _
        (fun i hi => by
          have hi2 : i < 256 := List.mem_range.mp hi
          omega)]

theorem run_dma_dma_pending (n : Nes) (hp : n.bus.dma_page < 0x20) :
    (run_dma n).bus.dma_pending = false := by
  simp only [run_dma]
  have hsa : (n.bus.dma_page <<< 8) % 65536 = n.bus.dma_page * 256 := by
    rw [Nat.shiftLeft_eq]
    norm_num
    omega
  rw [hsa]
  rw [foldl_stall_dma_pending]
  rw [foldl_copy_bus (n.bus.dma_page * 256) (List.range 256) _
        (fun i hi => by
          have hi2 : i < 256 := List.mem_range.mp hi
          omega)]

theorem run_dma_nmi (n : Nes) : (run_dma n).ppu.nmi_pending = false := by
  simp only [run_dma]
  rw [show List.range 1539 = 0 :: List.range' 1 1538 by
        rw [List.range_eq_range', show (1539 : Nat) = 1538 + 1 by norm_num,
            List.range'_succ]]
  exact foldl_stall_nmi _ _ _

theorem run_dma_oam_addr (n : Nes) (hp : n.bus.dma_page < 0x20)
    (ha : n.ppu.oam_addr < 256) :
    (run_dma n).ppu.oam_addr = n.ppu.oam_addr := by
  simp only [run_dma]
  have hsa : (n.bus.dma_page <<< 8) % 65536 = n.bus.dma_page * 256 := by
    rw [Nat.shiftLeft_eq]
    norm_num
    omega
  rw [hsa]
  rw [show List.range 256 = List.range' 0 256 from List.range_eq_range' 256]
  obtain ⟨c1, c2⟩ := foldl_copy_oam (n.bus.dma_page * 256) n.ppu.oam_addr ha 256 0
      { cpu := n.cpu,
        bus := { ram := n.bus.ram, controller0 := n.bus.controller0,
                 controller1 := n.bus.controller1,
                 controller_state0 := n.bus.controller_state0,
                 controller_state1 := n.bus.controller_state1,
                 controller_strobe := n.bus.controller_strobe,
                 open_bus := n.bus.open_bus, dma_pending := false,
                 dma_page := n.bus.dma_page, dma_cycles := n.bus.dma_cycles },
        ppu := n.ppu, apu := n.apu, cart := n.cart }
      (by omega) (fun t ht => by omega)
      (by show n.ppu.oam_addr = (n.ppu.oam_addr + 0) % 256
          omega)
  rw [foldl_stall_oam_addr]
  rw [c2]
  omega

theorem run_dma_oam_vals (n : Nes) (hp : n.bus.dma_page < 0x20)
    (ha : n.ppu.oam_addr < 256) :
    ∀ i, i < 256 →
      (run_dma n).ppu.oam ((n.ppu.oam_addr + i) % 256) =
        n.bus.ram ((n.bus.dma_page * 256 + i) % 2048) % 256 := by
  intro i hi
  rw [show run_dma n =
        (List.range (513 * 3)).foldl dma_stall_iter
          ((List.range 256).foldl
            (dma_copy_iter ((n.bus.dma_page <<< 8) % 65536))
            { cpu := n.cpu,
              bus := { ram := n.bus.ram, controller0 := n.bus.controller0,
                       controller1 := n.bus.controller1,
                       controller_state0 := n.bus.controller_state0,
                       controller_state1 := n.bus.controller_state1,
                       controller_strobe := n.bus.controller_strobe,
                       open_bus := n.bus.open_bus, dma_pending := false,
                       dma_page := n.bus.dma_page, dma_cycles := n.bus.dma_cycles },
              ppu := n.ppu, apu := n.apu, cart := n.cart }) from rfl]
  have hsa : (n.bus.dma_page <<< 8) % 65536 = n.bus.dma_page * 256 := by
    rw [Nat.shiftLeft_eq]
    norm_num
    omega
  rw [hsa]
  rw [show List.range 256 = List.range' 0 256 from List.range_eq_range' 256]
  obtain ⟨c1, c2⟩ := foldl_copy_oam (n.bus.dma_page * 256) n.ppu.oam_addr ha 256 0
      { cpu := n.cpu,
        bus := { ram := n.bus.ram, controller0 := n.bus.controller0,
                 controller1 := n.bus.controller1,
                 controller_state0 := n.bus.controller_state0,
                 controller_state1 := n.bus.controller_state1,
                 controller_strobe := n.bus.controller_strobe,
                 open_bus := n.bus.open_bus, dma_pending := false,
                 dma_page := n.bus.dma_page, dma_cycles := n.bus.dma_cycles },
        ppu := n.ppu, apu := n.apu, cart := n.cart }
      (by omega) (fun t ht => by omega)
      (by show n.ppu.oam_addr = (n.ppu.oam_addr + 0) % 256
          omega)
  rw [foldl_stall_oam, c1 i hi, if_pos (by omega)]
  show n.bus.ram (n.bus.dma_page * 256 + i &&& 0x07FF) % 256
        = n.bus.ram ((n.bus.dma_page * 256 + i) % 2048) % 256
  rw [show (0x07FF : Nat) = 2 ^ 11 - 1 by norm_num,
      Nat.and_pow_two_sub_one_eq_mod]

/-! ## Claims C4 and C10 -/

/-- C4 (amended): when `run_frame` observes a pending OAM-DMA it copies the
256 bytes of page `dma_page` into PPU object memory through the OAM-DATA
register and then always advances the machine by exactly 513 CPU cycles'
worth of PPU/APU work (the APU ticks 513 times: one per three iterations of
the `513 * 3` dot loop) — never 514, regardless of the CPU cycle parity —
with any NMI raised during the stall delivered inside the loop (none is
left pending), and the DMA-pending flag acknowledged. -/
theorem C4_dma_stall_fixed_513 (n : Nes) (hd : n.bus.dma_pending = true)
    (hp : n.bus.dma_page < 0x20) (ha : n.ppu.oam_addr < 256) :
    (dma_step n).apu.frame_count = n.apu.frame_count + 513 ∧
    (dma_step n).bus.dma_pending = false ∧
    (dma_step n).ppu.nmi_pending = false ∧
    ∀ i, i < 256 →
      (dma_step n).ppu.oam ((n.ppu.oam_addr + i) % 256) =
        n.bus.ram ((n.bus.dma_page * 256 + i) % 2048) % 256 := by
  unfold dma_step
  rw [if_pos hd]
  exact ⟨run_dma_frame_count n hp, run_dma_dma_pending n hp, run_dma_nmi n,
         run_dma_oam_vals n hp ha⟩

/-- Counterexample to the 514-cycle half of claim C4: `nes_c4` observes the
DMA on an odd CPU cycle (cycles = 7), yet the APU still advances exactly
513 ticks, not 514 — `run_frame` has no odd-cycle compensation. -/
theorem C4_counterexample :
    nes_c4.cpu.cycles % 2 = 1 ∧ nes_c4.bus.dma_pending = true ∧
    (dma_step nes_c4).apu.frame_count = nes_c4.apu.frame_count + 513 ∧
    (513 : Nat) ≠ 514 := by
  refine ⟨by decide, by decide, ?_, by decide⟩
  unfold dma_step
  rw [if_pos (show nes_c4.bus.dma_pending = true by decide)]
  exact run_dma_frame_count nes_c4 (by decide)

/-- Witness for `C4_dma_stall_fixed_513` at the concrete machine `nes_c4`. -/
theorem C4_dma_stall_fixed_513_witness :
    (nes_c4.bus.dma_pending = true ∧ nes_c4.bus.dma_page < 0x20 ∧
     nes_c4.ppu.oam_addr < 256) ∧
    ((dma_step nes_c4).apu.frame_count = nes_c4.apu.frame_count + 513 ∧
     (dma_step nes_c4).bus.dma_pending = false ∧
     (dma_step nes_c4).ppu.nmi_pending = false ∧
     ∀ i, i < 256 →
       (dma_step nes_c4).ppu.oam ((nes_c4.ppu.oam_addr + i) % 256) =
         nes_c4.bus.ram ((nes_c4.bus.dma_page * 256 + i) % 2048) % 256) :=
  ⟨⟨by decide, by decide, by decide⟩,
   C4_dma_stall_fixed_513 nes_c4 (by decide) (by decide) (by decide)⟩

/-- C10: the OAM-DMA transfer of `run_frame` goes through the OAM-DATA
register (`$2004`), so with OAM address `a` in effect at the start, byte
`i` of the DMA page lands at object-memory index `(a + i) mod 256`, and
after all 256 writes the OAM address register has wrapped back to its
original value `a` (the stall loop touches neither OAM nor the address). -/
theorem C10_oam_dma_transfer (n : Nes) (hd : n.bus.dma_pending = true)
    (hp : n.bus.dma_page < 0x20) (ha : n.ppu.oam_addr < 256) :
    (dma_step n).ppu.oam_addr = n.ppu.oam_addr ∧
    ∀ i, i < 256 →
      (dma_step n).ppu.oam ((n.ppu.oam_addr + i) % 256) =
        n.bus.ram ((n.bus.dma_page * 256 + i) % 2048) % 256 := by
  unfold dma_step
  rw [if_pos hd]
  exact ⟨run_dma_oam_addr n hp ha, run_dma_oam_vals n hp ha⟩

/-- Witness for `C10_oam_dma_transfer` at `nes_c10` (DMA page `$03`, OAM
address `$10`, RAM holding `(j + 7) mod 256` at address `j`). -/
theorem C10_oam_dma_transfer_witness :
    (nes_c10.bus.dma_pending = true ∧ nes_c10.bus.dma_page < 0x20 ∧
     nes_c10.ppu.oam_addr < 256) ∧
    ((dma_step nes_c10).ppu.oam_addr = nes_c10.ppu.oam_addr ∧
     ∀ i, i < 256 →
       (dma_step nes_c10).ppu.oam ((nes_c10.ppu.oam_addr + i) % 256) =
         nes_c10.bus.ram ((nes_c10.bus.dma_page * 256 + i) % 2048) % 256) :=
  ⟨⟨by decide, by decide, by decide⟩,
   C10_oam_dma_transfer nes_c10 (by decide) (by decide) (by decide)⟩

/-! ## The Unused status bit (bit 5 of P): preservation machinery -/

theorem bus_read_cpu (n : Nes) (a : Nat) : ((bus_read n a).2).cpu = n.cpu := by
  unfold bus_read
  dsimp only
  split_ifs <;> rfl

theorem bus_write_cpu (n : Nes) (a v : Nat) : (bus_write n a v).cpu = n.cpu := by
  unfold bus_write
  dsimp only
  split_ifs <;> rfl

theorem push8_P (n : Nes) (v : Nat) : (push8 n v).cpu.P = n.cpu.P := by
  rw [push8_spec]

theorem pop8_P (n : Nes) : ((pop8 n).2).cpu.P = n.cpu.P := by
  rw [pop8_spec]

theorem push16_P (n : Nes) (v : Nat) : (push16 n v).cpu.P = n.cpu.P := by
  unfold push16
  dsimp only
  rw [push8_P, push8_P]

theorem pop16_P (n : Nes) : ((pop16 n).2).cpu.P = n.cpu.P := by
  unfold pop16
  dsimp only
  rw [pop8_spec, pop8_spec]

theorem read16_cpu (n : Nes) (a : Nat) : ((read16 n a).2).cpu = n.cpu := by
  unfold read16
  dsimp only
  rw [bus_read_cpu, bus_read_cpu]

theorem read16_zp_cpu (n : Nes) (a : Nat) : ((read16_zp n a).2).cpu = n.cpu := by
  unfold read16_zp
  dsimp only
  rw [bus_read_cpu, bus_read_cpu]

theorem read16_jmp_bug_cpu (n : Nes) (a : Nat) :
    ((read16_jmp_bug n a).2).cpu = n.cpu := by
  unfold read16_jmp_bug
  dsimp only
  rw [bus_read_cpu, bus_read_cpu]

theorem resolve_addr_P (n : Nes) (mode : AddrMode) :
    ((resolve_addr n mode).2).cpu.P = n.cpu.P := by
  cases mode <;>
    simp [resolve_addr, addr_imp, addr_imm, addr_zp, addr_zpx, addr_zpy,
      addr_abs, addr_abx, addr_aby, addr_ind, addr_izx, addr_izy, addr_rel,
      bus_read_cpu, read16_cpu, read16_zp_cpu, read16_jmp_bug_cpu]

theorem set_flag_U (c : CPU) (f : Nat) (v : Bool)
    (hf : Nat.testBit (255 ^^^ f) 5 = true) (h : c.P.testBit 5 = true) :
    (set_flag c f v).P.testBit 5 = true := by
  unfold set_flag
  split_ifs
  · simp [Nat.testBit_or, h]
  · simp [Nat.testBit_and, h, hf]

theorem set_ZN_U (c : CPU) (val : Nat) (h : c.P.testBit 5 = true) :
    (set_ZN c val).P.testBit 5 = true := by
  unfold set_ZN
  dsimp only
  exact set_flag_U _ _ _ (by decide) (set_flag_U _ _ _ (by decide) h)

theorem forced_U (v : Nat) :
    Nat.testBit ((v &&& (255 ^^^ FLAG_B)) ||| FLAG_U) 5 = true := by
  have hu : Nat.testBit FLAG_U 5 = true := by decide
  simp [Nat.testBit_or, hu]

theorem op_adc_U (c : CPU) (v : Nat) (h : c.P.testBit 5 = true) :
    (op_adc c v).P.testBit 5 = true := by
  unfold op_adc
  dsimp only
  exact set_ZN_U _ _ (set_flag_U _ _ _ (by decide) (set_flag_U _ _ _ (by decide) h))

theorem op_sbc_U (c : CPU) (v : Nat) (h : c.P.testBit 5 = true) :
    (op_sbc c v).P.testBit 5 = true := by
  unfold op_sbc
  exact op_adc_U _ _ h

theorem op_and_U (c : CPU) (v : Nat) (h : c.P.testBit 5 = true) :
    (op_and c v).P.testBit 5 = true := by
  unfold op_and
  exact set_ZN_U _ _ h

theorem op_ora_U (c : CPU) (v : Nat) (h : c.P.testBit 5 = true) :
    (op_ora c v).P.testBit 5 = true := by
  unfold op_ora
  exact set_ZN_U _ _ h

theorem op_eor_U (c : CPU) (v : Nat) (h : c.P.testBit 5 = true) :
    (op_eor c v).P.testBit 5 = true := by
  unfold op_eor
  exact set_ZN_U _ _ h

theorem op_asl_U (c : CPU) (v : Nat) (h : c.P.testBit 5 = true) :
    ((op_asl c v).1).P.testBit 5 = true := by
  unfold op_asl
  exact set_ZN_U _ _ (set_flag_U _ _ _ (by decide) h)

theorem op_lsr_U (c : CPU) (v : Nat) (h : c.P.testBit 5 = true) :
    ((op_lsr c v).1).P.testBit 5 = true := by
  unfold op_lsr
  exact set_ZN_U _ _ (set_flag_U _ _ _ (by decide) h)

theorem op_rol_U (c : CPU) (v : Nat) (h : c.P.testBit 5 = true) :
    ((op_rol c v).1).P.testBit 5 = true := by
  unfold op_rol
  exact set_ZN_U _ _ (set_flag_U _ _ _ (by decide) h)

theorem op_ror_U (c : CPU) (v : Nat) (h : c.P.testBit 5 = true) :
    ((op_ror c v).1).P.testBit 5 = true := by
  unfold op_ror
  exact set_ZN_U _ _ (set_flag_U _ _ _ (by decide) h)

theorem op_inc_U (c : CPU) (v : Nat) (h : c.P.testBit 5 = true) :
    ((op_inc c v).1).P.testBit 5 = true := by
  unfold op_inc
  exact set_ZN_U _ _ h

theorem op_dec_U (c : CPU) (v : Nat) (h : c.P.testBit 5 = true) :
    ((op_dec c v).1).P.testBit 5 = true := by
  unfold op_dec
  exact set_ZN_U _ _ h

theorem op_cmp_U (c : CPU) (v : Nat) (h : c.P.testBit 5 = true) :
    (op_cmp c v).P.testBit 5 = true := by
  unfold op_cmp
  exact set_ZN_U _ _ (set_flag_U _ _ _ (by decide) h)

theorem op_cpx_U (c : CPU) (v : Nat) (h : c.P.testBit 5 = true) :
    (op_cpx c v).P.testBit 5 = true := by
  unfold op_cpx
  exact set_ZN_U _ _ (set_flag_U _ _ _ (by decide) h)

theorem op_cpy_U (c : CPU) (v : Nat) (h : c.P.testBit 5 = true) :
    (op_cpy c v).P.testBit 5 = true := by
  unfold op_cpy
  exact set_ZN_U _ _ (set_flag_U _ _ _ (by decide) h)

theorem op_bit_U (c : CPU) (v : Nat) (h : c.P.testBit 5 = true) :
    (op_bit c v).P.testBit 5 = true := by
  unfold op_bit
  exact set_flag_U _ _ _ (by decide)
    (set_flag_U _ _ _ (by decide) (set_flag_U _ _ _ (by decide) h))

theorem op_branch_P (c : CPU) (cond : Bool) (a : Nat) (p : Bool) :
    ((op_branch c cond a p).2).P = c.P := by
  unfold op_branch
  split_ifs <;> rfl

theorem op_lda_U (n : Nes) (a : Nat) (h : n.cpu.P.testBit 5 = true) :
    (op_lda n a).cpu.P.testBit 5 = true := by
  unfold op_lda
  dsimp only
  exact set_ZN_U _ _ (by rw [bus_read_cpu]; exact h)

theorem op_ldx_U (n : Nes) (a : Nat) (h : n.cpu.P.testBit 5 = true) :
    (op_ldx n a).cpu.P.testBit 5 = true := by
  unfold op_ldx
  dsimp only
  exact set_ZN_U _ _ (by rw [bus_read_cpu]; exact h)

theorem op_ldy_U (n : Nes) (a : Nat) (h : n.cpu.P.testBit 5 = true) :
    (op_ldy n a).cpu.P.testBit 5 = true := by
  unfold op_ldy
  dsimp only
  exact set_ZN_U _ _ (by rw [bus_read_cpu]; exact h)

theorem op_pla_U (n : Nes) (h : n.cpu.P.testBit 5 = true) :
    (op_pla n).cpu.P.testBit 5 = true := by
  unfold op_pla
  dsimp only
  exact set_ZN_U _ _ (by rw [pop8_spec]; exact h)

theorem op_plp_U (n : Nes) : (op_plp n).cpu.P.testBit 5 = true := by
  unfold op_plp
  dsimp only
  exact forced_U _

theorem op_rti_U (n : Nes) : (op_rti n).cpu.P.testBit 5 = true := by
  unfold op_rti
  dsimp only
  rw [pop16_P]
  exact forced_U _

theorem op_rts_P (n : Nes) : (op_rts n).cpu.P = n.cpu.P := by
  unfold op_rts
  dsimp only
  rw [pop16_P]

theorem op_jsr_P (n : Nes) (a : Nat) : (op_jsr n a).cpu.P = n.cpu.P := by
  unfold op_jsr
  dsimp only
  rw [push16_P]

theorem op_brk_U (n : Nes) (h : n.cpu.P.testBit 5 = true) :
    (op_brk n).cpu.P.testBit 5 = true := by
  unfold op_brk
  dsimp only
  rw [read16_cpu]
  exact set_flag_U _ _ _ (by decide) (by rw [push8_P, push16_P]; exact h)

theorem op_sta_cpu (n : Nes) (a : Nat) : (op_sta n a).cpu = n.cpu := by
  unfold op_sta
  exact bus_write_cpu n a n.cpu.A

theorem op_stx_cpu (n : Nes) (a : Nat) : (op_stx n a).cpu = n.cpu := by
  unfold op_stx
  exact bus_write_cpu n a n.cpu.X

theorem op_sty_cpu (n : Nes) (a : Nat) : (op_sty n a).cpu = n.cpu := by
  unfold op_sty
  exact bus_write_cpu n a n.cpu.Y

theorem op_pha_P (n : Nes) : (op_pha n).cpu.P = n.cpu.P := by
  unfold op_pha
  rw [push8_P]

theorem op_php_P (n : Nes) : (op_php n).cpu.P = n.cpu.P := by
  unfold op_php
  rw [push8_P]

theorem testBit_ite (c : Prop) [inst : Decidable c] (a b : Nat × Nes)
    (hb : (((b.2).cpu.P).testBit 5) = true) (ha : (((a.2).cpu.P).testBit 5) = true) :
    ((((ite c a b).2).cpu.P).testBit 5) = true := by
  split_ifs <;> assumption

set_option maxHeartbeats 2000000 in
theorem cpu_exec_P (n : Nes) (opcode : Nat) (info : OpcodeInfo) (ar : AddrResult)
    (h : n.cpu.P.testBit 5 = true) :
    (((cpu_exec n opcode info ar).2).cpu.P).testBit 5 = true := by
  unfold cpu_exec
  iterate 73 refine testBit_ite _ _ _ ?_ ?_
  · exact h
  · exact set_ZN_U _ _ (set_flag_U _ _ _ (by decide) (by rw [bus_read_cpu]; exact h))
  · exact set_flag_U _ _ _ (by decide) (set_flag_U _ _ _ (by decide) (op_ror_U _ _ (op_and_U _ _ (by rw [bus_read_cpu]; exact h))))
  · exact op_lsr_U _ _ (op_and_U _ _ (by rw [bus_read_cpu]; exact h))
  · exact set_flag_U _ _ _ (by decide) (op_and_U _ _ (by rw [bus_read_cpu]; exact h))
  · exact op_adc_U _ _ (by rw [bus_write_cpu]; exact op_ror_U _ _ (by rw [bus_read_cpu]; exact h))
  · exact op_eor_U _ _ (by rw [bus_write_cpu]; exact op_lsr_U _ _ (by rw [bus_read_cpu]; exact h))
  · exact op_and_U _ _ (by rw [bus_write_cpu]; exact op_rol_U _ _ (by rw [bus_read_cpu]; exact h))
  · exact op_ora_U _ _ (by rw [bus_write_cpu]; exact op_asl_U _ _ (by rw [bus_read_cpu]; exact h))
  · exact op_sbc_U _ _ (by rw [bus_write_cpu]; exact op_inc_U _ _ (by rw [bus_read_cpu]; exact h))
  · exact op_cmp_U _ _ (by rw [bus_write_cpu]; exact op_dec_U _ _ (by rw [bus_read_cpu]; exact h))
  · try dsimp only
    rw [bus_write_cpu]
    exact h
  · exact set_ZN_U _ _ (by rw [bus_read_cpu]; exact h)
  · exact h
  · exact set_flag_U _ _ _ (by decide) h
  · try dsimp only
    rw [op_branch_P]
    exact h
  · exact h
  · exact set_ZN_U _ _ h
  · try dsimp only
    rw [bus_write_cpu]
    exact op_inc_U _ _ (by rw [bus_read_cpu]; exact h)
  · exact op_sbc_U _ _ (by rw [bus_read_cpu]; exact h)
  · exact op_cpx_U _ _ (by rw [bus_read_cpu]; exact h)
  · exact set_flag_U _ _ _ (by decide) h
  · try dsimp only
    rw [op_branch_P]
    exact h
  · exact set_ZN_U _ _ h
  · exact set_ZN_U _ _ h
  · try dsimp only
    rw [bus_write_cpu]
    exact op_dec_U _ _ (by rw [bus_read_cpu]; exact h)
  · exact op_cmp_U _ _ (by rw [bus_read_cpu]; exact h)
  · exact op_cpy_U _ _ (by rw [bus_read_cpu]; exact h)
  · exact set_ZN_U _ _ h
  · exact set_flag_U _ _ _ (by decide) h
  · try dsimp only
    rw [op_branch_P]
    exact h
  · exact set_ZN_U _ _ h
  · exact set_ZN_U _ _ h
  · exact op_ldx_U _ _ h
  · exact op_lda_U _ _ h
  · exact op_ldy_U _ _ h
  · exact h
  · exact set_ZN_U _ _ h
  · try dsimp only
    rw [op_branch_P]
    exact h
  · exact set_ZN_U _ _ h
  · exact set_ZN_U _ _ h
  · try dsimp only
    rw [op_stx_cpu]
    exact h
  · try dsimp only
    rw [op_sty_cpu]
    exact h
  · try dsimp only
    rw [op_sta_cpu]
    exact h
  · exact set_flag_U _ _ _ (by decide) h
  · try dsimp only
    rw [op_branch_P]
    exact h
  · exact op_pla_U _ h
  · exact op_ror_U _ _ h
  · try dsimp only
    rw [bus_write_cpu]
    exact op_ror_U _ _ (by rw [bus_read_cpu]; exact h)
  · exact op_adc_U _ _ (by rw [bus_read_cpu]; exact h)
  · try dsimp only
    rw [op_rts_P]
    exact h
  · exact set_flag_U _ _ _ (by decide) h
  · try dsimp only
    rw [op_branch_P]
    exact h
  · exact h
  · try dsimp only
    rw [op_pha_P]
    exact h
  · exact op_lsr_U _ _ h
  · try dsimp only
    rw [bus_write_cpu]
    exact op_lsr_U _ _ (by rw [bus_read_cpu]; exact h)
  · exact op_eor_U _ _ (by rw [bus_read_cpu]; exact h)
  · exact op_rti_U _
  · exact set_flag_U _ _ _ (by decide) h
  · try dsimp only
    rw [op_branch_P]
    exact h
  · exact op_plp_U _
  · exact op_rol_U _ _ h
  · try dsimp only
    rw [bus_write_cpu]
    exact op_rol_U _ _ (by rw [bus_read_cpu]; exact h)
  · exact op_bit_U _ _ (by rw [bus_read_cpu]; exact h)
  · exact op_and_U _ _ (by rw [bus_read_cpu]; exact h)
  · try dsimp only
    rw [op_jsr_P]
    exact h
  · exact set_flag_U _ _ _ (by decide) h
  · try dsimp only
    rw [op_branch_P]
    exact h
  · try dsimp only
    rw [op_php_P]
    exact h
  · exact op_asl_U _ _ h
  · try dsimp only
    rw [bus_write_cpu]
    exact op_asl_U _ _ (by rw [bus_read_cpu]; exact h)
  · exact op_ora_U _ _ (by rw [bus_read_cpu]; exact h)
  · exact op_brk_U n h

theorem cpu_step_P (n : Nes) (h : n.cpu.P.testBit 5 = true) :
    (((cpu_step n).2).cpu.P).testBit 5 = true := by
  unfold cpu_step
  dsimp only
  exact cpu_exec_P _ _ _ _
    (by rw [resolve_addr_P]
        show ((bus_read n n.cpu.PC).2).cpu.P.testBit 5 = true
        rw [bus_read_cpu]
        exact h)

theorem cpu_nmi_P (n : Nes) (h : n.cpu.P.testBit 5 = true) :
    ((cpu_nmi n).cpu.P).testBit 5 = true := by
  unfold cpu_nmi
  dsimp only
  rw [read16_cpu]
  exact set_flag_U _ _ _ (by decide) (by rw [push8_P, push16_P]; exact h)

theorem cpu_irq_P (n : Nes) (h : n.cpu.P.testBit 5 = true) :
    ((cpu_irq n).cpu.P).testBit 5 = true := by
  unfold cpu_irq
  split_ifs
  · exact h
  · dsimp only
    rw [read16_cpu]
    exact set_flag_U _ _ _ (by decide) (by rw [push8_P, push16_P]; exact h)

theorem cpu_reset_U (n : Nes) : ((cpu_reset n).cpu.P).testBit 5 = true := by
  unfold cpu_reset
  dsimp only
  rw [read16_cpu]
  show Nat.testBit (FLAG_U ||| FLAG_I) 5 = true
  decide

theorem cpu_init_U : (cpu_init.P).testBit 5 = true := by decide

/-! ## Claim C8 -/

/-- C8: bit 5 (Unused) of the status register P is 1 in every observable
CPU state: after `cpu_init` and `cpu_reset`, after any instruction
`cpu_step` (BRK included via opcode `$00`), after NMI and IRQ entry, and
after `op_plp` and `op_rti` (which force the bit regardless of the value
popped), provided it held before — and `cpu_init`, `cpu_reset`, `op_plp`
and `op_rti` establish it outright. -/
theorem C8_unused_bit_always_one (n : Nes) (h : n.cpu.P.testBit 5 = true) :
    (cpu_init.P).testBit 5 = true ∧
    ((cpu_reset n).cpu.P).testBit 5 = true ∧
    (((cpu_step n).2).cpu.P).testBit 5 = true ∧
    ((cpu_nmi n).cpu.P).testBit 5 = true ∧
    ((cpu_irq n).cpu.P).testBit 5 = true ∧
    ((op_brk n).cpu.P).testBit 5 = true ∧
    ((op_plp n).cpu.P).testBit 5 = true ∧
    ((op_rti n).cpu.P).testBit 5 = true :=
  ⟨cpu_init_U, cpu_reset_U n, cpu_step_P n h, cpu_nmi_P n h, cpu_irq_P n h,
   op_brk_U n h, op_plp_U n, op_rti_U n⟩

/-- Witness for `C8_unused_bit_always_one` at the freshly initialized
machine `nes0` (its `P` is `$24`, whose bit 5 is set). -/
theorem C8_unused_bit_always_one_witness :
    nes0.cpu.P.testBit 5 = true ∧
    ((cpu_init.P).testBit 5 = true ∧
     ((cpu_reset nes0).cpu.P).testBit 5 = true ∧
     (((cpu_step nes0).2).cpu.P).testBit 5 = true ∧
     ((cpu_nmi nes0).cpu.P).testBit 5 = true ∧
     ((cpu_irq nes0).cpu.P).testBit 5 = true ∧
     ((op_brk nes0).cpu.P).testBit 5 = true ∧
     ((op_plp nes0).cpu.P).testBit 5 = true ∧
     ((op_rti nes0).cpu.P).testBit 5 = true) :=
  ⟨by decide, C8_unused_bit_always_one nes0 (by decide)⟩
